import Mathlib

/-!
# ScriptDev3 script registry and dispatch core (`ScriptDevMgr.cpp`)

A shallow embedding of `src/ScriptDevMgr.cpp`.

* The file-scope globals `m_scripts`, `num_sc_scripts` and `SpellSummary`, together with the
  heap objects they point to, form the library state `Lib`.
* Everything the file does to its collaborators (log lines, `ClearMenus`, calls through a
  callback slot, map announcements) is recorded, in program order, in the `trace` of the host
  state `World`; script callbacks are arbitrary functions on `World` and do not touch the
  library state.
* Operations whose C++ behaviour is undefined (unchecked `m_scripts[id]` outside the vector,
  reading or deleting an object that is not live) return `Except.error`.
-/

namespace SD3

/-! ## Host-side values -/

/-- Handle of a `Player*`. -/
abbrev Player := Nat
/-- Handle of a `Quest const*`. -/
abbrev Quest := Nat
/-- Handle of an `Object*`. -/
abbrev Object := Nat
/-- Handle of a `Unit*` (named `WorldUnit`, since `Unit` is a core Lean type). -/
abbrev WorldUnit := Nat
/-- An `ObjectGuid`. -/
abbrev ObjectGuid := Nat
/-- A `SpellEffectIndex`. -/
abbrev SpellEffectIndex := Nat
/-- Handle of a `SpellCastTargets const&`. -/
abbrev SpellCastTargets := Nat
/-- Handle of a `CreatureAI*` returned by a factory callback; `none` is `NULL`. -/
abbrev CreatureAI := Nat
/-- Handle of an `InstanceData*` returned by a factory callback; `none` is `NULL`. -/
abbrev InstanceData := Nat

/-- A `Creature*`, with what the file reads from it. -/
structure Creature where
  GetObjectGuid : ObjectGuid
  GetScriptId : Nat
  deriving DecidableEq, Repr

/-- A `GameObjectInfo const*`. -/
structure GameObjectInfo where
  ScriptId : Nat
  deriving DecidableEq, Repr

/-- A `GameObject*`. -/
structure GameObject where
  guid : ObjectGuid
  GetGOInfo : GameObjectInfo
  deriving DecidableEq, Repr

/-- An `ItemPrototype const*`. -/
structure ItemPrototype where
  ScriptId : Nat
  deriving DecidableEq, Repr

/-- An `Item*`. -/
structure Item where
  guid : ObjectGuid
  GetProto : ItemPrototype
  deriving DecidableEq, Repr

/-- A `Map*`. -/
structure Map where
  GetId : Nat
  GetScriptId : Nat
  deriving DecidableEq, Repr

/-- An `AreaTriggerEntry const*`. -/
structure AreaTriggerEntry where
  id : Nat
  deriving DecidableEq, Repr

/-- An `Aura const*`; `GetTarget` is the target the file casts to `Creature*`. -/
structure Aura where
  GetTarget : Creature
  deriving DecidableEq, Repr

/-- A `WorldObject*` used as a text source. -/
structure WorldObject where
  GetEntry : Nat
  GetTypeId : Nat
  GetGUIDLow : Nat
  deriving DecidableEq, Repr

/-- A `CreatureInfo const*` (creature template). -/
structure CreatureInfo where
  Entry : Nat
  deriving DecidableEq, Repr

/-- A `MangosStringLocale const*` (text row); `Type_` is the row's `Type` field. -/
structure MangosStringLocale where
  SoundId : Nat
  Type_ : Nat
  LanguageId : Nat
  Emote : Nat
  deriving DecidableEq, Repr

/-- The callback slots of a `Script`, used to tag a call through a slot in the trace. -/
inductive Slot
  | pGossipHello | pGossipHelloGO | pGossipSelect | pGossipSelectGO
  | pGossipSelectWithCode | pGossipSelectGOWithCode
  | pQuestAcceptNPC | pQuestRewardedNPC | pDialogStatusNPC | pDialogStatusGO
  | pQuestAcceptItem | pGOUse | pQuestAcceptGO | pQuestRewardedGO
  | pAreaTrigger | pNpcSpellClick | pProcessEventId | GetAI | pItemUse
  | pEffectDummyNPC | pEffectDummyGO | pEffectDummyItem | pEffectScriptEffectNPC
  | pEffectAuraDummy | GetInstanceData
  deriving DecidableEq, Repr

/-- An argument of a printf-style log call. -/
inductive LogArg
  | int (i : Int)
  | str (s : String)
  deriving DecidableEq, Repr

/-- One observable action of the file on its collaborators. -/
inductive Event
  | outstring_log (fmt : String) (args : List LogArg)
  | debug_log (fmt : String) (args : List LogArg)
  | script_error_log (fmt : String) (args : List LogArg)
  | ClearMenus (pPlayer : Player)
  | callback (script : Nat) (slot : Slot)
  | DoDisplayText (pSource : WorldObject) (iTextEntry : Int) (pTarget : Option WorldUnit)
  | PlayDirectSoundToMap (map : Nat) (SoundId : Nat)
  | MonsterYellToMapGuid (map : Nat) (guid : ObjectGuid) (iTextEntry : Int) (LanguageId : Nat)
      (pTarget : Option WorldUnit)
  | MonsterYellToMapInfo (map : Nat) (pInfo : CreatureInfo) (iTextEntry : Int) (LanguageId : Nat)
      (pTarget : Option WorldUnit)
  | hostCall (name : String)
  deriving DecidableEq, Repr

/-- Host state seen by the file: each player's pending gossip menu (`PlayerTalkClass`) and the
trace of actions performed so far, oldest first. -/
structure World where
  menus : Player → List Nat
  trace : List Event

/-- Appends one action to the trace. -/
def World.emit (w : World) (e : Event) : World :=
  { w with trace := w.trace ++ [e] }

/-- The call `pPlayer->PlayerTalkClass->ClearMenus()`. -/
def World.ClearMenus (w : World) (pPlayer : Player) : World :=
  { menus := fun q => if q = pPlayer then [] else w.menus q
    trace := w.trace ++ [Event.ClearMenus pPlayer] }

/-- Marks the indirect call through `slot` of the script object at address `script`. -/
def World.callback (w : World) (script : Nat) (slot : Slot) : World :=
  w.emit (Event.callback script slot)

/-! ## Handler records -/

/-- The `Script` record: its registration name and one optional callback per event category
(`none` is a null function pointer). The fields are those `ScriptDevMgr.cpp` reads. -/
structure Script where
  Name : String
  pGossipHello : Option (Player → Creature → World → Bool × World) := none
  pGossipHelloGO : Option (Player → GameObject → World → Bool × World) := none
  pGossipSelect : Option (Player → Creature → Nat → Nat → World → Bool × World) := none
  pGossipSelectGO : Option (Player → GameObject → Nat → Nat → World → Bool × World) := none
  pGossipSelectWithCode :
    Option (Player → Creature → Nat → Nat → String → World → Bool × World) := none
  pGossipSelectGOWithCode :
    Option (Player → GameObject → Nat → Nat → String → World → Bool × World) := none
  pQuestAcceptNPC : Option (Player → Creature → Quest → World → Bool × World) := none
  pQuestRewardedNPC : Option (Player → Creature → Quest → World → Bool × World) := none
  pDialogStatusNPC : Option (Player → Creature → World → Nat × World) := none
  pDialogStatusGO : Option (Player → GameObject → World → Nat × World) := none
  pQuestAcceptItem : Option (Player → Item → Quest → World → Bool × World) := none
  pGOUse : Option (Player → GameObject → World → Bool × World) := none
  pQuestAcceptGO : Option (Player → GameObject → Quest → World → Bool × World) := none
  pQuestRewardedGO : Option (Player → GameObject → Quest → World → Bool × World) := none
  pAreaTrigger : Option (Player → AreaTriggerEntry → World → Bool × World) := none
  pNpcSpellClick : Option (Player → Creature → Nat → World → Bool × World) := none
  pProcessEventId : Option (Nat → Object → Object → Bool → World → Bool × World) := none
  GetAI : Option (Creature → World → Option CreatureAI × World) := none
  pItemUse : Option (Player → Item → SpellCastTargets → World → Bool × World) := none
  pEffectDummyNPC :
    Option (WorldUnit → Nat → SpellEffectIndex → Creature → ObjectGuid → World → Bool × World) :=
    none
  pEffectDummyGO :
    Option (WorldUnit → Nat → SpellEffectIndex → GameObject → ObjectGuid → World → Bool × World) :=
    none
  pEffectDummyItem :
    Option (WorldUnit → Nat → SpellEffectIndex → Item → ObjectGuid → World → Bool × World) := none
  pEffectScriptEffectNPC :
    Option (WorldUnit → Nat → SpellEffectIndex → Creature → ObjectGuid → World → Bool × World) :=
    none
  pEffectAuraDummy : Option (Aura → Bool → World → Bool × World) := none
  GetInstanceData : Option (Map → World → Option InstanceData × World) := none

/-! ## Library state -/

/-- Undefined behaviour the model makes explicit. -/
inductive UB
  | outOfRange
  | danglingPointer
  | doubleFree
  deriving DecidableEq, Repr

/-- A heap object allocated by this library. -/
inductive Obj
  | script (s : Script)
  | spellSummary (rows : Nat)

/-- The value a 32-bit two's-complement `int` holds for the mathematical integer `x`. -/
def wrapInt32 (x : Int) : Int :=
  (x + 2147483648) % 4294967296 - 2147483648

/-- The file-scope state. A pointer is an address into `heap` (`none` is `NULL`); `heap[a]` is
`some o` while the object at address `a` is live and `none` once it has been deleted.
`num_sc_scripts` is the C++ `int` counter: a 32-bit signed value, whose increment wraps from
`2147483647` to `-2147483648`. -/
structure Lib where
  m_scripts : List (Option Nat)
  num_sc_scripts : Int
  SpellSummary : Option Nat
  heap : List (Option Obj)

/-- The state at process start: zero-initialised globals, nothing allocated. -/
def Lib.initial : Lib :=
  { m_scripts := [], num_sc_scripts := 0, SpellSummary := none, heap := [] }

/-- The live `Script` object at address `a`, if there is one. -/
def Lib.script? (L : Lib) (a : Nat) : Option Script :=
  match L.heap[a]? with
  | some (some (Obj.script s)) => some s
  | _ => none

/-- The operator `new`: allocates a fresh address holding `o`. -/
def Lib.alloc (L : Lib) (o : Obj) : Nat × Lib :=
  (L.heap.length, { L with heap := L.heap ++ [some o] })

/-- The statement `Script* pTempScript = m_scripts[id]` followed by the null test and the read
through the pointer: `none` for a null entry, otherwise the address and the record behind
it. -/
def Lib.lookup (L : Lib) (id : Nat) : Except UB (Option (Nat × Script)) :=
  match L.m_scripts[id]? with
  | none => Except.error UB.outOfRange
  | some none => Except.ok none
  | some (some a) =>
    match L.script? a with
    | none => Except.error UB.danglingPointer
    | some s => Except.ok (some (a, s))

/-- What the host (mangos core) provides to this file. -/
structure Host where
  GetScriptIdsCount : Nat
  GetScriptId : String → Nat
  GetScriptName : Nat → String
  GetAreaTriggerScriptId : Nat → Nat
  GetEventIdScriptId : Nat → Nat
  GetCreatureTemplateStore : Nat → Option CreatureInfo
  GetMangosStringData : Int → Option MangosStringLocale
  DIALOG_STATUS_UNDEFINED : Nat
  CHAT_TYPE_ZONE_YELL : Nat
  GetSpellStoreNumRows : Nat
  configSetSource : Bool
  ConfVersion : Int
  MANGOSD_CONFIG_VERSION : Int
  MANGOSD_CONFIG_LOCATION : String
  SD3ErrorLogFile : String
  ScriptDev3DatabaseInfo : String
  databaseInitialize : Bool

/-! ## Dispatch entry points (`SD3::...`)

Each entry point reads `m_scripts[id]` for the entity's script id, returns the neutral value
when the entry or the slot is null, and otherwise calls the slot. -/

/-- The entry point `SD3::GossipHello`. -/
def GossipHello (L : Lib) (pPlayer : Player) (pCreature : Creature) (w : World) :
    Except UB (Bool × World) :=
  match L.lookup pCreature.GetScriptId with
  | Except.error e => Except.error e
  | Except.ok none => Except.ok (false, w)
  | Except.ok (some (a, pTempScript)) =>
    match pTempScript.pGossipHello with
    | none => Except.ok (false, w)
    | some f =>
      Except.ok (f pPlayer pCreature
        ((w.ClearMenus pPlayer).callback a Slot.pGossipHello))

/-- The entry point `SD3::GOGossipHello`. -/
def GOGossipHello (L : Lib) (pPlayer : Player) (pGo : GameObject) (w : World) :
    Except UB (Bool × World) :=
  match L.lookup pGo.GetGOInfo.ScriptId with
  | Except.error e => Except.error e
  | Except.ok none => Except.ok (false, w)
  | Except.ok (some (a, pTempScript)) =>
    match pTempScript.pGossipHelloGO with
    | none => Except.ok (false, w)
    | some f => Except.ok (f pPlayer pGo ((w.ClearMenus pPlayer).callback a Slot.pGossipHelloGO))

/-- The entry point `SD3::GossipSelect`. -/
def GossipSelect (L : Lib) (pPlayer : Player) (pCreature : Creature) (uiSender : Nat)
    (uiAction : Nat) (w : World) :
    Except UB (Bool × World) :=
  let w0 := w.emit (Event.debug_log "sd3: Gossip selection, sender: %u, action: %u"
    [LogArg.int uiSender, LogArg.int uiAction])
  match L.lookup pCreature.GetScriptId with
  | Except.error e => Except.error e
  | Except.ok none => Except.ok (false, w0)
  | Except.ok (some (a, pTempScript)) =>
    match pTempScript.pGossipSelect with
    | none => Except.ok (false, w0)
    | some f =>
      Except.ok (f pPlayer pCreature uiSender uiAction
        ((w0.ClearMenus pPlayer).callback a Slot.pGossipSelect))

/-- The entry point `SD3::GOGossipSelect`. -/
def GOGossipSelect (L : Lib) (pPlayer : Player) (pGo : GameObject) (uiSender : Nat)
    (uiAction : Nat) (w : World) :
    Except UB (Bool × World) :=
  let w0 := w.emit (Event.debug_log "sd3: GO Gossip selection, sender: %u, action: %u"
    [LogArg.int uiSender, LogArg.int uiAction])
  match L.lookup pGo.GetGOInfo.ScriptId with
  | Except.error e => Except.error e
  | Except.ok none => Except.ok (false, w0)
  | Except.ok (some (a, pTempScript)) =>
    match pTempScript.pGossipSelectGO with
    | none => Except.ok (false, w0)
    | some f =>
      Except.ok (f pPlayer pGo uiSender uiAction
        ((w0.ClearMenus pPlayer).callback a Slot.pGossipSelectGO))

/-- The entry point `SD3::GossipSelectWithCode`. -/
def GossipSelectWithCode (L : Lib) (pPlayer : Player) (pCreature : Creature) (uiSender : Nat)
    (uiAction : Nat) (sCode : String) (w : World) :
    Except UB (Bool × World) :=
  let w0 := w.emit (Event.debug_log "sd3: Gossip selection with code, sender: %u, action: %u"
    [LogArg.int uiSender, LogArg.int uiAction])
  match L.lookup pCreature.GetScriptId with
  | Except.error e => Except.error e
  | Except.ok none => Except.ok (false, w0)
  | Except.ok (some (a, pTempScript)) =>
    match pTempScript.pGossipSelectWithCode with
    | none => Except.ok (false, w0)
    | some f =>
      Except.ok (f pPlayer pCreature uiSender uiAction sCode
        ((w0.ClearMenus pPlayer).callback a Slot.pGossipSelectWithCode))

/-- The entry point `SD3::GOGossipSelectWithCode`. -/
def GOGossipSelectWithCode (L : Lib) (pPlayer : Player) (pGo : GameObject) (uiSender : Nat)
    (uiAction : Nat) (sCode : String) (w : World) :
    Except UB (Bool × World) :=
  let w0 := w.emit (Event.debug_log "sd3: GO Gossip selection with code, sender: %u, action: %u"
    [LogArg.int uiSender, LogArg.int uiAction])
  match L.lookup pGo.GetGOInfo.ScriptId with
  | Except.error e => Except.error e
  | Except.ok none => Except.ok (false, w0)
  | Except.ok (some (a, pTempScript)) =>
    match pTempScript.pGossipSelectGOWithCode with
    | none => Except.ok (false, w0)
    | some f =>
      Except.ok (f pPlayer pGo uiSender uiAction sCode
        ((w0.ClearMenus pPlayer).callback a Slot.pGossipSelectGOWithCode))

/-- The entry point `SD3::QuestAccept`. -/
def QuestAccept (L : Lib) (pPlayer : Player) (pCreature : Creature) (pQuest : Quest) (w : World) :
    Except UB (Bool × World) :=
  match L.lookup pCreature.GetScriptId with
  | Except.error e => Except.error e
  | Except.ok none => Except.ok (false, w)
  | Except.ok (some (a, pTempScript)) =>
    match pTempScript.pQuestAcceptNPC with
    | none => Except.ok (false, w)
    | some f =>
      Except.ok (f pPlayer pCreature pQuest
        ((w.ClearMenus pPlayer).callback a Slot.pQuestAcceptNPC))

/-- The entry point `SD3::QuestRewarded`. -/
def QuestRewarded (L : Lib) (pPlayer : Player) (pCreature : Creature) (pQuest : Quest) (w : World) :
    Except UB (Bool × World) :=
  match L.lookup pCreature.GetScriptId with
  | Except.error e => Except.error e
  | Except.ok none => Except.ok (false, w)
  | Except.ok (some (a, pTempScript)) =>
    match pTempScript.pQuestRewardedNPC with
    | none => Except.ok (false, w)
    | some f =>
      Except.ok (f pPlayer pCreature pQuest
        ((w.ClearMenus pPlayer).callback a Slot.pQuestRewardedNPC))

/-- The entry point `SD3::GetNPCDialogStatus`. -/
def GetNPCDialogStatus (H : Host) (L : Lib) (pPlayer : Player) (pCreature : Creature) (w : World) :
    Except UB (Nat × World) :=
  match L.lookup pCreature.GetScriptId with
  | Except.error e => Except.error e
  | Except.ok none => Except.ok (H.DIALOG_STATUS_UNDEFINED, w)
  | Except.ok (some (a, pTempScript)) =>
    match pTempScript.pDialogStatusNPC with
    | none => Except.ok (H.DIALOG_STATUS_UNDEFINED, w)
    | some f =>
      Except.ok (f pPlayer pCreature
        ((w.ClearMenus pPlayer).callback a Slot.pDialogStatusNPC))

/-- The entry point `SD3::GetGODialogStatus`. -/
def GetGODialogStatus (H : Host) (L : Lib) (pPlayer : Player) (pGo : GameObject) (w : World) :
    Except UB (Nat × World) :=
  match L.lookup pGo.GetGOInfo.ScriptId with
  | Except.error e => Except.error e
  | Except.ok none => Except.ok (H.DIALOG_STATUS_UNDEFINED, w)
  | Except.ok (some (a, pTempScript)) =>
    match pTempScript.pDialogStatusGO with
    | none => Except.ok (H.DIALOG_STATUS_UNDEFINED, w)
    | some f => Except.ok (f pPlayer pGo ((w.ClearMenus pPlayer).callback a Slot.pDialogStatusGO))

/-- The entry point `SD3::ItemQuestAccept`. -/
def ItemQuestAccept (L : Lib) (pPlayer : Player) (pItem : Item) (pQuest : Quest) (w : World) :
    Except UB (Bool × World) :=
  match L.lookup pItem.GetProto.ScriptId with
  | Except.error e => Except.error e
  | Except.ok none => Except.ok (false, w)
  | Except.ok (some (a, pTempScript)) =>
    match pTempScript.pQuestAcceptItem with
    | none => Except.ok (false, w)
    | some f =>
      Except.ok (f pPlayer pItem pQuest
        ((w.ClearMenus pPlayer).callback a Slot.pQuestAcceptItem))

/-- The entry point `SD3::GOUse`. -/
def GOUse (L : Lib) (pPlayer : Player) (pGo : GameObject) (w : World) :
    Except UB (Bool × World) :=
  match L.lookup pGo.GetGOInfo.ScriptId with
  | Except.error e => Except.error e
  | Except.ok none => Except.ok (false, w)
  | Except.ok (some (a, pTempScript)) =>
    match pTempScript.pGOUse with
    | none => Except.ok (false, w)
    | some f => Except.ok (f pPlayer pGo (w.callback a Slot.pGOUse))

/-- The entry point `SD3::GOQuestAccept`. -/
def GOQuestAccept (L : Lib) (pPlayer : Player) (pGo : GameObject) (pQuest : Quest) (w : World) :
    Except UB (Bool × World) :=
  match L.lookup pGo.GetGOInfo.ScriptId with
  | Except.error e => Except.error e
  | Except.ok none => Except.ok (false, w)
  | Except.ok (some (a, pTempScript)) =>
    match pTempScript.pQuestAcceptGO with
    | none => Except.ok (false, w)
    | some f =>
      Except.ok (f pPlayer pGo pQuest
        ((w.ClearMenus pPlayer).callback a Slot.pQuestAcceptGO))

/-- The entry point `SD3::GOQuestRewarded`. -/
def GOQuestRewarded (L : Lib) (pPlayer : Player) (pGo : GameObject) (pQuest : Quest) (w : World) :
    Except UB (Bool × World) :=
  match L.lookup pGo.GetGOInfo.ScriptId with
  | Except.error e => Except.error e
  | Except.ok none => Except.ok (false, w)
  | Except.ok (some (a, pTempScript)) =>
    match pTempScript.pQuestRewardedGO with
    | none => Except.ok (false, w)
    | some f =>
      Except.ok (f pPlayer pGo pQuest
        ((w.ClearMenus pPlayer).callback a Slot.pQuestRewardedGO))

/-- The entry point `SD3::AreaTrigger`. -/
def AreaTrigger (H : Host) (L : Lib) (pPlayer : Player) (atEntry : AreaTriggerEntry) (w : World) :
    Except UB (Bool × World) :=
  match L.lookup (H.GetAreaTriggerScriptId atEntry.id) with
  | Except.error e => Except.error e
  | Except.ok none => Except.ok (false, w)
  | Except.ok (some (a, pTempScript)) =>
    match pTempScript.pAreaTrigger with
    | none => Except.ok (false, w)
    | some f => Except.ok (f pPlayer atEntry (w.callback a Slot.pAreaTrigger))

/-- The entry point `SD3::NpcSpellClick` (compiled only when `WOTLK` is defined). -/
def NpcSpellClick (L : Lib) (pPlayer : Player) (pClickedCreature : Creature) (uiSpellId : Nat)
    (w : World) :
    Except UB (Bool × World) :=
  match L.lookup pClickedCreature.GetScriptId with
  | Except.error e => Except.error e
  | Except.ok none => Except.ok (false, w)
  | Except.ok (some (a, pTempScript)) =>
    match pTempScript.pNpcSpellClick with
    | none => Except.ok (false, w)
    | some f => Except.ok (f pPlayer pClickedCreature uiSpellId (w.callback a Slot.pNpcSpellClick))

/-- The entry point `SD3::ProcessEvent`. -/
def ProcessEvent (H : Host) (L : Lib) (uiEventId : Nat) (pSource : Object) (pTarget : Object)
    (bIsStart : Bool) (w : World) :
    Except UB (Bool × World) :=
  match L.lookup (H.GetEventIdScriptId uiEventId) with
  | Except.error e => Except.error e
  | Except.ok none => Except.ok (false, w)
  | Except.ok (some (a, pTempScript)) =>
    match pTempScript.pProcessEventId with
    | none => Except.ok (false, w)
    | some f => Except.ok (f uiEventId pSource pTarget bIsStart (w.callback a Slot.pProcessEventId))

/-- The entry point `SD3::GetCreatureAI`. -/
def GetCreatureAI (L : Lib) (pCreature : Creature) (w : World) :
    Except UB (Option CreatureAI × World) :=
  match L.lookup pCreature.GetScriptId with
  | Except.error e => Except.error e
  | Except.ok none => Except.ok (none, w)
  | Except.ok (some (a, pTempScript)) =>
    match pTempScript.GetAI with
    | none => Except.ok (none, w)
    | some f => Except.ok (f pCreature (w.callback a Slot.GetAI))

/-- The entry point `SD3::ItemUse`. -/
def ItemUse (L : Lib) (pPlayer : Player) (pItem : Item) (targets : SpellCastTargets) (w : World) :
    Except UB (Bool × World) :=
  match L.lookup pItem.GetProto.ScriptId with
  | Except.error e => Except.error e
  | Except.ok none => Except.ok (false, w)
  | Except.ok (some (a, pTempScript)) =>
    match pTempScript.pItemUse with
    | none => Except.ok (false, w)
    | some f => Except.ok (f pPlayer pItem targets (w.callback a Slot.pItemUse))

/-- The entry point `SD3::EffectDummyCreature`. -/
def EffectDummyCreature (L : Lib) (pCaster : WorldUnit) (spellId : Nat)
    (effIndex : SpellEffectIndex) (pTarget : Creature) (originalCasterGuid : ObjectGuid)
        (w : World) :
    Except UB (Bool × World) :=
  match L.lookup pTarget.GetScriptId with
  | Except.error e => Except.error e
  | Except.ok none => Except.ok (false, w)
  | Except.ok (some (a, pTempScript)) =>
    match pTempScript.pEffectDummyNPC with
    | none => Except.ok (false, w)
    | some f =>
      Except.ok (f pCaster spellId effIndex pTarget originalCasterGuid
        (w.callback a Slot.pEffectDummyNPC))

/-- The entry point `SD3::EffectDummyGameObject`. -/
def EffectDummyGameObject (L : Lib) (pCaster : WorldUnit) (spellId : Nat)
    (effIndex : SpellEffectIndex) (pTarget : GameObject) (originalCasterGuid : ObjectGuid)
        (w : World) :
    Except UB (Bool × World) :=
  match L.lookup pTarget.GetGOInfo.ScriptId with
  | Except.error e => Except.error e
  | Except.ok none => Except.ok (false, w)
  | Except.ok (some (a, pTempScript)) =>
    match pTempScript.pEffectDummyGO with
    | none => Except.ok (false, w)
    | some f =>
      Except.ok (f pCaster spellId effIndex pTarget originalCasterGuid
        (w.callback a Slot.pEffectDummyGO))

/-- The entry point `SD3::EffectDummyItem`. -/
def EffectDummyItem (L : Lib) (pCaster : WorldUnit) (spellId : Nat)
    (effIndex : SpellEffectIndex) (pTarget : Item) (originalCasterGuid : ObjectGuid) (w : World) :
    Except UB (Bool × World) :=
  match L.lookup pTarget.GetProto.ScriptId with
  | Except.error e => Except.error e
  | Except.ok none => Except.ok (false, w)
  | Except.ok (some (a, pTempScript)) =>
    match pTempScript.pEffectDummyItem with
    | none => Except.ok (false, w)
    | some f =>
      Except.ok (f pCaster spellId effIndex pTarget originalCasterGuid
        (w.callback a Slot.pEffectDummyItem))

/-- The entry point `SD3::EffectScriptEffectCreature`. -/
def EffectScriptEffectCreature (L : Lib) (pCaster : WorldUnit) (spellId : Nat)
    (effIndex : SpellEffectIndex) (pTarget : Creature) (originalCasterGuid : ObjectGuid)
        (w : World) :
    Except UB (Bool × World) :=
  match L.lookup pTarget.GetScriptId with
  | Except.error e => Except.error e
  | Except.ok none => Except.ok (false, w)
  | Except.ok (some (a, pTempScript)) =>
    match pTempScript.pEffectScriptEffectNPC with
    | none => Except.ok (false, w)
    | some f =>
      Except.ok (f pCaster spellId effIndex pTarget originalCasterGuid
        (w.callback a Slot.pEffectScriptEffectNPC))

/-- The entry point `SD3::AuraDummy`. -/
def AuraDummy (L : Lib) (pAura : Aura) (bApply : Bool) (w : World) :
    Except UB (Bool × World) :=
  match L.lookup pAura.GetTarget.GetScriptId with
  | Except.error e => Except.error e
  | Except.ok none => Except.ok (false, w)
  | Except.ok (some (a, pTempScript)) =>
    match pTempScript.pEffectAuraDummy with
    | none => Except.ok (false, w)
    | some f => Except.ok (f pAura bApply (w.callback a Slot.pEffectAuraDummy))

/-- The entry point `SD3::CreateInstanceData`. -/
def CreateInstanceData (L : Lib) (pMap : Map) (w : World) :
    Except UB (Option InstanceData × World) :=
  match L.lookup pMap.GetScriptId with
  | Except.error e => Except.error e
  | Except.ok none => Except.ok (none, w)
  | Except.ok (some (a, pTempScript)) =>
    match pTempScript.GetInstanceData with
    | none => Except.ok (none, w)
    | some f => Except.ok (f pMap (w.callback a Slot.GetInstanceData))

/-! ## Text-announcement helpers -/

/-- The function `DoScriptText(iTextEntry, pSource, pTarget)`; a null pointer argument is `none`. -/
def DoScriptText (iTextEntry : Int) (pSource : Option WorldObject) (pTarget : Option WorldUnit)
    (w : World) : World :=
  match pSource with
  | none =>
    w.emit (Event.script_error_log "DoScriptText entry %i, invalid Source pointer."
      [LogArg.int iTextEntry])
  | some src =>
    if iTextEntry ≥ 0 then
      w.emit (Event.script_error_log
        "DoScriptText with source entry %u (TypeId=%u, guid=%u) attempts to process text entry %i, but text entry must be negative."
        [LogArg.int src.GetEntry, LogArg.int src.GetTypeId, LogArg.int src.GetGUIDLow,
          LogArg.int iTextEntry])
    else
      w.emit (Event.DoDisplayText src iTextEntry pTarget)

/-- The function `DoOrSimulateScriptTextForMap(iTextEntry, uiCreatureEntry, pMap,
pCreatureSource, pTarget)`; a null pointer argument is `none`. -/
def DoOrSimulateScriptTextForMap (H : Host) (iTextEntry : Int) (uiCreatureEntry : Nat)
    (pMap : Option Map) (pCreatureSource : Option Creature) (pTarget : Option WorldUnit)
    (w : World) : World :=
  match pMap with
  | none =>
    w.emit (Event.script_error_log "DoOrSimulateScriptTextForMap entry %i, invalid Map pointer."
      [LogArg.int iTextEntry])
  | some m =>
    if iTextEntry ≥ 0 then
      w.emit (Event.script_error_log
        "DoOrSimulateScriptTextForMap with source entry %u for map %u attempts to process text entry %i, but text entry must be negative."
        [LogArg.int uiCreatureEntry, LogArg.int m.GetId, LogArg.int iTextEntry])
    else
      match H.GetCreatureTemplateStore uiCreatureEntry with
      | none =>
        w.emit (Event.script_error_log
          "DoOrSimulateScriptTextForMap has invalid source entry %u for map %u."
          [LogArg.int uiCreatureEntry, LogArg.int m.GetId])
      | some pInfo =>
        match H.GetMangosStringData iTextEntry with
        | none =>
          w.emit (Event.script_error_log
            "DoOrSimulateScriptTextForMap with source entry %u for map %u could not find text entry %i."
            [LogArg.int uiCreatureEntry, LogArg.int m.GetId, LogArg.int iTextEntry])
        | some pData =>
          let w1 := w.emit (Event.debug_log
            "sd3: DoOrSimulateScriptTextForMap: text entry=%i, Sound=%u, Type=%u, Language=%u, Emote=%u"
            [LogArg.int iTextEntry, LogArg.int pData.SoundId, LogArg.int pData.Type_,
              LogArg.int pData.LanguageId, LogArg.int pData.Emote])
          if pData.Type_ ≠ H.CHAT_TYPE_ZONE_YELL then
            w1.emit (Event.script_error_log
              "DoSimulateScriptTextForMap entry %i has not supported chat type %u."
              [LogArg.int iTextEntry, LogArg.int pData.Type_])
          else
            let w2 :=
              if pData.SoundId ≠ 0 then w1.emit (Event.PlayDirectSoundToMap m.GetId pData.SoundId)
              else w1
            match pCreatureSource with
            | some src =>
              w2.emit (Event.MonsterYellToMapGuid m.GetId src.GetObjectGuid iTextEntry
                pData.LanguageId pTarget)
            | none =>
              w2.emit (Event.MonsterYellToMapInfo m.GetId pInfo iTextEntry pData.LanguageId pTarget)

/-! ## Registration -/

/-- The operator `delete p` for a `Script*`: nothing for a null pointer, undefined unless the
object is a live `Script`. -/
def deleteScript (heap : List (Option Obj)) : Option Nat → Except UB (List (Option Obj))
  | none => Except.ok heap
  | some a =>
    match heap[a]? with
    | some (some (Obj.script _)) => Except.ok (heap.set a none)
    | _ => Except.error UB.doubleFree

/-- The operator `delete [] p` for the `TSpellSummary*` table. -/
def deleteArray (heap : List (Option Obj)) : Option Nat → Except UB (List (Option Obj))
  | none => Except.ok heap
  | some a =>
    match heap[a]? with
    | some (some (Obj.spellSummary _)) => Except.ok (heap.set a none)
    | _ => Except.error UB.doubleFree

/-- The function `Script::RegisterSelf(bReportError)` on the object at address `this`. -/
def RegisterSelf (H : Host) (this : Nat) (bReportError : Bool) (L : Lib) (w : World) :
    Except UB (Lib × World) :=
  match L.script? this with
  | none => Except.error UB.danglingPointer
  | some self =>
    let id := H.GetScriptId self.Name
    if id ≠ 0 then
      if id < L.m_scripts.length then
        Except.ok ({ L with
          m_scripts := L.m_scripts.set id (some this)
          num_sc_scripts := wrapInt32 (L.num_sc_scripts + 1) }, w)
      else
        Except.error UB.outOfRange
    else
      let w1 :=
        if bReportError then
          w.emit (Event.script_error_log
            "Script registering but ScriptName %s is not assigned in database. Script will not be used."
            [LogArg.str self.Name])
        else w
      match deleteScript L.heap (some this) with
      | Except.error e => Except.error e
      | Except.ok heap1 => Except.ok ({ L with heap := heap1 }, w1)

/-- Modelled from the spec: `AddScripts()` is defined outside this file; it is the
content-registration entry point that constructs every compiled-in record and registers it.
`content` lists, in order, each record it builds with `new Script` and the `bReportError`
argument it passes to `RegisterSelf`. -/
def AddScripts (H : Host) : List (Script × Bool) → Lib → World → Except UB (Lib × World)
  | [], L, w => Except.ok (L, w)
  | (s, bReportError) :: rest, L, w =>
    match RegisterSelf H (L.alloc (Obj.script s)).1 bReportError (L.alloc (Obj.script s)).2 w with
    | Except.error e => Except.error e
    | Except.ok (L1, w1) => AddScripts H rest L1 w1

/-- Modelled from the spec: `FillSpellSummary()` is declared in this file and defined outside
it; it allocates the `SpellSummary` table that `FreeScriptLibrary` releases with `delete []`,
one row per spell of the host's spell store. -/
def FillSpellSummary (H : Host) (L : Lib) : Lib :=
  { (L.alloc (Obj.spellSummary H.GetSpellStoreNumRows)).2 with
    SpellSummary := some (L.alloc (Obj.spellSummary H.GetSpellStoreNumRows)).1 }

/-! ## Entry points used by the core -/

/-- The loop `for (itr = m_scripts.begin(); itr != m_scripts.end(); ++itr) delete *itr;`. -/
def freeScripts : List (Option Nat) → List (Option Obj) → Except UB (List (Option Obj))
  | [], heap => Except.ok heap
  | p :: rest, heap =>
    match deleteScript heap p with
    | Except.error e => Except.error e
    | Except.ok heap1 => freeScripts rest heap1

/-- The entry point `SD3::FreeScriptLibrary`. The pointer `SpellSummary` keeps its value. -/
def FreeScriptLibrary (L : Lib) (w : World) : Except UB (Lib × World) :=
  match deleteArray L.heap L.SpellSummary with
  | Except.error e => Except.error e
  | Except.ok heap1 =>
    match freeScripts L.m_scripts heap1 with
    | Except.error e => Except.error e
    | Except.ok heap2 =>
      Except.ok ({ m_scripts := [], num_sc_scripts := 0, SpellSummary := L.SpellSummary,
                   heap := heap2 },
        w.emit (Event.hostCall "setScriptLibraryErrorFile(NULL, NULL)"))

/-- The function `LoadDatabase()`. -/
def LoadDatabase (H : Host) (w : World) : World :=
  if H.ScriptDev3DatabaseInfo = "" then
    w.emit (Event.script_error_log
      "Missing Scriptdev3 database info from configuration file. Load database aborted." [])
  else if H.databaseInitialize then
    ((((((((w.emit (Event.outstring_log "sd3: ScriptDev3 database initialized." [])).emit
      (Event.outstring_log "\n" [])).emit
      (Event.hostCall "pSystemMgr.LoadVersion")).emit
      (Event.hostCall "pSystemMgr.LoadScriptTexts")).emit
      (Event.hostCall "pSystemMgr.LoadScriptTextsCustom")).emit
      (Event.hostCall "pSystemMgr.LoadScriptGossipTexts")).emit
      (Event.hostCall "pSystemMgr.LoadScriptWaypoints")).emit
      (Event.hostCall "SD3Database.HaltDelayThread"))
  else
    w.emit (Event.script_error_log "Unable to connect to Database. Load database aborted." [])

/-- The call `m_scripts.resize(n, NULL)`. -/
def resize (v : List (Option Nat)) (n : Nat) : List (Option Nat) :=
  v.take n ++ List.replicate (n - v.length) none

/-- The loop of `InitScriptLibrary` that reports every id without a script; `ids` are the
values `i` takes. -/
def checkScripts (H : Host) (L : Lib) : List Nat → World → Except UB World
  | [], w => Except.ok w
  | i :: rest, w =>
    match L.m_scripts[i]? with
    | none => Except.error UB.outOfRange
    | some (some _) => checkScripts H L rest w
    | some none =>
      checkScripts H L rest
        (w.emit (Event.script_error_log "No script found for ScriptName '%s'."
          [LogArg.str (H.GetScriptName i)]))

/-- The start of `InitScriptLibrary`, up to `bar.step()`: banner, configuration file, error
log file, configuration version, `LoadDatabase`. -/
def startup (H : Host) (w : World) : World :=
  let w1 := ((((((w.emit
    (Event.outstring_log "  ___         _      _   ___          ___ " [])).emit
    (Event.outstring_log " / __| __ _ _(_)_ __| |_|   \\ _____ _|_  )" [])).emit
    (Event.outstring_log " \\__ \\/ _| '_| | '_ \\  _| |) / -_) V // / " [])).emit
    (Event.outstring_log " |___/\\__|_| |_| .__/\\__|___/\\___|\\_//___|" [])).emit
    (Event.outstring_log "               |_|                        " [])).emit
    (Event.outstring_log "                     https://getmangos.eu/\n" []))
  let w2 :=
    if H.configSetSource then
      w1.emit (Event.outstring_log "sd3: Using configuration file %s"
        [LogArg.str H.MANGOSD_CONFIG_LOCATION])
    else w1
  let w3 := w2.emit (Event.hostCall ("setScriptLibraryErrorFile(" ++ H.SD3ErrorLogFile ++ ", SD3)"))
  let w4 :=
    if H.configSetSource then w3
    else
      w3.emit (Event.script_error_log
        "Unable to open configuration file. Database will be unaccessible. Configuration values will use default."
        [])
  let w5 :=
    if H.ConfVersion ≠ H.MANGOSD_CONFIG_VERSION then
      w4.emit (Event.script_error_log
        "Configuration file version doesn't match expected version. Some config variables may be wrong or missing."
        [])
    else w4
  let w6 := LoadDatabase H (w5.emit (Event.outstring_log "\n" []))
  (w6.emit (Event.outstring_log "sd3: Loading C++ scripts" [])).emit (Event.hostCall "bar.step")

/-- The entry point `SD3::InitScriptLibrary`; `content` is what `AddScripts` registers. -/
def InitScriptLibrary (H : Host) (content : List (Script × Bool)) (L : Lib) (w : World) :
    Except UB (Lib × World) :=
  let w1 := startup H w
  let L1 := { L with m_scripts := resize L.m_scripts H.GetScriptIdsCount }
  let L2 := FillSpellSummary H L1
  match AddScripts H content L2 w1 with
  | Except.error e => Except.error e
  | Except.ok (L3, w3) =>
    match checkScripts H L3 (List.range' 1 (H.GetScriptIdsCount - 1)) w3 with
    | Except.error e => Except.error e
    | Except.ok w4 =>
      Except.ok (L3, w4.emit (Event.outstring_log ">> Loaded %i C++ Scripts."
        [LogArg.int L3.num_sc_scripts]))

/-! ## Specification vocabulary -/

/-- Whether the action is a call through a callback slot. -/
def Event.isCallback : Event → Bool
  | Event.callback _ _ => true
  | _ => false

/-- Whether the action is a `ClearMenus` call. -/
def Event.isClearMenus : Event → Bool
  | Event.ClearMenus _ => true
  | _ => false

/-- The unhandled outcome of a dispatch started in `w`: it returns `neutral`, every player's
menu is as in `w`, and the actions it added to the trace contain neither a call through a
callback slot nor a `ClearMenus`. -/
def Unhandled {R : Type} (neutral : R) (w : World) (r : Except UB (R × World)) : Prop :=
  ∃ w1 : World, r = Except.ok (neutral, w1) ∧ w1.menus = w.menus ∧
    ∃ evs : List Event, w1.trace = w.trace ++ evs ∧
      ∀ e ∈ evs, e.isCallback = false ∧ e.isClearMenus = false

/-- The handled outcome of a dispatch started in `w`: the result is, verbatim, what `call`
returns on the state `w1` the dispatcher hands over, and up to that point the dispatcher has
made exactly one call through a callback slot, the last action before `w1`: slot `slot` of the
record at address `a`. -/
def Handled {R : Type} (call : World → R × World) (a : Nat) (slot : Slot) (w : World)
    (r : Except UB (R × World)) : Prop :=
  ∃ w1 : World, r = Except.ok (call w1) ∧
    ∃ pre : List Event, w1.trace = w.trace ++ pre ++ [Event.callback a slot] ∧
      ∀ e ∈ pre, e.isCallback = false

/-! ## Concrete instances -/

/-- A host with two script ids, in which every non-empty name resolves to id 1. -/
def hostTwo : Host :=
  { GetScriptIdsCount := 2
    GetScriptId := fun n => if n.length = 0 then 0 else 1
    GetScriptName := fun _ => "npc_test"
    GetAreaTriggerScriptId := fun _ => 1
    GetEventIdScriptId := fun _ => 1
    GetCreatureTemplateStore := fun e => some { Entry := e }
    GetMangosStringData := fun _ => some { SoundId := 0, Type_ := 6, LanguageId := 0, Emote := 0 }
    DIALOG_STATUS_UNDEFINED := 100
    CHAT_TYPE_ZONE_YELL := 6
    GetSpellStoreNumRows := 3
    configSetSource := true
    ConfVersion := 1
    MANGOSD_CONFIG_VERSION := 1
    MANGOSD_CONFIG_LOCATION := "mangosd.conf"
    SD3ErrorLogFile := "scriptdev3-errors.log"
    ScriptDev3DatabaseInfo := ""
    databaseInitialize := false }

/-- A world in which every player has two pending menu items and nothing has happened yet. -/
def worldTwo : World :=
  { menus := fun _ => [1, 2], trace := [] }

/-- A loaded registry of size 2 with no record registered. -/
def libEmptyTwo : Lib :=
  { m_scripts := [none, none], num_sc_scripts := 0, SpellSummary := none, heap := [] }


/-- What a dispatcher finds in slot `sel` of the registry entry `o` it looked up: the address of
the record and the callback, or `none` when the entry is null or the slot is absent. -/
def found {A : Type} (o : Option (Nat × Script)) (sel : Script → Option A) : Option (Nat × A) :=
  match o with
  | none => none
  | some (a, s) =>
    match sel s with
    | none => none
    | some f => some (a, f)

/-- The handled outcome of a menu-clearing dispatch started in `w`: the result is, verbatim,
what `call` returns on the state `w1` the dispatcher hands over; in `w1` the menu of `pPlayer`
is empty and every other menu is as in `w`; and the last two actions before `w1` are the
`ClearMenus` of `pPlayer` followed by the call through slot `slot` of the record at `a`, with
no other `ClearMenus` or callback call before them. -/
def ClearedThenCalled {R : Type} (pPlayer : Player) (call : World → R × World) (a : Nat)
    (slot : Slot) (w : World) (r : Except UB (R × World)) : Prop :=
  ∃ w1 : World, r = Except.ok (call w1) ∧ w1.menus pPlayer = [] ∧
    (∀ q, q ≠ pPlayer → w1.menus q = w.menus q) ∧
    ∃ pre : List Event,
      w1.trace = w.trace ++ pre ++ [Event.ClearMenus pPlayer, Event.callback a slot] ∧
      ∀ e ∈ pre, e.isCallback = false ∧ e.isClearMenus = false

/-- The menus are cleared exactly when a callback is found: with a callback in slot `sel` of
the entry `o` the outcome is `ClearedThenCalled`, otherwise it is `Unhandled`. -/
def ClearsIffHandled {R A : Type} (o : Option (Nat × Script)) (sel : Script → Option A)
    (run : A → World → R × World) (neutral : R) (pPlayer : Player) (slot : Slot) (w : World)
    (r : Except UB (R × World)) : Prop :=
  match found o sel with
  | some (a, f) => ClearedThenCalled pPlayer (run f) a slot w r
  | none => Unhandled neutral w r


/-- A gossip-hello callback that adds one menu item for the player and reports success. -/
def helloCallback : Player → Creature → World → Bool × World :=
  fun p _ w => (true, { w with menus := fun q => if q = p then [42] else w.menus q })

/-- A record named `npc_test` with a gossip-hello and a gossip-select callback only. -/
def scriptGossip : Script :=
  { Name := "npc_test"
    pGossipHello := some helloCallback
    pGossipSelect := some (fun _ _ uiSender uiAction w => (uiSender == uiAction, w)) }

/-- A record whose name no host knows. -/
def scriptUnknown : Script :=
  { Name := "" }

/-- A loaded registry of size 2 holding `scriptGossip` at id 1. -/
def libOne : Lib :=
  { m_scripts := [none, some 0], num_sc_scripts := 1, SpellSummary := none
    heap := [some (Obj.script scriptGossip)] }

/-- A registry of size 2 with nothing registered and two constructed records on the heap:
`scriptGossip` at address 0 and `scriptUnknown` at address 1. -/
def libFresh : Lib :=
  { m_scripts := [none, none], num_sc_scripts := 0, SpellSummary := none
    heap := [some (Obj.script scriptGossip), some (Obj.script scriptUnknown)] }


/-- The record, or null, stored at every index of the registry. -/
def Lib.records (L : Lib) : List (Option Script) :=
  L.m_scripts.map (fun p => p.bind L.script?)

/-- Ownership discipline of the library state: every non-null registry entry points to a live
`Script`, no record is stored at two indices, and a non-null `SpellSummary` points to a live
table. -/
structure Lib.Owned (L : Lib) : Prop where
  live : ∀ a, some a ∈ L.m_scripts → ∃ s, L.script? a = some s
  distinct : (L.m_scripts.filterMap id).Nodup
  summary : ∀ a, L.SpellSummary = some a → ∃ n, L.heap[a]? = some (some (Obj.spellSummary n))

/-- The registry content after the records of `content` have been registered in order over
the content `v`: each record whose name resolves to a non-zero id replaces entry id. -/
def registered (H : Host) (v : List (Option Script)) : List (Script × Bool) → List (Option Script)
  | [] => v
  | (s, _) :: rest =>
    registered H
      (if H.GetScriptId s.Name ≠ 0 then v.set (H.GetScriptId s.Name) (some s) else v) rest

/-- The number of records of `content` whose name resolves to a non-zero id. -/
def successes (H : Host) (content : List (Script × Bool)) : Nat :=
  (content.filter (fun sb => decide (H.GetScriptId sb.1.Name ≠ 0))).length


/-- A second record with the name of `scriptGossip` and a different callback set. -/
def scriptOther : Script :=
  { Name := "npc_test"
    pGOUse := some (fun _ _ w => (true, w)) }

/-- A registry of size 2 with nothing registered and two constructed records of the same name
on the heap: `scriptGossip` at address 0 and `scriptOther` at address 1. -/
def libDup : Lib :=
  { m_scripts := [none, none], num_sc_scripts := 0, SpellSummary := none
    heap := [some (Obj.script scriptGossip), some (Obj.script scriptOther)] }

/-- What `AddScripts` registers in the examples: a known and an unknown record. -/
def contentTwo : List (Script × Bool) :=
  [(scriptGossip, true), (scriptUnknown, false)]


/-- Whether the action is performed on the map: a sound played to the map or a yell. -/
def Event.isMapAction : Event → Bool
  | Event.PlayDirectSoundToMap _ _ => true
  | Event.MonsterYellToMapGuid _ _ _ _ _ => true
  | Event.MonsterYellToMapInfo _ _ _ _ _ => true
  | _ => false

/-- The map actions of a zone yell, in order: the sound of the row when it has one, then the
yell, direct from the guid of the source creature when one is given and simulated from the
creature template otherwise. -/
def zoneYellActions (iTextEntry : Int) (pMap : Map) (pInfo : CreatureInfo)
    (pData : MangosStringLocale) (pCreatureSource : Option Creature)
    (pTarget : Option WorldUnit) : List Event :=
  (if pData.SoundId ≠ 0 then [Event.PlayDirectSoundToMap pMap.GetId pData.SoundId] else []) ++
    [match pCreatureSource with
      | some src =>
        Event.MonsterYellToMapGuid pMap.GetId src.GetObjectGuid iTextEntry pData.LanguageId
          pTarget
      | none => Event.MonsterYellToMapInfo pMap.GetId pInfo iTextEntry pData.LanguageId pTarget]

/-- A host like `hostTwo` whose text rows carry sound 8 and language 3. -/
def hostSound : Host :=
  { hostTwo with
    GetMangosStringData := fun _ =>
      some { SoundId := 8, Type_ := 6, LanguageId := 3, Emote := 0 } }

/-- A host like `hostTwo` whose text rows are of chat type 1 (not a zone yell), with a sound. -/
def hostSay : Host :=
  { hostTwo with
    GetMangosStringData := fun _ =>
      some { SoundId := 8, Type_ := 1, LanguageId := 3, Emote := 0 } }


/-- The ids the check loop of `InitScriptLibrary` reports, out of the values `ids` that `i`
takes: those whose registry entry is null. -/
def missingIds (L : Lib) (ids : List Nat) : List Nat :=
  ids.filter (fun i => decide (L.m_scripts[i]? = some none))

/-- The diagnostic the check loop of `InitScriptLibrary` emits for id `i`. -/
def missingDiagnostic (H : Host) (i : Nat) : Event :=
  Event.script_error_log "No script found for ScriptName '%s'." [LogArg.str (H.GetScriptName i)]

/-- The summary line that ends `InitScriptLibrary`, for the count `n`. -/
def loadedSummary (n : Int) : Event :=
  Event.outstring_log ">> Loaded %i C++ Scripts." [LogArg.int n]


/-- What `AddScripts` registers in the check-loop example: one unknown record. -/
def contentUnknown : List (Script × Bool) :=
  [(scriptUnknown, false)]

/-- The library state the registrations of `contentUnknown` leave on `hostTwo`, started from
the state at process start: nothing stored, the table at address 0, the discarded record at
address 1. -/
def libAfterUnknown : Lib :=
  { m_scripts := [none, none], num_sc_scripts := 0, SpellSummary := some 0
    heap := [some (Obj.spellSummary 3), none] }

/-- The registry invariant for the host `H`: the registry has one entry per host id, entry 0
is not a record, and every non-null entry `i` points to a live record whose name the host
resolves to `i`. -/
structure Lib.Resolved (H : Host) (L : Lib) : Prop where
  size : L.m_scripts.length = H.GetScriptIdsCount
  zero : ∀ a, L.m_scripts[0]? ≠ some (some a)
  named : ∀ i a, L.m_scripts[i]? = some (some a) →
    ∃ s, L.script? a = some s ∧ H.GetScriptId s.Name = i


/-- A sequence of `RegisterSelf` calls: `calls` lists, in order, the address of the record
each call is made on and its `bReportError` argument. -/
def registerSeq (H : Host) : List (Nat × Bool) → Lib → World → Except UB (Lib × World)
  | [], L, w => Except.ok (L, w)
  | (this, bReportError) :: rest, L, w =>
    match RegisterSelf H this bReportError L w with
    | Except.error e => Except.error e
    | Except.ok (L1, w1) => registerSeq H rest L1 w1

/-- The number of non-null registry entries. -/
def Lib.nonNull (L : Lib) : Nat :=
  (L.m_scripts.filter Option.isSome).length

/-- The non-zero ids to which the host resolves the names of the records of `calls`, one per
call, in call order: the ids of the successful registrations. -/
def resolvedIds (H : Host) (L : Lib) (calls : List (Nat × Bool)) : List Nat :=
  (calls.filterMap (fun c => (L.script? c.1).map (fun s => H.GetScriptId s.Name))).filter
    (fun i => decide (i ≠ 0))

/-- The state of `libDup` after both of its records have been registered. -/
def libDupRegistered : Lib :=
  { m_scripts := [none, some 1], num_sc_scripts := 2, SpellSummary := none
    heap := [some (Obj.script scriptGossip), some (Obj.script scriptOther)] }


/-- The registry `libFresh` with the handler count at the largest `int` value. -/
def libCountMax : Lib :=
  { libFresh with num_sc_scripts := 2147483647 }


/-- What `AddScripts` registers when it builds `n` records of the known name `npc_test`. -/
def contentRepeat (n : Nat) : List (Script × Bool) :=
  List.replicate n (scriptGossip, true)

/-! ## Theorems -/

theorem wrapInt32_of_range {x : Int} (hlo : -2147483648 ≤ x) (hhi : x < 2147483648) :
    wrapInt32 x = x := by
  unfold wrapInt32
  omega

theorem wrapInt32_idem (x : Int) : wrapInt32 (wrapInt32 x) = wrapInt32 x := by
  unfold wrapInt32
  omega

theorem wrapInt32_add (x y : Int) : wrapInt32 (wrapInt32 x + y) = wrapInt32 (x + y) := by
  unfold wrapInt32
  omega

theorem wrapInt32_range (x : Int) :
    -2147483648 ≤ wrapInt32 x ∧ wrapInt32 x < 2147483648 := by
  unfold wrapInt32
  omega

theorem lookup_of_null {L : Lib} {i : Nat} (h : L.m_scripts[i]? = some none) :
    L.lookup i = Except.ok none := by
  simp [Lib.lookup, h]

theorem lookup_of_record {L : Lib} {i a : Nat} {s : Script}
    (h : L.m_scripts[i]? = some (some a)) (hs : L.script? a = some s) :
    L.lookup i = Except.ok (some (a, s)) := by
  simp [Lib.lookup, h, hs]

theorem unhandled_same {R : Type} (neutral : R) (w : World) :
    Unhandled neutral w (Except.ok (neutral, w)) :=
  ⟨w, rfl, rfl, [], by simp, by simp⟩

theorem unhandled_debug {R : Type} (neutral : R) (w : World) (fmt : String)
    (args : List LogArg) :
    Unhandled neutral w (Except.ok (neutral, w.emit (Event.debug_log fmt args))) :=
  ⟨_, rfl, rfl, [Event.debug_log fmt args], rfl, by simp [Event.isCallback, Event.isClearMenus]⟩

/-- C1: in a registry whose entry at script id `i` is null (so `i` is inside the registry),
each of the 24 dispatch entry points, called for an entity whose script id resolves to `i`,
returns its neutral value (`false`, `DIALOG_STATUS_UNDEFINED`, `NULL`), makes no call through
a callback slot, does not call `ClearMenus`, and leaves every player's menu unchanged. -/
theorem dispatch_null_entry_unhandled (H : Host) (L : Lib) (i : Nat)
    (hnull : L.m_scripts[i]? = some none) (w : World) :
    (∀ (pPlayer : Player) (pCreature : Creature), pCreature.GetScriptId = i →
      Unhandled false w (GossipHello L pPlayer pCreature w)) ∧
    (∀ (pPlayer : Player) (pGo : GameObject), pGo.GetGOInfo.ScriptId = i →
      Unhandled false w (GOGossipHello L pPlayer pGo w)) ∧
    (∀ (pPlayer : Player) (pCreature : Creature) (uiSender : Nat)
      (uiAction : Nat), pCreature.GetScriptId = i →
      Unhandled false w (GossipSelect L pPlayer pCreature uiSender uiAction w)) ∧
    (∀ (pPlayer : Player) (pGo : GameObject) (uiSender : Nat)
      (uiAction : Nat), pGo.GetGOInfo.ScriptId = i →
      Unhandled false w (GOGossipSelect L pPlayer pGo uiSender uiAction w)) ∧
    (∀ (pPlayer : Player) (pCreature : Creature) (uiSender : Nat) (uiAction : Nat)
      (sCode : String), pCreature.GetScriptId = i →
      Unhandled false w (GossipSelectWithCode L pPlayer pCreature uiSender uiAction sCode w)) ∧
    (∀ (pPlayer : Player) (pGo : GameObject) (uiSender : Nat) (uiAction : Nat)
      (sCode : String), pGo.GetGOInfo.ScriptId = i →
      Unhandled false w (GOGossipSelectWithCode L pPlayer pGo uiSender uiAction sCode w)) ∧
    (∀ (pPlayer : Player) (pCreature : Creature) (pQuest : Quest), pCreature.GetScriptId = i →
      Unhandled false w (QuestAccept L pPlayer pCreature pQuest w)) ∧
    (∀ (pPlayer : Player) (pCreature : Creature) (pQuest : Quest), pCreature.GetScriptId = i →
      Unhandled false w (QuestRewarded L pPlayer pCreature pQuest w)) ∧
    (∀ (pPlayer : Player) (pCreature : Creature), pCreature.GetScriptId = i →
      Unhandled H.DIALOG_STATUS_UNDEFINED w (GetNPCDialogStatus H L pPlayer pCreature w)) ∧
    (∀ (pPlayer : Player) (pGo : GameObject), pGo.GetGOInfo.ScriptId = i →
      Unhandled H.DIALOG_STATUS_UNDEFINED w (GetGODialogStatus H L pPlayer pGo w)) ∧
    (∀ (pPlayer : Player) (pItem : Item) (pQuest : Quest), pItem.GetProto.ScriptId = i →
      Unhandled false w (ItemQuestAccept L pPlayer pItem pQuest w)) ∧
    (∀ (pPlayer : Player) (pGo : GameObject), pGo.GetGOInfo.ScriptId = i →
      Unhandled false w (GOUse L pPlayer pGo w)) ∧
    (∀ (pPlayer : Player) (pGo : GameObject) (pQuest : Quest), pGo.GetGOInfo.ScriptId = i →
      Unhandled false w (GOQuestAccept L pPlayer pGo pQuest w)) ∧
    (∀ (pPlayer : Player) (pGo : GameObject) (pQuest : Quest), pGo.GetGOInfo.ScriptId = i →
      Unhandled false w (GOQuestRewarded L pPlayer pGo pQuest w)) ∧
    (∀ (pPlayer : Player) (atEntry : AreaTriggerEntry), H.GetAreaTriggerScriptId atEntry.id = i →
      Unhandled false w (AreaTrigger H L pPlayer atEntry w)) ∧
    (∀ (uiEventId : Nat) (pSource : Object) (pTarget : Object)
      (bIsStart : Bool), H.GetEventIdScriptId uiEventId = i →
      Unhandled false w (ProcessEvent H L uiEventId pSource pTarget bIsStart w)) ∧
    (∀ (pCreature : Creature), pCreature.GetScriptId = i →
      Unhandled none w (GetCreatureAI L pCreature w)) ∧
    (∀ (pPlayer : Player) (pItem : Item) (targets : SpellCastTargets), pItem.GetProto.ScriptId = i →
      Unhandled false w (ItemUse L pPlayer pItem targets w)) ∧
    (∀ (pCaster : WorldUnit) (spellId : Nat) (effIndex : SpellEffectIndex) (pTarget : Creature)
      (originalCasterGuid : ObjectGuid), pTarget.GetScriptId = i →
      Unhandled false w
          (EffectDummyCreature L pCaster spellId effIndex pTarget originalCasterGuid w)) ∧
    (∀ (pCaster : WorldUnit) (spellId : Nat) (effIndex : SpellEffectIndex)
      (pTarget : GameObject) (originalCasterGuid : ObjectGuid), pTarget.GetGOInfo.ScriptId = i →
      Unhandled false w
          (EffectDummyGameObject L pCaster spellId effIndex pTarget originalCasterGuid w)) ∧
    (∀ (pCaster : WorldUnit) (spellId : Nat) (effIndex : SpellEffectIndex) (pTarget : Item)
      (originalCasterGuid : ObjectGuid), pTarget.GetProto.ScriptId = i →
      Unhandled false w (EffectDummyItem L pCaster spellId effIndex pTarget originalCasterGuid w)) ∧
    (∀ (pCaster : WorldUnit) (spellId : Nat) (effIndex : SpellEffectIndex) (pTarget : Creature)
      (originalCasterGuid : ObjectGuid), pTarget.GetScriptId = i →
      Unhandled false w
          (EffectScriptEffectCreature L pCaster spellId effIndex pTarget originalCasterGuid w)) ∧
    (∀ (pAura : Aura) (bApply : Bool), pAura.GetTarget.GetScriptId = i →
      Unhandled false w (AuraDummy L pAura bApply w)) ∧
    (∀ (pMap : Map), pMap.GetScriptId = i →
      Unhandled none w (CreateInstanceData L pMap w)) := by
  have hl := lookup_of_null hnull
  refine ⟨?_, ?_, ?_, ?_, ?_, ?_, ?_, ?_, ?_, ?_, ?_, ?_, ?_, ?_, ?_, ?_, ?_, ?_, ?_, ?_, ?_,
    ?_, ?_, ?_⟩
  all_goals
    intros
    subst_vars
    simp only [GossipHello, GOGossipHello, GossipSelect, GOGossipSelect, GossipSelectWithCode,
      GOGossipSelectWithCode, QuestAccept, QuestRewarded, GetNPCDialogStatus,
      GetGODialogStatus, ItemQuestAccept, GOUse, GOQuestAccept, GOQuestRewarded, AreaTrigger,
      ProcessEvent, GetCreatureAI, ItemUse, EffectDummyCreature, EffectDummyGameObject,
      EffectDummyItem, EffectScriptEffectCreature, AuraDummy, CreateInstanceData, hl]
    first
    | exact unhandled_same _ _
    | exact unhandled_debug _ _ _ _


theorem handled_plain {R : Type} (call : World → R × World) (a : Nat) (slot : Slot)
    (w : World) : Handled call a slot w (Except.ok (call (w.callback a slot))) :=
  ⟨_, rfl, [], by simp [World.callback, World.emit], by simp⟩

theorem handled_clear {R : Type} (call : World → R × World) (a : Nat) (slot : Slot)
    (w : World) (p : Player) :
    Handled call a slot w (Except.ok (call ((w.ClearMenus p).callback a slot))) :=
  ⟨_, rfl, [Event.ClearMenus p], by simp [World.callback, World.emit, World.ClearMenus],
    by simp [Event.isCallback]⟩

theorem handled_debug_clear {R : Type} (call : World → R × World) (a : Nat) (slot : Slot)
    (w : World) (p : Player) (fmt : String) (args : List LogArg) :
    Handled call a slot w
      (Except.ok (call (((w.emit (Event.debug_log fmt args)).ClearMenus p).callback a slot))) :=
  ⟨_, rfl, [Event.debug_log fmt args, Event.ClearMenus p],
    by simp [World.callback, World.emit, World.ClearMenus], by simp [Event.isCallback]⟩

theorem cleared_plain {R : Type} (call : World → R × World) (a : Nat) (slot : Slot)
    (w : World) (p : Player) :
    ClearedThenCalled p call a slot w (Except.ok (call ((w.ClearMenus p).callback a slot))) :=
  ⟨_, rfl, by simp [World.callback, World.emit, World.ClearMenus],
    by intro q hq; simp [World.callback, World.emit, World.ClearMenus, hq], [],
    by simp [World.callback, World.emit, World.ClearMenus], by simp⟩

theorem cleared_debug {R : Type} (call : World → R × World) (a : Nat) (slot : Slot)
    (w : World) (p : Player) (fmt : String) (args : List LogArg) :
    ClearedThenCalled p call a slot w
      (Except.ok (call (((w.emit (Event.debug_log fmt args)).ClearMenus p).callback a slot))) :=
  ⟨_, rfl, by simp [World.callback, World.emit, World.ClearMenus],
    by intro q hq; simp [World.callback, World.emit, World.ClearMenus, hq],
    [Event.debug_log fmt args],
    by simp [World.callback, World.emit, World.ClearMenus],
    by simp [Event.isCallback, Event.isClearMenus]⟩

/-- C1 (instance): with the empty registry of size 2, `GossipSelect` for a creature of script
id 1 is unhandled. -/
theorem dispatch_null_entry_unhandled_witness :
    libEmptyTwo.m_scripts[1]? = some none ∧
      Unhandled false worldTwo
        (GossipSelect libEmptyTwo 7 { GetObjectGuid := 9, GetScriptId := 1 } 3 4 worldTwo) :=
  ⟨rfl, (dispatch_null_entry_unhandled hostTwo libEmptyTwo 1 rfl worldTwo).2.2.1 7
    { GetObjectGuid := 9, GetScriptId := 1 } 3 4 rfl⟩

/-- C2: when the registry entry at script id `i` is the live record `pTempScript` (at address
`a`) and the slot of a category holds the callback `f`, each of the 25 dispatch entry points
(`NpcSpellClick`, compiled for `WOTLK`, is the last), called for an entity whose script id
resolves to `i`, returns verbatim what `f` returns on exactly the arguments the entry point
received, and makes exactly one call through a callback slot: that slot of that record. -/
theorem dispatch_present_slot_handled (H : Host) (L : Lib) (i a : Nat) (pTempScript : Script)
    (hentry : L.m_scripts[i]? = some (some a)) (hrec : L.script? a = some pTempScript)
    (w : World) :
    (∀ f, pTempScript.pGossipHello = some f → ∀ (pPlayer : Player)
      (pCreature : Creature), pCreature.GetScriptId = i →
      Handled (f pPlayer pCreature) a Slot.pGossipHello w
        (GossipHello L pPlayer pCreature w)) ∧
    (∀ f, pTempScript.pGossipHelloGO = some f → ∀ (pPlayer : Player)
      (pGo : GameObject), pGo.GetGOInfo.ScriptId = i →
      Handled (f pPlayer pGo) a Slot.pGossipHelloGO w
        (GOGossipHello L pPlayer pGo w)) ∧
    (∀ f, pTempScript.pGossipSelect = some f → ∀ (pPlayer : Player) (pCreature : Creature)
      (uiSender : Nat) (uiAction : Nat), pCreature.GetScriptId = i →
      Handled (f pPlayer pCreature uiSender uiAction) a Slot.pGossipSelect w
        (GossipSelect L pPlayer pCreature uiSender uiAction w)) ∧
    (∀ f, pTempScript.pGossipSelectGO = some f → ∀ (pPlayer : Player) (pGo : GameObject)
      (uiSender : Nat) (uiAction : Nat), pGo.GetGOInfo.ScriptId = i →
      Handled (f pPlayer pGo uiSender uiAction) a Slot.pGossipSelectGO w
        (GOGossipSelect L pPlayer pGo uiSender uiAction w)) ∧
    (∀ f, pTempScript.pGossipSelectWithCode = some f → ∀ (pPlayer : Player)
      (pCreature : Creature) (uiSender : Nat) (uiAction : Nat)
          (sCode : String), pCreature.GetScriptId = i →
      Handled (f pPlayer pCreature uiSender uiAction sCode) a Slot.pGossipSelectWithCode w
        (GossipSelectWithCode L pPlayer pCreature uiSender uiAction sCode w)) ∧
    (∀ f, pTempScript.pGossipSelectGOWithCode = some f → ∀ (pPlayer : Player) (pGo : GameObject)
      (uiSender : Nat) (uiAction : Nat) (sCode : String), pGo.GetGOInfo.ScriptId = i →
      Handled (f pPlayer pGo uiSender uiAction sCode) a Slot.pGossipSelectGOWithCode w
        (GOGossipSelectWithCode L pPlayer pGo uiSender uiAction sCode w)) ∧
    (∀ f, pTempScript.pQuestAcceptNPC = some f → ∀ (pPlayer : Player) (pCreature : Creature)
      (pQuest : Quest), pCreature.GetScriptId = i →
      Handled (f pPlayer pCreature pQuest) a Slot.pQuestAcceptNPC w
        (QuestAccept L pPlayer pCreature pQuest w)) ∧
    (∀ f, pTempScript.pQuestRewardedNPC = some f → ∀ (pPlayer : Player) (pCreature : Creature)
      (pQuest : Quest), pCreature.GetScriptId = i →
      Handled (f pPlayer pCreature pQuest) a Slot.pQuestRewardedNPC w
        (QuestRewarded L pPlayer pCreature pQuest w)) ∧
    (∀ f, pTempScript.pDialogStatusNPC = some f → ∀ (pPlayer : Player)
      (pCreature : Creature), pCreature.GetScriptId = i →
      Handled (f pPlayer pCreature) a Slot.pDialogStatusNPC w
        (GetNPCDialogStatus H L pPlayer pCreature w)) ∧
    (∀ f, pTempScript.pDialogStatusGO = some f → ∀ (pPlayer : Player)
      (pGo : GameObject), pGo.GetGOInfo.ScriptId = i →
      Handled (f pPlayer pGo) a Slot.pDialogStatusGO w
        (GetGODialogStatus H L pPlayer pGo w)) ∧
    (∀ f, pTempScript.pQuestAcceptItem = some f → ∀ (pPlayer : Player) (pItem : Item)
      (pQuest : Quest), pItem.GetProto.ScriptId = i →
      Handled (f pPlayer pItem pQuest) a Slot.pQuestAcceptItem w
        (ItemQuestAccept L pPlayer pItem pQuest w)) ∧
    (∀ f, pTempScript.pGOUse = some f → ∀ (pPlayer : Player)
      (pGo : GameObject), pGo.GetGOInfo.ScriptId = i →
      Handled (f pPlayer pGo) a Slot.pGOUse w
        (GOUse L pPlayer pGo w)) ∧
    (∀ f, pTempScript.pQuestAcceptGO = some f → ∀ (pPlayer : Player) (pGo : GameObject)
      (pQuest : Quest), pGo.GetGOInfo.ScriptId = i →
      Handled (f pPlayer pGo pQuest) a Slot.pQuestAcceptGO w
        (GOQuestAccept L pPlayer pGo pQuest w)) ∧
    (∀ f, pTempScript.pQuestRewardedGO = some f → ∀ (pPlayer : Player) (pGo : GameObject)
      (pQuest : Quest), pGo.GetGOInfo.ScriptId = i →
      Handled (f pPlayer pGo pQuest) a Slot.pQuestRewardedGO w
        (GOQuestRewarded L pPlayer pGo pQuest w)) ∧
    (∀ f, pTempScript.pAreaTrigger = some f → ∀ (pPlayer : Player)
      (atEntry : AreaTriggerEntry), H.GetAreaTriggerScriptId atEntry.id = i →
      Handled (f pPlayer atEntry) a Slot.pAreaTrigger w
        (AreaTrigger H L pPlayer atEntry w)) ∧
    (∀ f, pTempScript.pProcessEventId = some f → ∀ (uiEventId : Nat) (pSource : Object)
      (pTarget : Object) (bIsStart : Bool), H.GetEventIdScriptId uiEventId = i →
      Handled (f uiEventId pSource pTarget bIsStart) a Slot.pProcessEventId w
        (ProcessEvent H L uiEventId pSource pTarget bIsStart w)) ∧
    (∀ f, pTempScript.GetAI = some f → ∀ (pCreature : Creature), pCreature.GetScriptId = i →
      Handled (f pCreature) a Slot.GetAI w
        (GetCreatureAI L pCreature w)) ∧
    (∀ f, pTempScript.pItemUse = some f → ∀ (pPlayer : Player) (pItem : Item)
      (targets : SpellCastTargets), pItem.GetProto.ScriptId = i →
      Handled (f pPlayer pItem targets) a Slot.pItemUse w
        (ItemUse L pPlayer pItem targets w)) ∧
    (∀ f, pTempScript.pEffectDummyNPC = some f → ∀ (pCaster : WorldUnit) (spellId : Nat)
      (effIndex : SpellEffectIndex) (pTarget : Creature)
          (originalCasterGuid : ObjectGuid), pTarget.GetScriptId = i →
      Handled (f pCaster spellId effIndex pTarget originalCasterGuid) a Slot.pEffectDummyNPC w
        (EffectDummyCreature L pCaster spellId effIndex pTarget originalCasterGuid w)) ∧
    (∀ f, pTempScript.pEffectDummyGO = some f → ∀ (pCaster : WorldUnit) (spellId : Nat)
      (effIndex : SpellEffectIndex) (pTarget : GameObject)
          (originalCasterGuid : ObjectGuid), pTarget.GetGOInfo.ScriptId = i →
      Handled (f pCaster spellId effIndex pTarget originalCasterGuid) a Slot.pEffectDummyGO w
        (EffectDummyGameObject L pCaster spellId effIndex pTarget originalCasterGuid w)) ∧
    (∀ f, pTempScript.pEffectDummyItem = some f → ∀ (pCaster : WorldUnit) (spellId : Nat)
      (effIndex : SpellEffectIndex) (pTarget : Item)
          (originalCasterGuid : ObjectGuid), pTarget.GetProto.ScriptId = i →
      Handled (f pCaster spellId effIndex pTarget originalCasterGuid) a Slot.pEffectDummyItem w
        (EffectDummyItem L pCaster spellId effIndex pTarget originalCasterGuid w)) ∧
    (∀ f, pTempScript.pEffectScriptEffectNPC = some f → ∀ (pCaster : WorldUnit) (spellId : Nat)
      (effIndex : SpellEffectIndex) (pTarget : Creature)
          (originalCasterGuid : ObjectGuid), pTarget.GetScriptId = i →
      Handled (f pCaster spellId effIndex pTarget originalCasterGuid) a
          Slot.pEffectScriptEffectNPC w
        (EffectScriptEffectCreature L pCaster spellId effIndex pTarget originalCasterGuid w)) ∧
    (∀ f, pTempScript.pEffectAuraDummy = some f → ∀ (pAura : Aura)
      (bApply : Bool), pAura.GetTarget.GetScriptId = i →
      Handled (f pAura bApply) a Slot.pEffectAuraDummy w
        (AuraDummy L pAura bApply w)) ∧
    (∀ f, pTempScript.GetInstanceData = some f → ∀ (pMap : Map), pMap.GetScriptId = i →
      Handled (f pMap) a Slot.GetInstanceData w
        (CreateInstanceData L pMap w)) ∧
    (∀ f, pTempScript.pNpcSpellClick = some f → ∀ (pPlayer : Player)
      (pClickedCreature : Creature) (uiSpellId : Nat), pClickedCreature.GetScriptId = i →
      Handled (f pPlayer pClickedCreature uiSpellId) a Slot.pNpcSpellClick w
        (NpcSpellClick L pPlayer pClickedCreature uiSpellId w)) := by
  have hl := lookup_of_record hentry hrec
  refine ⟨?_, ?_, ?_, ?_, ?_, ?_, ?_, ?_, ?_, ?_, ?_, ?_, ?_, ?_, ?_, ?_, ?_, ?_, ?_, ?_, ?_,
    ?_, ?_, ?_, ?_⟩
  all_goals
    intro f hf
    intros
    subst_vars
    simp only [GossipHello, GOGossipHello, GossipSelect, GOGossipSelect, GossipSelectWithCode,
      GOGossipSelectWithCode, QuestAccept, QuestRewarded, GetNPCDialogStatus,
      GetGODialogStatus, ItemQuestAccept, GOUse, GOQuestAccept, GOQuestRewarded, AreaTrigger,
      ProcessEvent, GetCreatureAI, ItemUse, EffectDummyCreature, EffectDummyGameObject,
      EffectDummyItem, EffectScriptEffectCreature, AuraDummy, CreateInstanceData,
      NpcSpellClick, hl, hf]
    first
    | exact handled_plain _ _ _ _
    | exact handled_clear _ _ _ _ _
    | exact handled_debug_clear _ _ _ _ _ _ _

theorem clearsIffHandled_intro {R A : Type} {o : Option (Nat × Script)}
    {sel : Script → Option A} {run : A → World → R × World} {neutral : R} {pPlayer : Player}
    {slot : Slot} {w : World} {r : Except UB (R × World)}
    (hnull : o = none → Unhandled neutral w r)
    (habsent : ∀ a s, o = some (a, s) → sel s = none → Unhandled neutral w r)
    (hpresent : ∀ a s f, o = some (a, s) → sel s = some f →
      ClearedThenCalled pPlayer (run f) a slot w r) :
    ClearsIffHandled o sel run neutral pPlayer slot w r := by
  unfold ClearsIffHandled found
  rcases o with _ | ⟨a, s⟩
  · exact hnull rfl
  · cases hs : sel s with
    | none => simpa only [hs] using habsent a s rfl hs
    | some f => simpa only [hs] using hpresent a s f rfl hs

/-- C4: for each of the 13 menu-clearing entry points, whenever the lookup of the entity's
script id is defined: if the entry is a record with the category's slot present, the menus of
the player are cleared and then the callback is called, on a state in which that menu is
already empty, and the callback's outcome is returned untouched (nothing is cleared after it);
otherwise nothing is cleared and no callback is called. -/
theorem dispatch_clears_menus_iff_handled (H : Host) (L : Lib) (i : Nat)
    (o : Option (Nat × Script)) (hl : L.lookup i = Except.ok o) (w : World) :
    (∀ (pPlayer : Player) (pCreature : Creature), pCreature.GetScriptId = i →
      ClearsIffHandled o Script.pGossipHello (fun f => f pPlayer pCreature) false pPlayer
        Slot.pGossipHello w (GossipHello L pPlayer pCreature w)) ∧
    (∀ (pPlayer : Player) (pGo : GameObject), pGo.GetGOInfo.ScriptId = i →
      ClearsIffHandled o Script.pGossipHelloGO (fun f => f pPlayer pGo) false pPlayer
        Slot.pGossipHelloGO w (GOGossipHello L pPlayer pGo w)) ∧
    (∀ (pPlayer : Player) (pCreature : Creature) (uiSender : Nat)
      (uiAction : Nat), pCreature.GetScriptId = i →
      ClearsIffHandled o Script.pGossipSelect
          (fun f => f pPlayer pCreature uiSender uiAction) false pPlayer
        Slot.pGossipSelect w (GossipSelect L pPlayer pCreature uiSender uiAction w)) ∧
    (∀ (pPlayer : Player) (pGo : GameObject) (uiSender : Nat)
      (uiAction : Nat), pGo.GetGOInfo.ScriptId = i →
      ClearsIffHandled o Script.pGossipSelectGO
          (fun f => f pPlayer pGo uiSender uiAction) false pPlayer
        Slot.pGossipSelectGO w (GOGossipSelect L pPlayer pGo uiSender uiAction w)) ∧
    (∀ (pPlayer : Player) (pCreature : Creature) (uiSender : Nat) (uiAction : Nat)
      (sCode : String), pCreature.GetScriptId = i →
      ClearsIffHandled o Script.pGossipSelectWithCode
          (fun f => f pPlayer pCreature uiSender uiAction sCode) false pPlayer
        Slot.pGossipSelectWithCode w
            (GossipSelectWithCode L pPlayer pCreature uiSender uiAction sCode w)) ∧
    (∀ (pPlayer : Player) (pGo : GameObject) (uiSender : Nat) (uiAction : Nat)
      (sCode : String), pGo.GetGOInfo.ScriptId = i →
      ClearsIffHandled o Script.pGossipSelectGOWithCode
          (fun f => f pPlayer pGo uiSender uiAction sCode) false pPlayer
        Slot.pGossipSelectGOWithCode w
            (GOGossipSelectWithCode L pPlayer pGo uiSender uiAction sCode w)) ∧
    (∀ (pPlayer : Player) (pCreature : Creature) (pQuest : Quest), pCreature.GetScriptId = i →
      ClearsIffHandled o Script.pQuestAcceptNPC (fun f => f pPlayer pCreature pQuest) false pPlayer
        Slot.pQuestAcceptNPC w (QuestAccept L pPlayer pCreature pQuest w)) ∧
    (∀ (pPlayer : Player) (pCreature : Creature) (pQuest : Quest), pCreature.GetScriptId = i →
      ClearsIffHandled o Script.pQuestRewardedNPC
          (fun f => f pPlayer pCreature pQuest) false pPlayer
        Slot.pQuestRewardedNPC w (QuestRewarded L pPlayer pCreature pQuest w)) ∧
    (∀ (pPlayer : Player) (pCreature : Creature), pCreature.GetScriptId = i →
      ClearsIffHandled o Script.pDialogStatusNPC
          (fun f => f pPlayer pCreature) H.DIALOG_STATUS_UNDEFINED pPlayer
        Slot.pDialogStatusNPC w (GetNPCDialogStatus H L pPlayer pCreature w)) ∧
    (∀ (pPlayer : Player) (pGo : GameObject), pGo.GetGOInfo.ScriptId = i →
      ClearsIffHandled o Script.pDialogStatusGO
          (fun f => f pPlayer pGo) H.DIALOG_STATUS_UNDEFINED pPlayer
        Slot.pDialogStatusGO w (GetGODialogStatus H L pPlayer pGo w)) ∧
    (∀ (pPlayer : Player) (pItem : Item) (pQuest : Quest), pItem.GetProto.ScriptId = i →
      ClearsIffHandled o Script.pQuestAcceptItem (fun f => f pPlayer pItem pQuest) false pPlayer
        Slot.pQuestAcceptItem w (ItemQuestAccept L pPlayer pItem pQuest w)) ∧
    (∀ (pPlayer : Player) (pGo : GameObject) (pQuest : Quest), pGo.GetGOInfo.ScriptId = i →
      ClearsIffHandled o Script.pQuestAcceptGO (fun f => f pPlayer pGo pQuest) false pPlayer
        Slot.pQuestAcceptGO w (GOQuestAccept L pPlayer pGo pQuest w)) ∧
    (∀ (pPlayer : Player) (pGo : GameObject) (pQuest : Quest), pGo.GetGOInfo.ScriptId = i →
      ClearsIffHandled o Script.pQuestRewardedGO (fun f => f pPlayer pGo pQuest) false pPlayer
        Slot.pQuestRewardedGO w (GOQuestRewarded L pPlayer pGo pQuest w)) := by
  refine ⟨?_, ?_, ?_, ?_, ?_, ?_, ?_, ?_, ?_, ?_, ?_, ?_, ?_⟩
  all_goals
    intros
    subst_vars
    apply clearsIffHandled_intro
    · intro ho
      subst ho
      simp only [GossipHello, GOGossipHello, GossipSelect, GOGossipSelect, GossipSelectWithCode,
      GOGossipSelectWithCode, QuestAccept, QuestRewarded, GetNPCDialogStatus,
      GetGODialogStatus, ItemQuestAccept, GOUse, GOQuestAccept, GOQuestRewarded, AreaTrigger,
      ProcessEvent, GetCreatureAI, ItemUse, EffectDummyCreature, EffectDummyGameObject,
      EffectDummyItem, EffectScriptEffectCreature, AuraDummy, CreateInstanceData, hl]
      first
      | exact unhandled_same _ _
      | exact unhandled_debug _ _ _ _
    · intro a s ho hs
      subst ho
      simp only [GossipHello, GOGossipHello, GossipSelect, GOGossipSelect, GossipSelectWithCode,
      GOGossipSelectWithCode, QuestAccept, QuestRewarded, GetNPCDialogStatus,
      GetGODialogStatus, ItemQuestAccept, GOUse, GOQuestAccept, GOQuestRewarded, AreaTrigger,
      ProcessEvent, GetCreatureAI, ItemUse, EffectDummyCreature, EffectDummyGameObject,
      EffectDummyItem, EffectScriptEffectCreature, AuraDummy, CreateInstanceData, hl, hs]
      first
      | exact unhandled_same _ _
      | exact unhandled_debug _ _ _ _
    · intro a s f ho hs
      subst ho
      simp only [GossipHello, GOGossipHello, GossipSelect, GOGossipSelect, GossipSelectWithCode,
      GOGossipSelectWithCode, QuestAccept, QuestRewarded, GetNPCDialogStatus,
      GetGODialogStatus, ItemQuestAccept, GOUse, GOQuestAccept, GOQuestRewarded, AreaTrigger,
      ProcessEvent, GetCreatureAI, ItemUse, EffectDummyCreature, EffectDummyGameObject,
      EffectDummyItem, EffectScriptEffectCreature, AuraDummy, CreateInstanceData, hl, hs]
      first
      | exact cleared_plain _ _ _ _ _
      | exact cleared_debug _ _ _ _ _ _ _


/-- C2 (instance): with `scriptGossip` registered at id 1, `GossipHello` for a creature of
script id 1 is handled by `helloCallback`. -/
theorem dispatch_present_slot_handled_witness :
    libOne.m_scripts[1]? = some (some 0) ∧ libOne.script? 0 = some scriptGossip ∧
      scriptGossip.pGossipHello = some helloCallback ∧
      Handled (helloCallback 7 { GetObjectGuid := 9, GetScriptId := 1 }) 0 Slot.pGossipHello
        worldTwo (GossipHello libOne 7 { GetObjectGuid := 9, GetScriptId := 1 } worldTwo) :=
  ⟨rfl, rfl, rfl,
    (dispatch_present_slot_handled hostTwo libOne 1 0 scriptGossip rfl rfl worldTwo).1
      helloCallback rfl 7 { GetObjectGuid := 9, GetScriptId := 1 } rfl⟩

/-- C4 (instance): with `scriptGossip` registered at id 1, `GossipHello` for a creature of
script id 1 clears the menus and then calls `helloCallback`, while `QuestAccept`, whose slot
is absent, clears nothing. -/
theorem dispatch_clears_menus_iff_handled_witness :
    libOne.lookup 1 = Except.ok (some (0, scriptGossip)) ∧
      ClearsIffHandled (some (0, scriptGossip)) Script.pGossipHello
        (fun f => f 7 { GetObjectGuid := 9, GetScriptId := 1 }) false 7 Slot.pGossipHello
        worldTwo (GossipHello libOne 7 { GetObjectGuid := 9, GetScriptId := 1 } worldTwo) ∧
      ClearsIffHandled (some (0, scriptGossip)) Script.pQuestAcceptNPC
        (fun f => f 7 { GetObjectGuid := 9, GetScriptId := 1 } 5) false 7
        Slot.pQuestAcceptNPC worldTwo
        (QuestAccept libOne 7 { GetObjectGuid := 9, GetScriptId := 1 } 5 worldTwo) :=
  ⟨rfl,
    (dispatch_clears_menus_iff_handled hostTwo libOne 1 (some (0, scriptGossip)) rfl
      worldTwo).1 7 { GetObjectGuid := 9, GetScriptId := 1 } rfl,
    (dispatch_clears_menus_iff_handled hostTwo libOne 1 (some (0, scriptGossip)) rfl
      worldTwo).2.2.2.2.2.2.1 7 { GetObjectGuid := 9, GetScriptId := 1 } 5 rfl⟩

/-- C3: when the registry entry at script id `i` is a live record whose dialog-status slot is
absent, whatever its other slots hold, `GetNPCDialogStatus` (and likewise `GetGODialogStatus`)
returns `DIALOG_STATUS_UNDEFINED` and leaves the host state exactly as it was: no callback of
the record is called and the menus are not cleared. -/
theorem dialog_status_absent_slot_undefined (H : Host) (L : Lib) (i a : Nat)
    (pTempScript : Script) (hentry : L.m_scripts[i]? = some (some a))
    (hrec : L.script? a = some pTempScript) (w : World) :
    (pTempScript.pDialogStatusNPC = none → ∀ (pPlayer : Player) (pCreature : Creature),
      pCreature.GetScriptId = i →
      GetNPCDialogStatus H L pPlayer pCreature w = Except.ok (H.DIALOG_STATUS_UNDEFINED, w) ∧
      Unhandled H.DIALOG_STATUS_UNDEFINED w (GetNPCDialogStatus H L pPlayer pCreature w)) ∧
    (pTempScript.pDialogStatusGO = none → ∀ (pPlayer : Player) (pGo : GameObject),
      pGo.GetGOInfo.ScriptId = i →
      GetGODialogStatus H L pPlayer pGo w = Except.ok (H.DIALOG_STATUS_UNDEFINED, w) ∧
      Unhandled H.DIALOG_STATUS_UNDEFINED w (GetGODialogStatus H L pPlayer pGo w)) := by
  have hl := lookup_of_record hentry hrec
  refine ⟨?_, ?_⟩
  all_goals
    intro hs
    intros
    subst_vars
    refine ⟨by simp only [GetNPCDialogStatus, GetGODialogStatus, hl, hs], ?_⟩
    simp only [GetNPCDialogStatus, GetGODialogStatus, hl, hs]
    exact unhandled_same _ _

/-- C3 (instance): `scriptGossip` has gossip callbacks but no dialog-status callback, and the
dialog status of a creature of script id 1 is the undefined status 100 of `hostTwo`. -/
theorem dialog_status_absent_slot_undefined_witness :
    libOne.m_scripts[1]? = some (some 0) ∧ libOne.script? 0 = some scriptGossip ∧
      scriptGossip.pDialogStatusNPC = none ∧
      GetNPCDialogStatus hostTwo libOne 7 { GetObjectGuid := 9, GetScriptId := 1 } worldTwo =
        Except.ok (100, worldTwo) :=
  ⟨rfl, rfl, rfl,
    ((dialog_status_absent_slot_undefined hostTwo libOne 1 0 scriptGossip rfl rfl worldTwo).1
      rfl 7 { GetObjectGuid := 9, GetScriptId := 1 } rfl).1⟩

/-- C10: for a non-negative text entry, a non-null source and a non-null map, each text helper
adds exactly one action, an error-log line, and changes nothing else: `DoScriptText` makes no
`DoDisplayText` call and `DoOrSimulateScriptTextForMap` plays no sound and yells nothing. -/
theorem text_helpers_reject_nonnegative_entry (H : Host) (iTextEntry : Int)
    (hentry : 0 ≤ iTextEntry) (pSource : WorldObject) (pMap : Map) (uiCreatureEntry : Nat)
    (pCreatureSource : Option Creature) (pTarget : Option WorldUnit) (w : World) :
    (∃ fmt args, DoScriptText iTextEntry (some pSource) pTarget w =
      w.emit (Event.script_error_log fmt args)) ∧
    (∃ fmt args, DoOrSimulateScriptTextForMap H iTextEntry uiCreatureEntry (some pMap)
      pCreatureSource pTarget w = w.emit (Event.script_error_log fmt args)) := by
  constructor
  · simp only [DoScriptText, ge_iff_le, hentry, if_true]
    exact ⟨_, _, rfl⟩
  · simp only [DoOrSimulateScriptTextForMap, ge_iff_le, hentry, if_true]
    exact ⟨_, _, rfl⟩

/-- C10 (instance): text entry 5. -/
theorem text_helpers_reject_nonnegative_entry_witness :
    (0 : Int) ≤ 5 ∧
      (∃ fmt args, DoScriptText 5 (some { GetEntry := 1, GetTypeId := 3, GetGUIDLow := 8 })
        none worldTwo = worldTwo.emit (Event.script_error_log fmt args)) ∧
      (∃ fmt args, DoOrSimulateScriptTextForMap hostTwo 5 11 (some { GetId := 2, GetScriptId := 0 })
        (some { GetObjectGuid := 9, GetScriptId := 1 }) none worldTwo =
          worldTwo.emit (Event.script_error_log fmt args)) :=
  ⟨by decide, text_helpers_reject_nonnegative_entry hostTwo 5 (by decide)
    { GetEntry := 1, GetTypeId := 3, GetGUIDLow := 8 } { GetId := 2, GetScriptId := 0 } 11
    (some { GetObjectGuid := 9, GetScriptId := 1 }) none worldTwo⟩

/-- C6: when the host resolves the name of the live record at `this` to id 0, `RegisterSelf`
returns normally, leaves the registry (every entry and its size), the handler count and the
`SpellSummary` pointer unchanged, and destroys the record: the object at `this` is no longer
live, every other heap object is untouched, and the record is not stored by the call. -/
theorem RegisterSelf_unknown_name_discards (H : Host) (this : Nat) (bReportError : Bool)
    (L : Lib) (w : World) (self : Script) (hlive : L.script? this = some self)
    (hid : H.GetScriptId self.Name = 0) :
    ∃ L1 w1, RegisterSelf H this bReportError L w = Except.ok (L1, w1) ∧
      L1.m_scripts = L.m_scripts ∧ L1.num_sc_scripts = L.num_sc_scripts ∧
      L1.SpellSummary = L.SpellSummary ∧
      L1.heap[this]? = some none ∧ L1.script? this = none ∧
      L1.heap.length = L.heap.length ∧ (∀ a, a ≠ this → L1.heap[a]? = L.heap[a]?) := by
  have hheap : ∃ s, L.heap[this]? = some (some (Obj.script s)) := by
    unfold Lib.script? at hlive
    split at hlive
    · exact ⟨_, by assumption⟩
    · cases hlive
  obtain ⟨s, hs⟩ := hheap
  have hlt : this < L.heap.length := by
    rcases Nat.lt_or_ge this L.heap.length with h | h
    · exact h
    · rw [List.getElem?_eq_none h] at hs
      cases hs
  refine ⟨{ L with heap := L.heap.set this none },
    if bReportError then
      w.emit (Event.script_error_log
        "Script registering but ScriptName %s is not assigned in database. Script will not be used."
        [LogArg.str self.Name])
    else w, ?_, rfl, rfl, rfl, ?_, ?_, ?_, ?_⟩
  · simp [RegisterSelf, hlive, hid, deleteScript, hs]
  · simp [List.getElem?_set, hlt]
  · simp [Lib.script?, List.getElem?_set, hlt]
  · simp
  · intro a ha
    simp [List.getElem?_set, Ne.symm ha]

/-- C6 (instance): registering `scriptUnknown`, whose empty name `hostTwo` resolves to 0. -/
theorem RegisterSelf_unknown_name_discards_witness :
    libFresh.script? 1 = some scriptUnknown ∧ hostTwo.GetScriptId scriptUnknown.Name = 0 ∧
      ∃ L1 w1, RegisterSelf hostTwo 1 true libFresh worldTwo = Except.ok (L1, w1) ∧
        L1.m_scripts = libFresh.m_scripts ∧ L1.num_sc_scripts = libFresh.num_sc_scripts ∧
        L1.SpellSummary = libFresh.SpellSummary ∧
        L1.heap[1]? = some none ∧ L1.script? 1 = none ∧
        L1.heap.length = libFresh.heap.length ∧
        (∀ a, a ≠ 1 → L1.heap[a]? = libFresh.heap[a]?) :=
  ⟨rfl, rfl, RegisterSelf_unknown_name_discards hostTwo 1 true libFresh worldTwo scriptUnknown
    rfl rfl⟩

/-- C7 (counterexample): with the handler count at `2147483647`, the largest value of the
`int` counter, a successful `RegisterSelf` leaves the count at `-2147483648`, not at the
previous count plus one. -/
theorem RegisterSelf_count_wraps_at_int_max :
    libCountMax.script? 0 = some scriptGossip ∧ hostTwo.GetScriptId scriptGossip.Name = 1 ∧
      1 < libCountMax.m_scripts.length ∧ libCountMax.num_sc_scripts = 2147483647 ∧
      ∃ L1, RegisterSelf hostTwo 0 true libCountMax worldTwo = Except.ok (L1, worldTwo) ∧
        L1.num_sc_scripts = -2147483648 ∧
        L1.num_sc_scripts ≠ libCountMax.num_sc_scripts + 1 :=
  ⟨rfl, by decide, by decide, rfl, _, rfl, by decide, by decide⟩

/-- C7 (amended): when the host resolves the name of the live record at `this` to an id `i`
with `0 < i < N`, `N` the registry size, `RegisterSelf` returns normally with entry `i`
pointing to that record (still live and unchanged), every other entry unchanged, the size
unchanged, whether or not entry `i` was occupied, and the handler count incremented as a
32-bit `int`: it is the previous count plus one whenever the previous count is an `int` value
below `2147483647`, and `-2147483648` when the previous count is `2147483647`. -/
theorem RegisterSelf_known_name_stores (H : Host) (this : Nat) (bReportError : Bool)
    (L : Lib) (w : World) (self : Script) (i : Nat) (hlive : L.script? this = some self)
    (hid : H.GetScriptId self.Name = i) (hpos : 0 < i) (hlt : i < L.m_scripts.length) :
    ∃ L1, RegisterSelf H this bReportError L w = Except.ok (L1, w) ∧
      L1.m_scripts[i]? = some (some this) ∧ L1.script? this = some self ∧
      (∀ j, j ≠ i → L1.m_scripts[j]? = L.m_scripts[j]?) ∧
      L1.m_scripts.length = L.m_scripts.length ∧
      L1.num_sc_scripts = wrapInt32 (L.num_sc_scripts + 1) ∧
      (-2147483648 ≤ L.num_sc_scripts → L.num_sc_scripts < 2147483647 →
        L1.num_sc_scripts = L.num_sc_scripts + 1) ∧
      (L.num_sc_scripts = 2147483647 → L1.num_sc_scripts = -2147483648) ∧
      L1.heap = L.heap ∧ L1.SpellSummary = L.SpellSummary := by
  subst hid
  refine ⟨{ L with m_scripts := L.m_scripts.set (H.GetScriptId self.Name) (some this),
                   num_sc_scripts := wrapInt32 (L.num_sc_scripts + 1) },
    ?_, ?_, ?_, ?_, ?_, rfl, ?_, ?_, rfl, rfl⟩
  · simp [RegisterSelf, hlive, Nat.pos_iff_ne_zero.mp hpos, hlt]
  · simp [List.getElem?_set, hlt]
  · simpa [Lib.script?] using hlive
  · intro j hj
    simp [List.getElem?_set, Ne.symm hj]
  · simp
  · intro hlo hhi
    exact wrapInt32_of_range (by omega) (by omega)
  · intro hmax
    show wrapInt32 (L.num_sc_scripts + 1) = -2147483648
    rw [hmax]
    decide

/-- C7 (instance): registering `scriptGossip`, whose name `hostTwo` resolves to id 1, in a
registry of size 2 with count 0. -/
theorem RegisterSelf_known_name_stores_witness :
    libFresh.script? 0 = some scriptGossip ∧ hostTwo.GetScriptId scriptGossip.Name = 1 ∧
      0 < 1 ∧ 1 < libFresh.m_scripts.length ∧
      ∃ L1, RegisterSelf hostTwo 0 true libFresh worldTwo = Except.ok (L1, worldTwo) ∧
        L1.m_scripts[1]? = some (some 0) ∧ L1.script? 0 = some scriptGossip ∧
        (∀ j, j ≠ 1 → L1.m_scripts[j]? = libFresh.m_scripts[j]?) ∧
        L1.m_scripts.length = libFresh.m_scripts.length ∧
        L1.num_sc_scripts = wrapInt32 (libFresh.num_sc_scripts + 1) ∧
        (-2147483648 ≤ libFresh.num_sc_scripts → libFresh.num_sc_scripts < 2147483647 →
          L1.num_sc_scripts = libFresh.num_sc_scripts + 1) ∧
        (libFresh.num_sc_scripts = 2147483647 → L1.num_sc_scripts = -2147483648) ∧
        L1.heap = libFresh.heap ∧ L1.SpellSummary = libFresh.SpellSummary :=
  ⟨rfl, by decide, by decide, by decide,
    RegisterSelf_known_name_stores hostTwo 0 true libFresh worldTwo scriptGossip 1 rfl
      (by decide) (by decide) (by decide)⟩


/-! ### Heap and ownership lemmas -/

theorem script?_iff {L : Lib} {a : Nat} {s : Script} :
    L.script? a = some s ↔ L.heap[a]? = some (some (Obj.script s)) := by
  unfold Lib.script?
  constructor
  · intro h
    split at h
    · rename_i s1 hs
      cases h
      exact hs
    · cases h
  · intro h
    simp [h]

theorem script?_lt {L : Lib} {a : Nat} {s : Script} (h : L.script? a = some s) :
    a < L.heap.length := by
  rw [script?_iff] at h
  rcases Nat.lt_or_ge a L.heap.length with hlt | hge
  · exact hlt
  · rw [List.getElem?_eq_none hge] at h
    cases h

theorem script?_congr {L L1 : Lib} {a : Nat} (h : L1.heap[a]? = L.heap[a]?) :
    L1.script? a = L.script? a := by
  unfold Lib.script?
  rw [h]

theorem nodup_set_fresh (m : List (Option Nat)) (i x : Nat)
    (hnd : (m.filterMap id).Nodup) (hx : some x ∉ m) :
    ((m.set i (some x)).filterMap id).Nodup := by
  induction m generalizing i with
  | nil => simp
  | cons p rest ih =>
    have hxrest : some x ∉ rest := fun h => hx (List.mem_cons_of_mem _ h)
    cases i with
    | zero =>
      cases p with
      | none =>
        simp only [List.set_cons_zero, List.filterMap_cons, id] at hnd ⊢
        exact List.nodup_cons.mpr ⟨by simpa using hxrest, hnd⟩
      | some a =>
        simp only [List.set_cons_zero, List.filterMap_cons, id] at hnd ⊢
        exact List.nodup_cons.mpr ⟨by simpa using hxrest, (List.nodup_cons.mp hnd).2⟩
    | succ k =>
      cases p with
      | none =>
        simp only [List.set_cons_succ, List.filterMap_cons, id] at hnd ⊢
        exact ih k hnd hxrest
      | some a =>
        simp only [List.set_cons_succ, List.filterMap_cons, id] at hnd ⊢
        have hnd2 := List.nodup_cons.mp hnd
        refine List.nodup_cons.mpr ⟨?_, ih k hnd2.2 hxrest⟩
        intro hmem
        have hmem2 : some a ∈ rest.set k (some x) := by simpa using hmem
        rcases List.mem_or_eq_of_mem_set hmem2 with h | h
        · exact hnd2.1 (by simpa using h)
        · exact hx (by rw [← h]; exact List.mem_cons_self _ _)

/-- A state with the same registry and `SpellSummary` whose heap agrees with the old one on
every old address keeps the ownership discipline and the registry content. -/
theorem owned_of_heap_agree {L M : Lib} (hown : L.Owned) (hm : M.m_scripts = L.m_scripts)
    (hsum : M.SpellSummary = L.SpellSummary)
    (hheap : ∀ a, a < L.heap.length → M.heap[a]? = L.heap[a]?) :
    M.Owned ∧ M.records = L.records := by
  have hlive : ∀ a, some a ∈ L.m_scripts → M.script? a = L.script? a := by
    intro a ha
    obtain ⟨s, hs⟩ := hown.live a ha
    exact script?_congr (hheap a (script?_lt hs))
  refine ⟨⟨?_, ?_, ?_⟩, ?_⟩
  · intro a ha
    rw [hm] at ha
    rw [hlive a ha]
    exact hown.live a ha
  · rw [hm]
    exact hown.distinct
  · intro a ha
    rw [hsum] at ha
    obtain ⟨n, hn⟩ := hown.summary a ha
    have hlt : a < L.heap.length := by
      rcases Nat.lt_or_ge a L.heap.length with hlt | hge
      · exact hlt
      · rw [List.getElem?_eq_none hge] at hn
        cases hn
    exact ⟨n, by rw [hheap a hlt]; exact hn⟩
  · unfold Lib.records
    rw [hm]
    apply List.map_congr_left
    intro p hp
    cases p with
    | none => rfl
    | some a => exact hlive a hp

/-- Storing a live record that the registry does not hold yet keeps the ownership discipline
and replaces one entry of the registry content. -/
theorem owned_store {L : Lib} (hown : L.Owned) {this : Nat} {s : Script}
    (hs : L.script? this = some s) (hfresh : some this ∉ L.m_scripts) (i : Nat) (c : Int) :
    ({ L with m_scripts := L.m_scripts.set i (some this), num_sc_scripts := c } : Lib).Owned ∧
    ({ L with m_scripts := L.m_scripts.set i (some this), num_sc_scripts := c } : Lib).records =
      L.records.set i (some s) := by
  refine ⟨⟨?_, ?_, ?_⟩, ?_⟩
  · intro a ha
    rcases List.mem_or_eq_of_mem_set ha with h | h
    · exact hown.live a h
    · cases h
      exact ⟨s, hs⟩
  · exact nodup_set_fresh _ _ _ hown.distinct hfresh
  · exact hown.summary
  · show List.map (fun p => p.bind L.script?) (L.m_scripts.set i (some this)) =
      (List.map (fun p => p.bind L.script?) L.m_scripts).set i (some s)
    rw [List.map_set]
    simp only [Option.some_bind, hs]


/-- Registering a freshly constructed record: the call returns normally, keeps the ownership
discipline, and updates content and count as `registered` and `successes` describe. -/
theorem register_fresh (H : Host) {L : Lib} (hown : L.Owned) (s : Script) (b : Bool)
    (w : World)
    (hid : H.GetScriptId s.Name = 0 ∨ H.GetScriptId s.Name < L.m_scripts.length) :
    ∃ L1 w1, RegisterSelf H (L.alloc (Obj.script s)).1 b (L.alloc (Obj.script s)).2 w =
        Except.ok (L1, w1) ∧ L1.Owned ∧
      L1.records = (if H.GetScriptId s.Name ≠ 0 then
        L.records.set (H.GetScriptId s.Name) (some s) else L.records) ∧
      L1.num_sc_scripts = (if H.GetScriptId s.Name ≠ 0 then
        wrapInt32 (L.num_sc_scripts + 1) else L.num_sc_scripts) ∧
      L1.m_scripts.length = L.m_scripts.length := by
  have hheap2 : ((L.alloc (Obj.script s)).2).heap[(L.alloc (Obj.script s)).1]? =
      some (some (Obj.script s)) := by
    simp [Lib.alloc]
  have hs2 : ((L.alloc (Obj.script s)).2).script? (L.alloc (Obj.script s)).1 = some s :=
    script?_iff.mpr hheap2
  have hagree : ∀ a, a < L.heap.length →
      ((L.alloc (Obj.script s)).2).heap[a]? = L.heap[a]? := by
    intro a ha
    simp [Lib.alloc, List.getElem?_append_left ha]
  obtain ⟨hown2, hrec2⟩ := owned_of_heap_agree (M := (L.alloc (Obj.script s)).2) hown rfl rfl
    hagree
  have hfresh : some (L.alloc (Obj.script s)).1 ∉ ((L.alloc (Obj.script s)).2).m_scripts := by
    intro hmem
    obtain ⟨s1, hs1⟩ := hown.live _ hmem
    exact Nat.lt_irrefl _ (script?_lt hs1)
  by_cases h0 : H.GetScriptId s.Name = 0
  · refine ⟨{ (L.alloc (Obj.script s)).2 with
        heap := ((L.alloc (Obj.script s)).2).heap.set (L.alloc (Obj.script s)).1 none },
      if b then
        w.emit (Event.script_error_log
          "Script registering but ScriptName %s is not assigned in database. Script will not be used."
          [LogArg.str s.Name])
      else w, ?_, ?_⟩
    · simp [RegisterSelf, hs2, h0, deleteScript, hheap2]
    · have hagree3 : ∀ a, a < L.heap.length →
          (((L.alloc (Obj.script s)).2).heap.set (L.alloc (Obj.script s)).1 none)[a]? =
            L.heap[a]? := by
        intro a ha
        have hne : L.heap.length ≠ a := Nat.ne_of_gt ha
        simp [Lib.alloc, List.getElem?_set, hne, List.getElem?_append_left ha]
      obtain ⟨hown3, hrec3⟩ := owned_of_heap_agree (M := { (L.alloc (Obj.script s)).2 with
        heap := ((L.alloc (Obj.script s)).2).heap.set (L.alloc (Obj.script s)).1 none })
        hown rfl rfl hagree3
      refine ⟨hown3, ?_, ?_, rfl⟩
      · simp [h0, hrec3]
      · simp [h0, Lib.alloc]
  · have hlt : H.GetScriptId s.Name < L.m_scripts.length := by
      rcases hid with h | h
      · exact absurd h h0
      · exact h
    obtain ⟨hown3, hrec3⟩ := owned_store hown2 hs2 hfresh (H.GetScriptId s.Name)
      (wrapInt32 (L.num_sc_scripts + 1))
    refine ⟨_, w, ?_, hown3, ?_, ?_, ?_⟩
    · have hlt2 : H.GetScriptId s.Name < ((L.alloc (Obj.script s)).2).m_scripts.length := hlt
      simp only [RegisterSelf, hs2, ne_eq, h0, not_false_eq_true, if_true, hlt2]
      rfl
    · rw [hrec3, hrec2]
      simp [h0]
    · simp [h0]
    · simp [Lib.alloc]

theorem AddScripts_spec (H : Host) (content : List (Script × Bool)) :
    ∀ (L : Lib) (w : World), L.Owned →
      (∀ sb ∈ content, H.GetScriptId sb.1.Name = 0 ∨
        H.GetScriptId sb.1.Name < L.m_scripts.length) →
      ∃ L1 w1, AddScripts H content L w = Except.ok (L1, w1) ∧ L1.Owned ∧
        L1.records = registered H L.records content ∧
        (wrapInt32 L.num_sc_scripts = L.num_sc_scripts →
          L1.num_sc_scripts = wrapInt32 (L.num_sc_scripts + successes H content)) ∧
        L1.m_scripts.length = L.m_scripts.length := by
  induction content with
  | nil =>
    intro L w hown _
    exact ⟨L, w, rfl, hown, rfl, fun hr => by simp [successes, hr], rfl⟩
  | cons sb rest ih =>
    intro L w hown hids
    obtain ⟨s, b⟩ := sb
    obtain ⟨L1, w1, hreg, hown1, hrec1, hcnt1, hlen1⟩ :=
      register_fresh H hown s b w (hids (s, b) (List.mem_cons_self _ _))
    have hids1 : ∀ sb ∈ rest, H.GetScriptId sb.1.Name = 0 ∨
        H.GetScriptId sb.1.Name < L1.m_scripts.length := by
      intro sb hsb
      rw [hlen1]
      exact hids sb (List.mem_cons_of_mem _ hsb)
    obtain ⟨L2, w2, hadd, hown2, hrec2, hcnt2, hlen2⟩ := ih L1 w1 hown1 hids1
    refine ⟨L2, w2, ?_, hown2, ?_, ?_, ?_⟩
    · simp only [AddScripts, hreg]
      exact hadd
    · rw [hrec2, hrec1]
      rfl
    · intro hr
      by_cases h0 : H.GetScriptId s.Name = 0
      · have hc : L1.num_sc_scripts = L.num_sc_scripts := by simp [hcnt1, h0]
        have hk : successes H ((s, b) :: rest) = successes H rest := by
          simp [successes, List.filter_cons, h0]
        rw [hcnt2 (by rw [hc]; exact hr), hc, hk]
      · have hc : L1.num_sc_scripts = wrapInt32 (L.num_sc_scripts + 1) := by simp [hcnt1, h0]
        have hk : successes H ((s, b) :: rest) = successes H rest + 1 := by
          simp [successes, List.filter_cons, h0]
        rw [hcnt2 (by rw [hc]; exact wrapInt32_idem _), hc, hk, wrapInt32_add]
        congr 1
        push_cast
        omega
    · rw [hlen2, hlen1]

theorem checkScripts_ok (H : Host) (L : Lib) (ids : List Nat) :
    ∀ w : World, (∀ i ∈ ids, i < L.m_scripts.length) →
      ∃ w1, checkScripts H L ids w = Except.ok w1 := by
  induction ids with
  | nil =>
    intro w _
    exact ⟨w, rfl⟩
  | cons i rest ih =>
    intro w hids
    have hi : i < L.m_scripts.length := hids i (List.mem_cons_self _ _)
    have hrest : ∀ j ∈ rest, j < L.m_scripts.length :=
      fun j hj => hids j (List.mem_cons_of_mem _ hj)
    have hget : L.m_scripts[i]? = some L.m_scripts[i] := List.getElem?_eq_getElem hi
    cases hp : L.m_scripts[i] with
    | none =>
      rw [hp] at hget
      simp only [checkScripts, hget]
      exact ih _ hrest
    | some a =>
      rw [hp] at hget
      simp only [checkScripts, hget]
      exact ih _ hrest

theorem freeScripts_ok (m : List (Option Nat)) :
    ∀ heap : List (Option Obj),
      (∀ a, some a ∈ m → ∃ s, heap[a]? = some (some (Obj.script s))) →
      (m.filterMap id).Nodup →
      ∃ heap1, freeScripts m heap = Except.ok heap1 ∧
        (∀ a, some a ∈ m → heap1[a]? = some none) ∧
        (∀ a, some a ∉ m → heap1[a]? = heap[a]?) := by
  induction m with
  | nil =>
    intro heap _ _
    exact ⟨heap, rfl, by simp, fun _ _ => rfl⟩
  | cons p rest ih =>
    intro heap hlive hnd
    cases p with
    | none =>
      simp only [List.filterMap_cons, id] at hnd
      obtain ⟨heap1, h1, hdel, hkeep⟩ :=
        ih heap (fun a ha => hlive a (List.mem_cons_of_mem _ ha)) hnd
      refine ⟨heap1, by simp only [freeScripts, deleteScript, h1], ?_, ?_⟩
      · intro a ha
        exact hdel a (by simpa using ha)
      · intro a ha
        exact hkeep a (fun h => ha (List.mem_cons_of_mem _ h))
    | some a =>
      simp only [List.filterMap_cons, id] at hnd
      obtain ⟨hnotin, hnd1⟩ := List.nodup_cons.mp hnd
      have hnotin2 : some a ∉ rest := fun h => hnotin (by simpa using h)
      obtain ⟨s, hs⟩ := hlive a (List.mem_cons_self _ _)
      have halt : a < heap.length := by
        rcases Nat.lt_or_ge a heap.length with h | h
        · exact h
        · rw [List.getElem?_eq_none h] at hs
          cases hs
      have hlive1 : ∀ a1, some a1 ∈ rest →
          ∃ s1, (heap.set a none)[a1]? = some (some (Obj.script s1)) := by
        intro a1 ha1
        have hne : a ≠ a1 := by
          intro h
          subst h
          exact hnotin2 ha1
        obtain ⟨s1, hs1⟩ := hlive a1 (List.mem_cons_of_mem _ ha1)
        exact ⟨s1, by simp [List.getElem?_set, hne, hs1]⟩
      obtain ⟨heap1, h1, hdel, hkeep⟩ := ih (heap.set a none) hlive1 hnd1
      refine ⟨heap1, by simp only [freeScripts, deleteScript, hs, h1], ?_, ?_⟩
      · intro b hb
        rcases List.mem_cons.mp hb with h | h
        · cases h
          rw [hkeep a hnotin2]
          simp [List.getElem?_set, halt]
        · exact hdel b h
      · intro b hb
        have hne : a ≠ b := by
          intro h
          subst h
          exact hb (List.mem_cons_self _ _)
        rw [hkeep b (fun h => hb (List.mem_cons_of_mem _ h))]
        simp [List.getElem?_set, hne]

/-- From a state that keeps the ownership discipline `FreeScriptLibrary` returns normally with
an empty registry and a zero count; every record the registry held and the `SpellSummary`
table are released, and no other heap object is touched. -/
theorem FreeScriptLibrary_owned (L : Lib) (w : World) (hown : L.Owned) :
    ∃ L1 w1, FreeScriptLibrary L w = Except.ok (L1, w1) ∧ L1.m_scripts = [] ∧
      L1.num_sc_scripts = 0 ∧
      (∀ a, some a ∈ L.m_scripts → L1.heap[a]? = some none) ∧
      (∀ t, L.SpellSummary = some t → L1.heap[t]? = some none) ∧
      (∀ a, some a ∉ L.m_scripts → L.SpellSummary ≠ some a → L1.heap[a]? = L.heap[a]?) := by
  have hscripts : ∀ heap1 : List (Option Obj),
      (∀ a, some a ∈ L.m_scripts → heap1[a]? = L.heap[a]?) →
      ∃ heap2, freeScripts L.m_scripts heap1 = Except.ok heap2 ∧
        (∀ a, some a ∈ L.m_scripts → heap2[a]? = some none) ∧
        (∀ a, some a ∉ L.m_scripts → heap2[a]? = heap1[a]?) := by
    intro heap1 hagree
    apply freeScripts_ok _ _ _ hown.distinct
    intro a ha
    obtain ⟨s, hs⟩ := hown.live a ha
    exact ⟨s, by rw [hagree a ha]; exact script?_iff.mp hs⟩
  cases hsum : L.SpellSummary with
  | none =>
    obtain ⟨heap2, h2, hdel, hkeep⟩ := hscripts L.heap (fun _ _ => rfl)
    have heq : FreeScriptLibrary L w = Except.ok
        ({ m_scripts := [], num_sc_scripts := 0, SpellSummary := none, heap := heap2 },
          w.emit (Event.hostCall "setScriptLibraryErrorFile(NULL, NULL)")) := by
      simp only [FreeScriptLibrary, hsum, deleteArray, h2]
    refine ⟨_, _, heq, rfl, rfl, hdel, ?_, fun a ha _ => hkeep a ha⟩
    intro t ht
    cases ht
  | some t =>
    obtain ⟨n, hn⟩ := hown.summary t hsum
    have htlt : t < L.heap.length := by
      rcases Nat.lt_or_ge t L.heap.length with h | h
      · exact h
      · rw [List.getElem?_eq_none h] at hn
        cases hn
    have htnot : some t ∉ L.m_scripts := by
      intro hmem
      obtain ⟨s, hs⟩ := hown.live t hmem
      rw [script?_iff.mp hs] at hn
      cases hn
    have hagree : ∀ a, some a ∈ L.m_scripts → (L.heap.set t none)[a]? = L.heap[a]? := by
      intro a ha
      have hne : t ≠ a := by
        intro h
        subst h
        exact htnot ha
      simp [List.getElem?_set, hne]
    obtain ⟨heap2, h2, hdel, hkeep⟩ := hscripts (L.heap.set t none) hagree
    have heq : FreeScriptLibrary L w = Except.ok
        ({ m_scripts := [], num_sc_scripts := 0, SpellSummary := some t, heap := heap2 },
          w.emit (Event.hostCall "setScriptLibraryErrorFile(NULL, NULL)")) := by
      simp only [FreeScriptLibrary, hsum, deleteArray, hn, h2]
    refine ⟨_, _, heq, rfl, rfl, hdel, ?_, ?_⟩
    · intro t1 ht1
      cases ht1
      show heap2[t]? = some none
      rw [hkeep t htnot]
      simp [List.getElem?_set, htlt]
    · intro a ha hne
      have hne2 : t ≠ a := fun h => hne (by rw [h])
      show heap2[a]? = L.heap[a]?
      rw [hkeep a ha]
      simp [List.getElem?_set, hne2]

/-- A load started with an empty registry and a zero count returns normally; the registry it
builds has one entry per host id, holds the records `registered` describes, and the count is
the number of successful registrations as a 32-bit `int`. -/
theorem InitScriptLibrary_fresh (H : Host) (content : List (Script × Bool)) (L : Lib)
    (w : World) (hempty : L.m_scripts = []) (hzero : L.num_sc_scripts = 0)
    (hids : ∀ sb ∈ content, H.GetScriptId sb.1.Name = 0 ∨
      H.GetScriptId sb.1.Name < H.GetScriptIdsCount) :
    ∃ L1 w1, InitScriptLibrary H content L w = Except.ok (L1, w1) ∧ L1.Owned ∧
      L1.records = registered H (List.replicate H.GetScriptIdsCount none) content ∧
      L1.num_sc_scripts = wrapInt32 (successes H content) ∧
      L1.m_scripts.length = H.GetScriptIdsCount := by
  have hresize : resize L.m_scripts H.GetScriptIdsCount =
      List.replicate H.GetScriptIdsCount none := by
    simp [resize, hempty]
  have hown2 : (FillSpellSummary H
      { L with m_scripts := resize L.m_scripts H.GetScriptIdsCount }).Owned := by
    refine ⟨?_, ?_, ?_⟩
    · intro a ha
      have ha2 : some a ∈ List.replicate H.GetScriptIdsCount (none : Option Nat) := by
        rw [← hresize]
        exact ha
      simp at ha2
    · show ((resize L.m_scripts H.GetScriptIdsCount).filterMap id).Nodup
      rw [hresize]
      have : (List.replicate H.GetScriptIdsCount (none : Option Nat)).filterMap id = [] := by
        rw [List.filterMap_eq_nil_iff]
        intro p hp
        rw [(List.mem_replicate.mp hp).2]
        rfl
      rw [this]
      exact List.nodup_nil
    · intro a ha
      refine ⟨H.GetSpellStoreNumRows, ?_⟩
      simp only [FillSpellSummary, Lib.alloc, Option.some.injEq] at ha ⊢
      subst ha
      simp
  have hrec2 : (FillSpellSummary H
      { L with m_scripts := resize L.m_scripts H.GetScriptIdsCount }).records =
      List.replicate H.GetScriptIdsCount none := by
    show List.map _ (resize L.m_scripts H.GetScriptIdsCount) = _
    rw [hresize]
    simp
  have hlen2 : (FillSpellSummary H
      { L with m_scripts := resize L.m_scripts H.GetScriptIdsCount }).m_scripts.length =
      H.GetScriptIdsCount := by
    show (resize L.m_scripts H.GetScriptIdsCount).length = _
    rw [hresize]
    simp
  obtain ⟨L3, w3, hadd, hown3, hrec3, hcnt3, hlen3⟩ := AddScripts_spec H content _ (startup H w)
    hown2 (by rw [hlen2]; exact hids)
  obtain ⟨w4, hchk⟩ := checkScripts_ok H L3 (List.range' 1 (H.GetScriptIdsCount - 1)) w3 (by
    intro i hi
    rw [hlen3, hlen2]
    have := List.mem_range'_1.mp hi
    omega)
  have heq : InitScriptLibrary H content L w = Except.ok
      (L3, w4.emit (Event.outstring_log ">> Loaded %i C++ Scripts."
        [LogArg.int L3.num_sc_scripts])) := by
    simp only [InitScriptLibrary, hadd, hchk]
  refine ⟨L3, _, heq, hown3, ?_, ?_, ?_⟩
  · rw [hrec3, hrec2]
  · have hr : wrapInt32 L.num_sc_scripts = L.num_sc_scripts := by
      rw [hzero]
      decide
    rw [hcnt3 hr]
    show wrapInt32 (L.num_sc_scripts + _) = _
    rw [hzero]
    simp
  · rw [hlen3, hlen2]


/-- C9: for a host whose name resolution stays inside its id table and any content of
`AddScripts`, a load started with an empty registry and a zero count, followed by
`FreeScriptLibrary` and a second load with the same inputs, all return normally, and the
second load yields a registry of the same size, with the same record (or null) at every
index, and the same handler count as the first; in both every non-null entry is a live
record. -/
theorem load_free_load_restores (H : Host) (content : List (Script × Bool)) (L0 : Lib)
    (w0 : World) (hempty : L0.m_scripts = []) (hzero : L0.num_sc_scripts = 0)
    (hids : ∀ sb ∈ content, H.GetScriptId sb.1.Name = 0 ∨
      H.GetScriptId sb.1.Name < H.GetScriptIdsCount) :
    ∃ L1 w1 L2 w2 L3 w3,
      InitScriptLibrary H content L0 w0 = Except.ok (L1, w1) ∧
      FreeScriptLibrary L1 w1 = Except.ok (L2, w2) ∧
      InitScriptLibrary H content L2 w2 = Except.ok (L3, w3) ∧
      L3.m_scripts.length = L1.m_scripts.length ∧
      L1.m_scripts.length = H.GetScriptIdsCount ∧
      L3.records = L1.records ∧
      L3.num_sc_scripts = L1.num_sc_scripts ∧
      L1.Owned ∧ L3.Owned := by
  obtain ⟨L1, w1, h1, hown1, hrec1, hcnt1, hlen1⟩ :=
    InitScriptLibrary_fresh H content L0 w0 hempty hzero hids
  obtain ⟨L2, w2, h2, hempty2, hzero2, _⟩ := FreeScriptLibrary_owned L1 w1 hown1
  obtain ⟨L3, w3, h3, hown3, hrec3, hcnt3, hlen3⟩ :=
    InitScriptLibrary_fresh H content L2 w2 hempty2 hzero2 hids
  exact ⟨L1, w1, L2, w2, L3, w3, h1, h2, h3, by rw [hlen3, hlen1], hlen1,
    by rw [hrec3, hrec1], by rw [hcnt3, hcnt1], hown1, hown3⟩

/-- C9 (instance): `hostTwo` with a known and an unknown record, from the state at process
start. -/
theorem load_free_load_restores_witness :
    Lib.initial.m_scripts = [] ∧ Lib.initial.num_sc_scripts = 0 ∧
      ∃ L1 w1 L2 w2 L3 w3,
        InitScriptLibrary hostTwo contentTwo Lib.initial worldTwo = Except.ok (L1, w1) ∧
        FreeScriptLibrary L1 w1 = Except.ok (L2, w2) ∧
        InitScriptLibrary hostTwo contentTwo L2 w2 = Except.ok (L3, w3) ∧
        L3.m_scripts.length = L1.m_scripts.length ∧
        L1.m_scripts.length = hostTwo.GetScriptIdsCount ∧
        L3.records = L1.records ∧
        L3.num_sc_scripts = L1.num_sc_scripts ∧
        L1.Owned ∧ L3.Owned :=
  ⟨rfl, rfl, load_free_load_restores hostTwo contentTwo Lib.initial worldTwo rfl rfl (by
    intro sb hsb
    simp only [contentTwo, List.mem_cons, List.mem_singleton, List.not_mem_nil, or_false]
      at hsb
    rcases hsb with h | h
    · subst h
      exact Or.inr (by decide)
    · subst h
      exact Or.inl (by decide))⟩

/-- C5 (the defect, evaluated): two records of the same name are registered one after the
other in a registry of size 2. The registry then holds the second record at id 1, but the
first is still a live heap object that no registry entry points to, and it is still live after
`FreeScriptLibrary` has released everything the registry holds. -/
theorem RegisterSelf_duplicate_leaks_first :
    ∃ L1 w1 L2 w2 L3 w3,
      RegisterSelf hostTwo 0 true libDup worldTwo = Except.ok (L1, w1) ∧
      RegisterSelf hostTwo 1 true L1 w1 = Except.ok (L2, w2) ∧
      L2.m_scripts = [none, some 1] ∧ L2.num_sc_scripts = 2 ∧
      L2.script? 1 = some scriptOther ∧
      L2.script? 0 = some scriptGossip ∧ some 0 ∉ L2.m_scripts ∧
      FreeScriptLibrary L2 w2 = Except.ok (L3, w3) ∧
      L3.m_scripts = [] ∧ L3.script? 1 = none ∧ L3.script? 0 = some scriptGossip :=
  ⟨_, _, _, _, _, _, rfl, rfl, rfl, rfl, rfl, rfl, by decide, rfl, rfl, rfl, rfl⟩

/-- C8 (the defect, evaluated): after a load from the state at process start, a first
`FreeScriptLibrary` returns normally with an empty registry and a zero count, and a second
call immediately after it runs `delete []` on the `SpellSummary` table the first call has
already released. -/
theorem FreeScriptLibrary_twice_frees_summary_twice :
    ∃ L1 w1 L2 w2,
      InitScriptLibrary hostTwo contentTwo Lib.initial worldTwo = Except.ok (L1, w1) ∧
      FreeScriptLibrary L1 w1 = Except.ok (L2, w2) ∧
      L2.m_scripts = [] ∧ L2.num_sc_scripts = 0 ∧
      L2.SpellSummary = some 0 ∧ L2.heap[0]? = some none ∧
      FreeScriptLibrary L2 w2 = Except.error UB.doubleFree :=
  ⟨_, _, _, _, rfl, rfl, rfl, rfl, rfl, rfl, rfl⟩


/-- C11: for a non-null map, a negative text entry, a creature entry with a template and a
text row of type `CHAT_TYPE_ZONE_YELL`, `DoOrSimulateScriptTextForMap` leaves every menu
unchanged and adds to the trace one `debug_log` line followed by exactly the map actions
`zoneYellActions`: `PlayDirectSoundToMap(SoundId)` exactly when `SoundId` is non-zero, then
one yell, which is the direct yell from the guid of the source creature when one is given and
the simulated yell from the template when none is given, carrying the same text entry, the
language id of the row and the given target. -/
theorem zone_yell_map_actions (H : Host) (iTextEntry : Int) (hneg : iTextEntry < 0)
    (uiCreatureEntry : Nat) (pMap : Map) (pCreatureSource : Option Creature)
    (pTarget : Option WorldUnit) (w : World) (pInfo : CreatureInfo)
    (pData : MangosStringLocale)
    (hinfo : H.GetCreatureTemplateStore uiCreatureEntry = some pInfo)
    (hdata : H.GetMangosStringData iTextEntry = some pData)
    (htype : pData.Type_ = H.CHAT_TYPE_ZONE_YELL) :
    ∃ fmt args,
      DoOrSimulateScriptTextForMap H iTextEntry uiCreatureEntry (some pMap) pCreatureSource
          pTarget w =
        { menus := w.menus
          trace := w.trace ++ Event.debug_log fmt args ::
            zoneYellActions iTextEntry pMap pInfo pData pCreatureSource pTarget } ∧
      (zoneYellActions iTextEntry pMap pInfo pData pCreatureSource pTarget).all
        Event.isMapAction = true := by
  have hnot : ¬ (0 ≤ iTextEntry) := Int.not_le.mpr hneg
  refine ⟨"sd3: DoOrSimulateScriptTextForMap: text entry=%i, Sound=%u, Type=%u, Language=%u, Emote=%u",
    [LogArg.int iTextEntry, LogArg.int pData.SoundId, LogArg.int pData.Type_,
      LogArg.int pData.LanguageId, LogArg.int pData.Emote], ?_, ?_⟩
  · simp only [DoOrSimulateScriptTextForMap, ge_iff_le, hnot, if_false, hinfo, hdata, htype,
      ne_eq, not_true_eq_false, zoneYellActions, World.emit]
    cases pCreatureSource <;> by_cases hs : pData.SoundId = 0 <;> simp [hs]
  · cases pCreatureSource <;> by_cases hs : pData.SoundId = 0 <;>
      simp [zoneYellActions, hs, Event.isMapAction]


/-- C11 (instance): text entry -5 on `hostSound`, whose rows are zone yells with sound 8 and
language 3, with a source creature of guid 9. -/
theorem zone_yell_map_actions_witness :
    (-5 : Int) < 0 ∧
      ∃ fmt args,
        DoOrSimulateScriptTextForMap hostSound (-5) 11 (some { GetId := 2, GetScriptId := 0 })
            (some { GetObjectGuid := 9, GetScriptId := 1 }) none worldTwo =
          { menus := worldTwo.menus
            trace := worldTwo.trace ++ Event.debug_log fmt args ::
              zoneYellActions (-5) { GetId := 2, GetScriptId := 0 } { Entry := 11 }
                { SoundId := 8, Type_ := 6, LanguageId := 3, Emote := 0 }
                (some { GetObjectGuid := 9, GetScriptId := 1 }) none } ∧
        (zoneYellActions (-5) { GetId := 2, GetScriptId := 0 } { Entry := 11 }
          { SoundId := 8, Type_ := 6, LanguageId := 3, Emote := 0 }
          (some { GetObjectGuid := 9, GetScriptId := 1 }) none).all Event.isMapAction = true :=
  ⟨by decide, zone_yell_map_actions hostSound (-5) (by decide) 11 { GetId := 2, GetScriptId := 0 }
    (some { GetObjectGuid := 9, GetScriptId := 1 }) none worldTwo { Entry := 11 }
    { SoundId := 8, Type_ := 6, LanguageId := 3, Emote := 0 } rfl rfl rfl⟩

/-- C16: when a validation of `DoOrSimulateScriptTextForMap` fails (the map is null, the
creature entry has no template, the text entry has no text row, or the row is not of type
`CHAT_TYPE_ZONE_YELL`), whatever the text entry, the source creature and the sound id of the
row, the call only logs: it adds one `script_error_log` line, preceded by at most the
`debug_log` line of the row, and no action on the map (no sound, no yell). -/
theorem map_text_validation_failure_logs_only (H : Host) (iTextEntry : Int)
    (uiCreatureEntry : Nat) (pMap : Option Map) (pCreatureSource : Option Creature)
    (pTarget : Option WorldUnit) (w : World)
    (hfail : pMap = none ∨ H.GetCreatureTemplateStore uiCreatureEntry = none ∨
      H.GetMangosStringData iTextEntry = none ∨
      ∃ pData, H.GetMangosStringData iTextEntry = some pData ∧
        pData.Type_ ≠ H.CHAT_TYPE_ZONE_YELL) :
    (∃ fmt args,
      DoOrSimulateScriptTextForMap H iTextEntry uiCreatureEntry pMap pCreatureSource pTarget
          w = w.emit (Event.script_error_log fmt args) ∨
      ∃ dfmt dargs,
        DoOrSimulateScriptTextForMap H iTextEntry uiCreatureEntry pMap pCreatureSource pTarget
          w = (w.emit (Event.debug_log dfmt dargs)).emit (Event.script_error_log fmt args)) ∧
    (∃ evs,
      (DoOrSimulateScriptTextForMap H iTextEntry uiCreatureEntry pMap pCreatureSource pTarget
        w).trace = w.trace ++ evs ∧ ∀ e ∈ evs, e.isMapAction = false) := by
  have hfirst : ∃ fmt args,
      DoOrSimulateScriptTextForMap H iTextEntry uiCreatureEntry pMap pCreatureSource pTarget
          w = w.emit (Event.script_error_log fmt args) ∨
      ∃ dfmt dargs,
        DoOrSimulateScriptTextForMap H iTextEntry uiCreatureEntry pMap pCreatureSource pTarget
          w = (w.emit (Event.debug_log dfmt dargs)).emit (Event.script_error_log fmt args) := by
    cases pMap with
    | none =>
      simp only [DoOrSimulateScriptTextForMap]
      exact ⟨_, _, Or.inl rfl⟩
    | some m =>
      by_cases hentry : 0 ≤ iTextEntry
      · simp only [DoOrSimulateScriptTextForMap, ge_iff_le, hentry, if_true]
        exact ⟨_, _, Or.inl rfl⟩
      · cases hinfo : H.GetCreatureTemplateStore uiCreatureEntry with
        | none =>
          simp only [DoOrSimulateScriptTextForMap, ge_iff_le, hentry, if_false, hinfo]
          exact ⟨_, _, Or.inl rfl⟩
        | some pInfo =>
          cases hdata : H.GetMangosStringData iTextEntry with
          | none =>
            simp only [DoOrSimulateScriptTextForMap, ge_iff_le, hentry, if_false, hinfo, hdata]
            exact ⟨_, _, Or.inl rfl⟩
          | some pData =>
            have htype : pData.Type_ ≠ H.CHAT_TYPE_ZONE_YELL := by
              rcases hfail with h | h | h | ⟨d, hd, hne⟩
              · cases h
              · rw [hinfo] at h
                cases h
              · rw [hdata] at h
                cases h
              · rw [hdata] at hd
                cases hd
                exact hne
            simp only [DoOrSimulateScriptTextForMap, ge_iff_le, hentry, if_false, hinfo, hdata,
              ne_eq, htype, not_false_eq_true, if_true]
            exact ⟨_, _, Or.inr ⟨_, _, rfl⟩⟩
  refine ⟨hfirst, ?_⟩
  obtain ⟨fmt, args, h | ⟨dfmt, dargs, h⟩⟩ := hfirst
  · refine ⟨[Event.script_error_log fmt args], by rw [h]; rfl, ?_⟩
    intro e he
    simp only [List.mem_singleton] at he
    subst he
    rfl
  · refine ⟨[Event.debug_log dfmt dargs, Event.script_error_log fmt args], ?_, ?_⟩
    · rw [h]
      simp [World.emit]
    · intro e he
      simp only [List.mem_cons, List.mem_singleton, List.not_mem_nil, or_false] at he
      rcases he with he | he <;> subst he <;> rfl

/-- C16 (instance): on `hostSay`, whose rows are of chat type 1 with sound 8, text entry -5
with a live source creature. -/
theorem map_text_validation_failure_logs_only_witness :
    (∃ pData, hostSay.GetMangosStringData (-5) = some pData ∧
        pData.Type_ ≠ hostSay.CHAT_TYPE_ZONE_YELL) ∧
      ∃ evs,
        (DoOrSimulateScriptTextForMap hostSay (-5) 11 (some { GetId := 2, GetScriptId := 0 })
          (some { GetObjectGuid := 9, GetScriptId := 1 }) none worldTwo).trace =
            worldTwo.trace ++ evs ∧ ∀ e ∈ evs, e.isMapAction = false :=
  ⟨⟨_, rfl, by decide⟩,
    (map_text_validation_failure_logs_only hostSay (-5) 11 (some { GetId := 2, GetScriptId := 0 })
      (some { GetObjectGuid := 9, GetScriptId := 1 }) none worldTwo
      (Or.inr (Or.inr (Or.inr ⟨_, rfl, by decide⟩)))).2⟩


/-- C14 (counterexample): with the empty registry of size 2, the unhandled `GossipSelect` for
a creature of script id 1 returns `false` after it has emitted a `debug_log` line, so the
trace is not what it was. -/
theorem GossipSelect_unhandled_emits_debug_log :
    libEmptyTwo.m_scripts[1]? = some none ∧
      ∃ w1, GossipSelect libEmptyTwo 7 { GetObjectGuid := 9, GetScriptId := 1 } 3 4 worldTwo =
          Except.ok (false, w1) ∧
        w1.trace = [Event.debug_log "sd3: Gossip selection, sender: %u, action: %u"
          [LogArg.int 3, LogArg.int 4]] ∧
        w1.trace ≠ worldTwo.trace :=
  ⟨rfl, _, rfl, rfl, by simp [worldTwo, World.emit]⟩

/-- C14 (amended): on the unhandled path (the looked-up entry is null or the slot of the
category is absent) every dispatch entry point returns its neutral value; all of them except
`GossipSelect`, `GOGossipSelect`, `GossipSelectWithCode` and `GOGossipSelectWithCode` leave
the host state exactly as it was (no log line, no state change), and these four add exactly
one `debug_log` line with the sender and the action, emitted before the check, and change
nothing else. -/
theorem dispatch_unhandled_effects (H : Host) (L : Lib) (i : Nat)
    (o : Option (Nat × Script)) (hl : L.lookup i = Except.ok o) (w : World) :
    (found o Script.pGossipHello = none →
      ∀ (pPlayer : Player) (pCreature : Creature), pCreature.GetScriptId = i →
      GossipHello L pPlayer pCreature w =
        Except.ok (false, w)) ∧
    (found o Script.pGossipHelloGO = none →
      ∀ (pPlayer : Player) (pGo : GameObject), pGo.GetGOInfo.ScriptId = i →
      GOGossipHello L pPlayer pGo w =
        Except.ok (false, w)) ∧
    (found o Script.pGossipSelect = none →
      ∀ (pPlayer : Player) (pCreature : Creature) (uiSender : Nat)
        (uiAction : Nat), pCreature.GetScriptId = i →
      GossipSelect L pPlayer pCreature uiSender uiAction w =
        Except.ok (false, w.emit (Event.debug_log
          "sd3: Gossip selection, sender: %u, action: %u"
          [LogArg.int uiSender, LogArg.int uiAction]))) ∧
    (found o Script.pGossipSelectGO = none →
      ∀ (pPlayer : Player) (pGo : GameObject) (uiSender : Nat)
        (uiAction : Nat), pGo.GetGOInfo.ScriptId = i →
      GOGossipSelect L pPlayer pGo uiSender uiAction w =
        Except.ok (false, w.emit (Event.debug_log
          "sd3: GO Gossip selection, sender: %u, action: %u"
          [LogArg.int uiSender, LogArg.int uiAction]))) ∧
    (found o Script.pGossipSelectWithCode = none →
      ∀ (pPlayer : Player) (pCreature : Creature) (uiSender : Nat) (uiAction : Nat)
        (sCode : String), pCreature.GetScriptId = i →
      GossipSelectWithCode L pPlayer pCreature uiSender uiAction sCode w =
        Except.ok (false, w.emit (Event.debug_log
          "sd3: Gossip selection with code, sender: %u, action: %u"
          [LogArg.int uiSender, LogArg.int uiAction]))) ∧
    (found o Script.pGossipSelectGOWithCode = none →
      ∀ (pPlayer : Player) (pGo : GameObject) (uiSender : Nat) (uiAction : Nat)
        (sCode : String), pGo.GetGOInfo.ScriptId = i →
      GOGossipSelectWithCode L pPlayer pGo uiSender uiAction sCode w =
        Except.ok (false, w.emit (Event.debug_log
          "sd3: GO Gossip selection with code, sender: %u, action: %u"
          [LogArg.int uiSender, LogArg.int uiAction]))) ∧
    (found o Script.pQuestAcceptNPC = none →
      ∀ (pPlayer : Player) (pCreature : Creature) (pQuest : Quest), pCreature.GetScriptId = i →
      QuestAccept L pPlayer pCreature pQuest w =
        Except.ok (false, w)) ∧
    (found o Script.pQuestRewardedNPC = none →
      ∀ (pPlayer : Player) (pCreature : Creature) (pQuest : Quest), pCreature.GetScriptId = i →
      QuestRewarded L pPlayer pCreature pQuest w =
        Except.ok (false, w)) ∧
    (found o Script.pDialogStatusNPC = none →
      ∀ (pPlayer : Player) (pCreature : Creature), pCreature.GetScriptId = i →
      GetNPCDialogStatus H L pPlayer pCreature w =
        Except.ok (H.DIALOG_STATUS_UNDEFINED, w)) ∧
    (found o Script.pDialogStatusGO = none →
      ∀ (pPlayer : Player) (pGo : GameObject), pGo.GetGOInfo.ScriptId = i →
      GetGODialogStatus H L pPlayer pGo w =
        Except.ok (H.DIALOG_STATUS_UNDEFINED, w)) ∧
    (found o Script.pQuestAcceptItem = none →
      ∀ (pPlayer : Player) (pItem : Item) (pQuest : Quest), pItem.GetProto.ScriptId = i →
      ItemQuestAccept L pPlayer pItem pQuest w =
        Except.ok (false, w)) ∧
    (found o Script.pGOUse = none →
      ∀ (pPlayer : Player) (pGo : GameObject), pGo.GetGOInfo.ScriptId = i →
      GOUse L pPlayer pGo w =
        Except.ok (false, w)) ∧
    (found o Script.pQuestAcceptGO = none →
      ∀ (pPlayer : Player) (pGo : GameObject) (pQuest : Quest), pGo.GetGOInfo.ScriptId = i →
      GOQuestAccept L pPlayer pGo pQuest w =
        Except.ok (false, w)) ∧
    (found o Script.pQuestRewardedGO = none →
      ∀ (pPlayer : Player) (pGo : GameObject) (pQuest : Quest), pGo.GetGOInfo.ScriptId = i →
      GOQuestRewarded L pPlayer pGo pQuest w =
        Except.ok (false, w)) ∧
    (found o Script.pAreaTrigger = none →
      ∀ (pPlayer : Player) (atEntry : AreaTriggerEntry), H.GetAreaTriggerScriptId atEntry.id = i →
      AreaTrigger H L pPlayer atEntry w =
        Except.ok (false, w)) ∧
    (found o Script.pNpcSpellClick = none →
      ∀ (pPlayer : Player) (pClickedCreature : Creature)
        (uiSpellId : Nat), pClickedCreature.GetScriptId = i →
      NpcSpellClick L pPlayer pClickedCreature uiSpellId w =
        Except.ok (false, w)) ∧
    (found o Script.pProcessEventId = none →
      ∀ (uiEventId : Nat) (pSource : Object) (pTarget : Object)
        (bIsStart : Bool), H.GetEventIdScriptId uiEventId = i →
      ProcessEvent H L uiEventId pSource pTarget bIsStart w =
        Except.ok (false, w)) ∧
    (found o Script.GetAI = none →
      ∀ (pCreature : Creature), pCreature.GetScriptId = i →
      GetCreatureAI L pCreature w =
        Except.ok (none, w)) ∧
    (found o Script.pItemUse = none →
      ∀ (pPlayer : Player) (pItem : Item)
        (targets : SpellCastTargets), pItem.GetProto.ScriptId = i →
      ItemUse L pPlayer pItem targets w =
        Except.ok (false, w)) ∧
    (found o Script.pEffectDummyNPC = none →
      ∀ (pCaster : WorldUnit) (spellId : Nat) (effIndex : SpellEffectIndex) (pTarget : Creature)
        (originalCasterGuid : ObjectGuid), pTarget.GetScriptId = i →
      EffectDummyCreature L pCaster spellId effIndex pTarget originalCasterGuid w =
        Except.ok (false, w)) ∧
    (found o Script.pEffectDummyGO = none →
      ∀ (pCaster : WorldUnit) (spellId : Nat) (effIndex : SpellEffectIndex)
        (pTarget : GameObject) (originalCasterGuid : ObjectGuid), pTarget.GetGOInfo.ScriptId = i →
      EffectDummyGameObject L pCaster spellId effIndex pTarget originalCasterGuid w =
        Except.ok (false, w)) ∧
    (found o Script.pEffectDummyItem = none →
      ∀ (pCaster : WorldUnit) (spellId : Nat) (effIndex : SpellEffectIndex) (pTarget : Item)
        (originalCasterGuid : ObjectGuid), pTarget.GetProto.ScriptId = i →
      EffectDummyItem L pCaster spellId effIndex pTarget originalCasterGuid w =
        Except.ok (false, w)) ∧
    (found o Script.pEffectScriptEffectNPC = none →
      ∀ (pCaster : WorldUnit) (spellId : Nat) (effIndex : SpellEffectIndex) (pTarget : Creature)
        (originalCasterGuid : ObjectGuid), pTarget.GetScriptId = i →
      EffectScriptEffectCreature L pCaster spellId effIndex pTarget originalCasterGuid w =
        Except.ok (false, w)) ∧
    (found o Script.pEffectAuraDummy = none →
      ∀ (pAura : Aura) (bApply : Bool), pAura.GetTarget.GetScriptId = i →
      AuraDummy L pAura bApply w =
        Except.ok (false, w)) ∧
    (found o Script.GetInstanceData = none →
      ∀ (pMap : Map), pMap.GetScriptId = i →
      CreateInstanceData L pMap w =
        Except.ok (none, w)) := by
  refine ⟨?_, ?_, ?_, ?_, ?_, ?_, ?_, ?_, ?_, ?_, ?_, ?_, ?_, ?_, ?_, ?_, ?_, ?_, ?_, ?_, ?_, ?_,
    ?_, ?_, ?_⟩
  all_goals
    intro hf
    intros
    subst_vars
    rcases o with _ | ⟨a, s⟩
    · simp only [GossipHello, GOGossipHello, GossipSelect, GOGossipSelect, GossipSelectWithCode,
      GOGossipSelectWithCode, QuestAccept, QuestRewarded, GetNPCDialogStatus,
      GetGODialogStatus, ItemQuestAccept, GOUse, GOQuestAccept, GOQuestRewarded, AreaTrigger,
      NpcSpellClick, ProcessEvent, GetCreatureAI, ItemUse, EffectDummyCreature,
      EffectDummyGameObject, EffectDummyItem, EffectScriptEffectCreature, AuraDummy,
      CreateInstanceData, hl]
    · simp only [found] at hf
      split at hf
      · rename_i hs
        simp only [GossipHello, GOGossipHello, GossipSelect, GOGossipSelect, GossipSelectWithCode,
      GOGossipSelectWithCode, QuestAccept, QuestRewarded, GetNPCDialogStatus,
      GetGODialogStatus, ItemQuestAccept, GOUse, GOQuestAccept, GOQuestRewarded, AreaTrigger,
      NpcSpellClick, ProcessEvent, GetCreatureAI, ItemUse, EffectDummyCreature,
      EffectDummyGameObject, EffectDummyItem, EffectScriptEffectCreature, AuraDummy,
      CreateInstanceData, hl, hs]
      · cases hf

/-- C14 (instance): `scriptGossip`, registered at id 1, has no quest-accept callback, and
`QuestAccept` for a creature of script id 1 changes nothing. -/
theorem dispatch_unhandled_effects_witness :
    libOne.lookup 1 = Except.ok (some (0, scriptGossip)) ∧
      found (some (0, scriptGossip)) Script.pQuestAcceptNPC = none ∧
      QuestAccept libOne 7 { GetObjectGuid := 9, GetScriptId := 1 } 5 worldTwo =
        Except.ok (false, worldTwo) :=
  ⟨rfl, rfl,
    (dispatch_unhandled_effects hostTwo libOne 1 (some (0, scriptGossip)) rfl
      worldTwo).2.2.2.2.2.2.1 rfl 7 { GetObjectGuid := 9, GetScriptId := 1 } 5 rfl⟩

/-- C15 (counterexample): `scriptUnknown`, whose name `hostTwo` resolves to id 0, registers
with `bReportError = false`; the record is discarded and nothing at all is logged. -/
theorem RegisterSelf_unknown_name_silent :
    libFresh.script? 1 = some scriptUnknown ∧ hostTwo.GetScriptId scriptUnknown.Name = 0 ∧
      ∃ L1 w1, RegisterSelf hostTwo 1 false libFresh worldTwo = Except.ok (L1, w1) ∧
        w1.trace = [] ∧ L1.script? 1 = none :=
  ⟨rfl, rfl, _, _, rfl, rfl, rfl⟩

/-- C15 (amended): when the host resolves the name of the live record at `this` to id 0,
`RegisterSelf` emits the warning, one `script_error_log` line naming the script, exactly when
`bReportError` is true; with `bReportError` false it logs nothing. -/
theorem RegisterSelf_unknown_name_warns_iff_reporting (H : Host) (this : Nat)
    (bReportError : Bool) (L : Lib) (w : World) (self : Script)
    (hlive : L.script? this = some self) (hid : H.GetScriptId self.Name = 0) :
    ∃ L1, RegisterSelf H this bReportError L w =
      Except.ok (L1,
        if bReportError then
          w.emit (Event.script_error_log
            "Script registering but ScriptName %s is not assigned in database. Script will not be used."
            [LogArg.str self.Name])
        else w) := by
  have hs := script?_iff.mp hlive
  exact ⟨{ L with heap := L.heap.set this none }, by
    simp [RegisterSelf, hlive, hid, deleteScript, hs]⟩

/-- C15 (instance): `scriptUnknown` on `hostTwo`, once with and once without reporting. -/
theorem RegisterSelf_unknown_name_warns_iff_reporting_witness :
    libFresh.script? 1 = some scriptUnknown ∧ hostTwo.GetScriptId scriptUnknown.Name = 0 ∧
      (∃ L1, RegisterSelf hostTwo 1 true libFresh worldTwo =
        Except.ok (L1, worldTwo.emit (Event.script_error_log
          "Script registering but ScriptName %s is not assigned in database. Script will not be used."
          [LogArg.str ""]))) ∧
      (∃ L1, RegisterSelf hostTwo 1 false libFresh worldTwo = Except.ok (L1, worldTwo)) :=
  ⟨rfl, rfl,
    RegisterSelf_unknown_name_warns_iff_reporting hostTwo 1 true libFresh worldTwo
      scriptUnknown rfl rfl,
    RegisterSelf_unknown_name_warns_iff_reporting hostTwo 1 false libFresh worldTwo
      scriptUnknown rfl rfl⟩

theorem lookup_outOfRange_iff (L : Lib) (i : Nat) :
    L.lookup i = Except.error UB.outOfRange ↔ L.m_scripts.length ≤ i := by
  unfold Lib.lookup
  cases hget : L.m_scripts[i]? with
  | none =>
    simp only [true_iff]
    exact List.getElem?_eq_none_iff.mp hget
  | some p =>
    have hlt : i < L.m_scripts.length := by
      rcases Nat.lt_or_ge i L.m_scripts.length with h | h
      · exact h
      · rw [List.getElem?_eq_none h] at hget
        cases hget
    cases p with
    | none => simp [Nat.not_le.mpr hlt]
    | some a =>
      cases hs : L.script? a <;> simp [hs, Nat.not_le.mpr hlt]

/-- C18: neither the lookup `m_scripts[id]` of the dispatch entry points nor the store
`m_scripts[id] = this` of `RegisterSelf` checks the bound. With `N` the registry size, each
entry point indexes out of range exactly when the entity's script id is `≥ N`, so for an id
`< N` the lookup is in bounds and for an id `≥ N` the call is out of range instead of
returning the neutral value; the store of a live record whose name resolves to a non-zero id
succeeds when that id is `< N` and is out of range when it is `≥ N`; and on an empty registry
every id is out of range. -/
theorem unchecked_index_out_of_range_iff (H : Host) (L : Lib) :
    (∀ (pPlayer : Player) (pCreature : Creature) (w : World),
      GossipHello L pPlayer pCreature w = Except.error UB.outOfRange ↔
        L.m_scripts.length ≤ pCreature.GetScriptId) ∧
    (∀ (pPlayer : Player) (pGo : GameObject) (w : World),
      GOGossipHello L pPlayer pGo w = Except.error UB.outOfRange ↔
        L.m_scripts.length ≤ pGo.GetGOInfo.ScriptId) ∧
    (∀ (pPlayer : Player) (pCreature : Creature) (uiSender : Nat) (uiAction : Nat) (w : World),
      GossipSelect L pPlayer pCreature uiSender uiAction w = Except.error UB.outOfRange ↔
        L.m_scripts.length ≤ pCreature.GetScriptId) ∧
    (∀ (pPlayer : Player) (pGo : GameObject) (uiSender : Nat) (uiAction : Nat) (w : World),
      GOGossipSelect L pPlayer pGo uiSender uiAction w = Except.error UB.outOfRange ↔
        L.m_scripts.length ≤ pGo.GetGOInfo.ScriptId) ∧
    (∀ (pPlayer : Player) (pCreature : Creature) (uiSender : Nat) (uiAction : Nat)
      (sCode : String) (w : World),
      GossipSelectWithCode L pPlayer pCreature uiSender uiAction sCode w
          = Except.error UB.outOfRange ↔
        L.m_scripts.length ≤ pCreature.GetScriptId) ∧
    (∀ (pPlayer : Player) (pGo : GameObject) (uiSender : Nat) (uiAction : Nat) (sCode : String)
      (w : World),
      GOGossipSelectWithCode L pPlayer pGo uiSender uiAction sCode w = Except.error UB.outOfRange ↔
        L.m_scripts.length ≤ pGo.GetGOInfo.ScriptId) ∧
    (∀ (pPlayer : Player) (pCreature : Creature) (pQuest : Quest) (w : World),
      QuestAccept L pPlayer pCreature pQuest w = Except.error UB.outOfRange ↔
        L.m_scripts.length ≤ pCreature.GetScriptId) ∧
    (∀ (pPlayer : Player) (pCreature : Creature) (pQuest : Quest) (w : World),
      QuestRewarded L pPlayer pCreature pQuest w = Except.error UB.outOfRange ↔
        L.m_scripts.length ≤ pCreature.GetScriptId) ∧
    (∀ (pPlayer : Player) (pCreature : Creature) (w : World),
      GetNPCDialogStatus H L pPlayer pCreature w = Except.error UB.outOfRange ↔
        L.m_scripts.length ≤ pCreature.GetScriptId) ∧
    (∀ (pPlayer : Player) (pGo : GameObject) (w : World),
      GetGODialogStatus H L pPlayer pGo w = Except.error UB.outOfRange ↔
        L.m_scripts.length ≤ pGo.GetGOInfo.ScriptId) ∧
    (∀ (pPlayer : Player) (pItem : Item) (pQuest : Quest) (w : World),
      ItemQuestAccept L pPlayer pItem pQuest w = Except.error UB.outOfRange ↔
        L.m_scripts.length ≤ pItem.GetProto.ScriptId) ∧
    (∀ (pPlayer : Player) (pGo : GameObject) (w : World),
      GOUse L pPlayer pGo w = Except.error UB.outOfRange ↔
        L.m_scripts.length ≤ pGo.GetGOInfo.ScriptId) ∧
    (∀ (pPlayer : Player) (pGo : GameObject) (pQuest : Quest) (w : World),
      GOQuestAccept L pPlayer pGo pQuest w = Except.error UB.outOfRange ↔
        L.m_scripts.length ≤ pGo.GetGOInfo.ScriptId) ∧
    (∀ (pPlayer : Player) (pGo : GameObject) (pQuest : Quest) (w : World),
      GOQuestRewarded L pPlayer pGo pQuest w = Except.error UB.outOfRange ↔
        L.m_scripts.length ≤ pGo.GetGOInfo.ScriptId) ∧
    (∀ (pPlayer : Player) (atEntry : AreaTriggerEntry) (w : World),
      AreaTrigger H L pPlayer atEntry w = Except.error UB.outOfRange ↔
        L.m_scripts.length ≤ H.GetAreaTriggerScriptId atEntry.id) ∧
    (∀ (pPlayer : Player) (pClickedCreature : Creature) (uiSpellId : Nat) (w : World),
      NpcSpellClick L pPlayer pClickedCreature uiSpellId w = Except.error UB.outOfRange ↔
        L.m_scripts.length ≤ pClickedCreature.GetScriptId) ∧
    (∀ (uiEventId : Nat) (pSource : Object) (pTarget : Object) (bIsStart : Bool) (w : World),
      ProcessEvent H L uiEventId pSource pTarget bIsStart w = Except.error UB.outOfRange ↔
        L.m_scripts.length ≤ H.GetEventIdScriptId uiEventId) ∧
    (∀ (pCreature : Creature) (w : World),
      GetCreatureAI L pCreature w = Except.error UB.outOfRange ↔
        L.m_scripts.length ≤ pCreature.GetScriptId) ∧
    (∀ (pPlayer : Player) (pItem : Item) (targets : SpellCastTargets) (w : World),
      ItemUse L pPlayer pItem targets w = Except.error UB.outOfRange ↔
        L.m_scripts.length ≤ pItem.GetProto.ScriptId) ∧
    (∀ (pCaster : WorldUnit) (spellId : Nat) (effIndex : SpellEffectIndex) (pTarget : Creature)
      (originalCasterGuid : ObjectGuid) (w : World),
      EffectDummyCreature L pCaster spellId effIndex pTarget originalCasterGuid w
          = Except.error UB.outOfRange ↔
        L.m_scripts.length ≤ pTarget.GetScriptId) ∧
    (∀ (pCaster : WorldUnit) (spellId : Nat) (effIndex : SpellEffectIndex)
      (pTarget : GameObject) (originalCasterGuid : ObjectGuid) (w : World),
      EffectDummyGameObject L pCaster spellId effIndex pTarget originalCasterGuid w
          = Except.error UB.outOfRange ↔
        L.m_scripts.length ≤ pTarget.GetGOInfo.ScriptId) ∧
    (∀ (pCaster : WorldUnit) (spellId : Nat) (effIndex : SpellEffectIndex) (pTarget : Item)
      (originalCasterGuid : ObjectGuid) (w : World),
      EffectDummyItem L pCaster spellId effIndex pTarget originalCasterGuid w
          = Except.error UB.outOfRange ↔
        L.m_scripts.length ≤ pTarget.GetProto.ScriptId) ∧
    (∀ (pCaster : WorldUnit) (spellId : Nat) (effIndex : SpellEffectIndex) (pTarget : Creature)
      (originalCasterGuid : ObjectGuid) (w : World),
      EffectScriptEffectCreature L pCaster spellId effIndex pTarget originalCasterGuid w
          = Except.error UB.outOfRange ↔
        L.m_scripts.length ≤ pTarget.GetScriptId) ∧
    (∀ (pAura : Aura) (bApply : Bool) (w : World),
      AuraDummy L pAura bApply w = Except.error UB.outOfRange ↔
        L.m_scripts.length ≤ pAura.GetTarget.GetScriptId) ∧
    (∀ (pMap : Map) (w : World),
      CreateInstanceData L pMap w = Except.error UB.outOfRange ↔
        L.m_scripts.length ≤ pMap.GetScriptId) ∧
    (∀ (this : Nat) (bReportError : Bool) (w : World) (self : Script),
      L.script? this = some self → H.GetScriptId self.Name ≠ 0 →
      (H.GetScriptId self.Name < L.m_scripts.length →
        ∃ L1, RegisterSelf H this bReportError L w = Except.ok (L1, w)) ∧
      (L.m_scripts.length ≤ H.GetScriptId self.Name →
        RegisterSelf H this bReportError L w = Except.error UB.outOfRange)) ∧
    (L.m_scripts = [] → ∀ i, L.lookup i = Except.error UB.outOfRange) := by
  refine ⟨?_, ?_, ?_, ?_, ?_, ?_, ?_, ?_, ?_, ?_, ?_, ?_, ?_, ?_, ?_, ?_, ?_, ?_, ?_, ?_, ?_, ?_,
    ?_, ?_, ?_, ?_, ?_⟩
  case refine_26 =>
    intro this bReportError w self hlive hne
    constructor
    · intro hlt
      exact ⟨{ L with
          m_scripts := L.m_scripts.set (H.GetScriptId self.Name) (some this)
          num_sc_scripts := wrapInt32 (L.num_sc_scripts + 1) },
        by simp only [RegisterSelf, hlive, ne_eq, hne, not_false_eq_true, if_true, hlt]⟩
    · intro hge
      simp only [RegisterSelf, hlive, ne_eq, hne, not_false_eq_true, if_true, Nat.not_lt.mpr hge,
        if_false]
  case refine_27 =>
    intro hempty i
    rw [lookup_outOfRange_iff, hempty]
    exact Nat.zero_le _
  all_goals
    intros
    rw [← lookup_outOfRange_iff]
    simp only [GossipHello, GOGossipHello, GossipSelect, GOGossipSelect, GossipSelectWithCode,
      GOGossipSelectWithCode, QuestAccept, QuestRewarded, GetNPCDialogStatus,
      GetGODialogStatus, ItemQuestAccept, GOUse, GOQuestAccept, GOQuestRewarded, AreaTrigger,
      NpcSpellClick, ProcessEvent, GetCreatureAI, ItemUse, EffectDummyCreature,
      EffectDummyGameObject, EffectDummyItem, EffectScriptEffectCreature, AuraDummy,
      CreateInstanceData]
    generalize L.lookup _ = r
    rcases r with e | _ | ⟨a, s⟩
    · simp
    · simp
    · simp only []
      split <;> simp


/-- C18 (instance): in a registry of size 2 the store of a record resolving to id 1 succeeds,
`GossipHello` for a creature of script id 5 is out of range, and so is the lookup of id 1 on
the empty registry of the state at process start. -/
theorem unchecked_index_out_of_range_iff_witness :
    libFresh.script? 0 = some scriptGossip ∧ hostTwo.GetScriptId scriptGossip.Name ≠ 0 ∧
      hostTwo.GetScriptId scriptGossip.Name < libFresh.m_scripts.length ∧
      (∃ L1, RegisterSelf hostTwo 0 true libFresh worldTwo = Except.ok (L1, worldTwo)) ∧
      (GossipHello libFresh 7 { GetObjectGuid := 9, GetScriptId := 5 } worldTwo =
        Except.error UB.outOfRange ↔ libFresh.m_scripts.length ≤ 5) ∧
      Lib.initial.m_scripts = [] ∧ Lib.initial.lookup 1 = Except.error UB.outOfRange :=
  ⟨rfl, by decide, by decide,
    ((unchecked_index_out_of_range_iff hostTwo
        libFresh).2.2.2.2.2.2.2.2.2.2.2.2.2.2.2.2.2.2.2.2.2.2.2.2.2.1 0 true worldTwo
        scriptGossip rfl
      (by decide)).1 (by decide),
    (unchecked_index_out_of_range_iff hostTwo libFresh).1 7
      { GetObjectGuid := 9, GetScriptId := 5 } worldTwo,
    rfl, rfl⟩

/-! ### The loader -/

theorem RegisterSelf_length {H : Host} {this : Nat} {b : Bool} {L L1 : Lib} {w w1 : World}
    (h : RegisterSelf H this b L w = Except.ok (L1, w1)) :
    L1.m_scripts.length = L.m_scripts.length := by
  unfold RegisterSelf at h
  split at h
  · cases h
  · rename_i self hself
    simp only at h
    split at h
    · split at h
      · cases h
        simp
      · cases h
    · split at h
      · cases h
      · cases h
        rfl

theorem AddScripts_length (H : Host) (content : List (Script × Bool)) :
    ∀ (L L1 : Lib) (w w1 : World), AddScripts H content L w = Except.ok (L1, w1) →
      L1.m_scripts.length = L.m_scripts.length := by
  induction content with
  | nil =>
    intro L L1 w w1 h
    cases h
    rfl
  | cons sb rest ih =>
    intro L L1 w w1 h
    obtain ⟨s, b⟩ := sb
    simp only [AddScripts] at h
    split at h
    · cases h
    · rename_i L2 w2 hreg
      rw [ih L2 L1 w2 w1 h, RegisterSelf_length hreg]
      simp [Lib.alloc]

theorem resize_length (v : List (Option Nat)) (n : Nat) : (resize v n).length = n := by
  simp only [resize, List.length_append, List.length_take, List.length_replicate]
  omega

/-- The check loop adds, for the ids of `ids` in order, one diagnostic per id whose entry is
null, and nothing else. -/
theorem checkScripts_trace (H : Host) (L : Lib) (ids : List Nat) :
    ∀ w : World, (∀ i ∈ ids, i < L.m_scripts.length) →
      checkScripts H L ids w = Except.ok
        { menus := w.menus
          trace := w.trace ++ (missingIds L ids).map (missingDiagnostic H) } := by
  induction ids with
  | nil =>
    intro w _
    simp [checkScripts, missingIds]
  | cons i rest ih =>
    intro w hids
    have hi : i < L.m_scripts.length := hids i (List.mem_cons_self _ _)
    have hrest : ∀ j ∈ rest, j < L.m_scripts.length :=
      fun j hj => hids j (List.mem_cons_of_mem _ hj)
    have hget : L.m_scripts[i]? = some L.m_scripts[i] := List.getElem?_eq_getElem hi
    cases hp : L.m_scripts[i] with
    | none =>
      rw [hp] at hget
      simp only [checkScripts, hget]
      rw [ih _ hrest]
      simp [missingIds, List.filter_cons, hget, World.emit, missingDiagnostic]
    | some a =>
      rw [hp] at hget
      simp only [checkScripts, hget]
      rw [ih _ hrest]
      simp [missingIds, List.filter_cons, hget]


/-- Once the registrations of `AddScripts` have returned, `InitScriptLibrary` returns the
library state they left, after the diagnostics of the check loop and the summary line. -/
theorem InitScriptLibrary_of_AddScripts (H : Host) (content : List (Script × Bool)) (L : Lib)
    (w : World) (L3 : Lib) (w3 : World)
    (hadd : AddScripts H content
      (FillSpellSummary H { L with m_scripts := resize L.m_scripts H.GetScriptIdsCount })
      (startup H w) = Except.ok (L3, w3)) :
    L3.m_scripts.length = H.GetScriptIdsCount ∧
    InitScriptLibrary H content L w = Except.ok (L3,
      { menus := w3.menus
        trace := w3.trace ++
          (missingIds L3 (List.range' 1 (H.GetScriptIdsCount - 1))).map (missingDiagnostic H) ++
          [loadedSummary L3.num_sc_scripts] }) := by
  have hlen : L3.m_scripts.length = H.GetScriptIdsCount := by
    rw [AddScripts_length H content _ _ _ _ hadd]
    exact resize_length _ _
  have hchk := checkScripts_trace H L3 (List.range' 1 (H.GetScriptIdsCount - 1)) w3 (by
    intro i hi
    rw [hlen]
    have := List.mem_range'_1.mp hi
    omega)
  refine ⟨hlen, ?_⟩
  simp only [InitScriptLibrary, hadd, hchk]
  rfl

/-- C13: once the registrations have returned with the library state `L3`, the check loop of
`InitScriptLibrary` adds to the trace exactly one 'No script found' line, carrying the host's
name of the id, for each id of `missingIds`, in that order, followed only by the summary
line; `missingIds` holds exactly the ids `i` with `1 ≤ i < N` whose entry in `L3` is null, in
strictly increasing order (so each once, never id 0, never an id with a record); and the
library state returned is `L3` itself, so no registry entry changes. -/
theorem check_loop_reports_missing_ids (H : Host) (content : List (Script × Bool)) (L : Lib)
    (w : World) (L3 : Lib) (w3 : World)
    (hadd : AddScripts H content
      (FillSpellSummary H { L with m_scripts := resize L.m_scripts H.GetScriptIdsCount })
      (startup H w) = Except.ok (L3, w3)) :
    InitScriptLibrary H content L w = Except.ok (L3,
      { menus := w3.menus
        trace := w3.trace ++
          (missingIds L3 (List.range' 1 (H.GetScriptIdsCount - 1))).map (missingDiagnostic H) ++
          [loadedSummary L3.num_sc_scripts] }) ∧
    (∀ i, i ∈ missingIds L3 (List.range' 1 (H.GetScriptIdsCount - 1)) ↔
      1 ≤ i ∧ i < H.GetScriptIdsCount ∧ L3.m_scripts[i]? = some none) ∧
    (missingIds L3 (List.range' 1 (H.GetScriptIdsCount - 1))).Pairwise (· < ·) ∧
    (∀ i, missingDiagnostic H i = Event.script_error_log
      "No script found for ScriptName '%s'." [LogArg.str (H.GetScriptName i)]) := by
  refine ⟨(InitScriptLibrary_of_AddScripts H content L w L3 w3 hadd).2, ?_, ?_, fun _ => rfl⟩
  · intro i
    simp only [missingIds, List.mem_filter, List.mem_range'_1, decide_eq_true_eq]
    constructor
    · rintro ⟨⟨h1, h2⟩, h3⟩
      exact ⟨h1, by omega, h3⟩
    · rintro ⟨h1, h2, h3⟩
      exact ⟨⟨h1, by omega⟩, h3⟩
  · exact List.Pairwise.filter _ (List.pairwise_lt_range' 1 _)

/-- A load started with an empty registry returns normally; it keeps the ownership
discipline, builds the registry `registered` describes, adds the number of successful
registrations to the count as a 32-bit `int`, and ends the trace with the check diagnostics
and the summary. -/
theorem InitScriptLibrary_run (H : Host) (content : List (Script × Bool)) (L : Lib)
    (w : World) (hempty : L.m_scripts = [])
    (hids : ∀ sb ∈ content, H.GetScriptId sb.1.Name = 0 ∨
      H.GetScriptId sb.1.Name < H.GetScriptIdsCount) :
    ∃ (L1 : Lib) (w3 : World), InitScriptLibrary H content L w = Except.ok (L1,
        { menus := w3.menus
          trace := w3.trace ++
            (missingIds L1 (List.range' 1 (H.GetScriptIdsCount - 1))).map (missingDiagnostic H) ++
            [loadedSummary L1.num_sc_scripts] }) ∧
      L1.Owned ∧
      L1.records = registered H (List.replicate H.GetScriptIdsCount none) content ∧
      (wrapInt32 L.num_sc_scripts = L.num_sc_scripts →
        L1.num_sc_scripts = wrapInt32 (L.num_sc_scripts + successes H content)) ∧
      L1.m_scripts.length = H.GetScriptIdsCount := by
  have hresize : resize L.m_scripts H.GetScriptIdsCount =
      List.replicate H.GetScriptIdsCount none := by
    simp [resize, hempty]
  have hown2 : (FillSpellSummary H
      { L with m_scripts := resize L.m_scripts H.GetScriptIdsCount }).Owned := by
    refine ⟨?_, ?_, ?_⟩
    · intro a ha
      have ha2 : some a ∈ List.replicate H.GetScriptIdsCount (none : Option Nat) := by
        rw [← hresize]
        exact ha
      simp at ha2
    · show ((resize L.m_scripts H.GetScriptIdsCount).filterMap id).Nodup
      rw [hresize]
      have : (List.replicate H.GetScriptIdsCount (none : Option Nat)).filterMap id = [] := by
        rw [List.filterMap_eq_nil_iff]
        intro p hp
        rw [(List.mem_replicate.mp hp).2]
        rfl
      rw [this]
      exact List.nodup_nil
    · intro a ha
      refine ⟨H.GetSpellStoreNumRows, ?_⟩
      simp only [FillSpellSummary, Lib.alloc, Option.some.injEq] at ha ⊢
      subst ha
      simp
  have hrec2 : (FillSpellSummary H
      { L with m_scripts := resize L.m_scripts H.GetScriptIdsCount }).records =
      List.replicate H.GetScriptIdsCount none := by
    show List.map _ (resize L.m_scripts H.GetScriptIdsCount) = _
    rw [hresize]
    simp
  have hlen2 : (FillSpellSummary H
      { L with m_scripts := resize L.m_scripts H.GetScriptIdsCount }).m_scripts.length =
      H.GetScriptIdsCount := resize_length _ _
  obtain ⟨L3, w3, hadd, hown3, hrec3, hcnt3, hlen3⟩ := AddScripts_spec H content _ (startup H w)
    hown2 (by rw [hlen2]; exact hids)
  refine ⟨L3, w3, (InitScriptLibrary_of_AddScripts H content L w L3 w3 hadd).2, hown3, ?_, ?_, ?_⟩
  · rw [hrec3, hrec2]
  · exact hcnt3
  · rw [hlen3, hlen2]

theorem successes_replicate (H : Host) (s : Script) (b : Bool)
    (hne : H.GetScriptId s.Name ≠ 0) (n : Nat) :
    successes H (List.replicate n (s, b)) = n := by
  induction n with
  | zero => rfl
  | succ k ih =>
    have ih2 : (List.filter (fun sb => decide (H.GetScriptId sb.1.Name ≠ 0))
        (List.replicate k (s, b))).length = k := ih
    simp [successes, List.replicate_succ, List.filter_cons, hne, ih2]

/-- C17 (counterexample): a load from the state at process start whose `AddScripts` registers
`2147483648` records of a known name makes that many successful `RegisterSelf` calls, and the
summary line reports `-2147483648`. -/
theorem loaded_summary_wraps_after_int_max :
    successes hostTwo (contentRepeat 2147483648) = 2147483648 ∧
      ∃ L1 w1, InitScriptLibrary hostTwo (contentRepeat 2147483648) Lib.initial worldTwo =
          Except.ok (L1, w1) ∧
        w1.trace.getLast? = some (Event.outstring_log ">> Loaded %i C++ Scripts."
          [LogArg.int (-2147483648)]) := by
  have hsucc : successes hostTwo (contentRepeat 2147483648) = 2147483648 :=
    successes_replicate hostTwo scriptGossip true (by decide) 2147483648
  refine ⟨hsucc, ?_⟩
  obtain ⟨L1, w3, hinit, _, _, hcnt, _⟩ := InitScriptLibrary_run hostTwo
    (contentRepeat 2147483648) Lib.initial worldTwo rfl (by
      intro sb hsb
      rw [List.eq_of_mem_replicate hsb]
      exact Or.inr (by decide))
  have hcnt2 : L1.num_sc_scripts = -2147483648 := by
    rw [hcnt (by decide), hsucc]
    decide
  refine ⟨L1, _, hinit, ?_⟩
  simp only [List.getLast?_concat, loadedSummary, hcnt2]

/-- C17 (amended): a load started from the freed or initial state (empty registry, count 0)
on a host whose name resolution stays inside its id table returns normally, and the last line
it logs is the summary 'Loaded %i C++ Scripts' carrying the final value of `num_sc_scripts`,
which is `successes`, the number of `RegisterSelf` calls of that load whose name resolved to
a non-zero id, held in a 32-bit `int`: the summary shows exactly that number whenever it is
at most `2147483647`. -/
theorem loaded_summary_counts_successes (H : Host) (content : List (Script × Bool)) (L : Lib)
    (w : World) (hempty : L.m_scripts = []) (hzero : L.num_sc_scripts = 0)
    (hids : ∀ sb ∈ content, H.GetScriptId sb.1.Name = 0 ∨
      H.GetScriptId sb.1.Name < H.GetScriptIdsCount) :
    ∃ L1 w1, InitScriptLibrary H content L w = Except.ok (L1, w1) ∧
      w1.trace.getLast? = some (Event.outstring_log ">> Loaded %i C++ Scripts."
        [LogArg.int (wrapInt32 (successes H content))]) ∧
      L1.num_sc_scripts = wrapInt32 (successes H content) ∧
      (successes H content ≤ 2147483647 →
        w1.trace.getLast? = some (Event.outstring_log ">> Loaded %i C++ Scripts."
          [LogArg.int (successes H content)]) ∧
        L1.num_sc_scripts = successes H content) := by
  obtain ⟨L1, w3, hinit, _, _, hcnt, _⟩ := InitScriptLibrary_run H content L w hempty hids
  have hcnt2 : L1.num_sc_scripts = wrapInt32 (successes H content) := by
    rw [hcnt (by rw [hzero]; decide), hzero]
    simp
  have hlast : (World.mk w3.menus (w3.trace ++
        (missingIds L1 (List.range' 1 (H.GetScriptIdsCount - 1))).map (missingDiagnostic H) ++
        [loadedSummary L1.num_sc_scripts])).trace.getLast? =
      some (Event.outstring_log ">> Loaded %i C++ Scripts."
        [LogArg.int (wrapInt32 (successes H content))]) := by
    simp only [List.getLast?_concat, loadedSummary, hcnt2]
  refine ⟨L1, _, hinit, hlast, hcnt2, ?_⟩
  intro hle
  have hw : wrapInt32 (successes H content) = successes H content :=
    wrapInt32_of_range (by omega) (by omega)
  rw [hlast, hcnt2, hw]
  exact ⟨rfl, rfl⟩

/-- C13 (instance): on `hostTwo` with only an unknown record registered, the check loop
reports id 1, the single id of `[1, 2)`. -/
theorem check_loop_reports_missing_ids_witness :
    AddScripts hostTwo contentUnknown
        (FillSpellSummary hostTwo
          { Lib.initial with
            m_scripts := resize Lib.initial.m_scripts hostTwo.GetScriptIdsCount })
        (startup hostTwo worldTwo) = Except.ok (libAfterUnknown, startup hostTwo worldTwo) ∧
      InitScriptLibrary hostTwo contentUnknown Lib.initial worldTwo =
        Except.ok (libAfterUnknown,
          { menus := (startup hostTwo worldTwo).menus
            trace := (startup hostTwo worldTwo).trace ++
              (missingIds libAfterUnknown
                (List.range' 1 (hostTwo.GetScriptIdsCount - 1))).map (missingDiagnostic hostTwo) ++
              [loadedSummary libAfterUnknown.num_sc_scripts] }) ∧
      missingIds libAfterUnknown (List.range' 1 (hostTwo.GetScriptIdsCount - 1)) = [1] :=
  ⟨rfl,
    (check_loop_reports_missing_ids hostTwo contentUnknown Lib.initial worldTwo libAfterUnknown
      (startup hostTwo worldTwo) rfl).1,
    by decide⟩

/-- C17 (instance): `hostTwo` with a known and an unknown record, from the state at process
start; one registration succeeds. -/
theorem loaded_summary_counts_successes_witness :
    Lib.initial.m_scripts = [] ∧ Lib.initial.num_sc_scripts = 0 ∧
      successes hostTwo contentTwo = 1 ∧
      ∃ L1 w1, InitScriptLibrary hostTwo contentTwo Lib.initial worldTwo = Except.ok (L1, w1) ∧
        w1.trace.getLast? = some (Event.outstring_log ">> Loaded %i C++ Scripts."
          [LogArg.int (wrapInt32 (successes hostTwo contentTwo))]) ∧
        L1.num_sc_scripts = wrapInt32 (successes hostTwo contentTwo) ∧
        (successes hostTwo contentTwo ≤ 2147483647 →
          w1.trace.getLast? = some (Event.outstring_log ">> Loaded %i C++ Scripts."
            [LogArg.int (successes hostTwo contentTwo)]) ∧
          L1.num_sc_scripts = successes hostTwo contentTwo) :=
  ⟨rfl, rfl, by decide,
    loaded_summary_counts_successes hostTwo contentTwo Lib.initial worldTwo rfl rfl (by
      intro sb hsb
      simp only [contentTwo, List.mem_cons, List.mem_singleton, List.not_mem_nil, or_false]
        at hsb
      rcases hsb with h | h
      · subst h
        exact Or.inr (by decide)
      · subst h
        exact Or.inl (by decide))⟩

/-! ### The registry content `registered` -/

theorem registered_length (H : Host) (content : List (Script × Bool)) :
    ∀ v : List (Option Script), (registered H v content).length = v.length := by
  induction content with
  | nil => intro v; rfl
  | cons sb rest ih =>
    intro v
    obtain ⟨s, b⟩ := sb
    simp only [registered]
    rw [ih]
    split <;> simp

theorem registered_zero (H : Host) (content : List (Script × Bool)) :
    ∀ v : List (Option Script), (registered H v content)[0]? = v[0]? := by
  induction content with
  | nil => intro v; rfl
  | cons sb rest ih =>
    intro v
    obtain ⟨s, b⟩ := sb
    simp only [registered]
    rw [ih]
    split
    · rename_i hne
      simp [List.getElem?_set, hne]
    · rfl

theorem registered_source (H : Host) (content : List (Script × Bool)) (i : Nat) (s : Script) :
    ∀ v : List (Option Script), (registered H v content)[i]? = some (some s) →
      v[i]? = some (some s) ∨
        (i ≠ 0 ∧ H.GetScriptId s.Name = i ∧ ∃ b, (s, b) ∈ content) := by
  induction content with
  | nil =>
    intro v h
    exact Or.inl h
  | cons sb rest ih =>
    intro v h
    obtain ⟨s0, b0⟩ := sb
    simp only [registered] at h
    rcases ih _ h with h1 | ⟨hne, hid, b, hb⟩
    · split at h1
      · rename_i hne0
        rw [List.getElem?_set] at h1
        split at h1
        · rename_i heq
          split at h1
          · cases h1
            exact Or.inr ⟨by rw [← heq]; exact hne0, heq, b0, List.mem_cons_self _ _⟩
          · cases h1
        · exact Or.inl h1
      · exact Or.inl h1
    · exact Or.inr ⟨hne, hid, b, List.mem_cons_of_mem _ hb⟩

theorem registered_keeps (H : Host) (content : List (Script × Bool)) (i : Nat) :
    ∀ v : List (Option Script), (∃ s, v[i]? = some (some s)) →
      ∃ s, (registered H v content)[i]? = some (some s) := by
  induction content with
  | nil =>
    intro v h
    exact h
  | cons sb rest ih =>
    intro v h
    obtain ⟨s0, b0⟩ := sb
    obtain ⟨s, hs⟩ := h
    have hlt : i < v.length := by
      rcases Nat.lt_or_ge i v.length with h | h
      · exact h
      · rw [List.getElem?_eq_none h] at hs
        cases hs
    simp only [registered]
    apply ih
    split
    · by_cases heq : H.GetScriptId s0.Name = i
      · exact ⟨s0, by simp [List.getElem?_set, heq, hlt]⟩
      · exact ⟨s, by simp [List.getElem?_set, heq, hs]⟩
    · exact ⟨s, hs⟩

theorem registered_hit (H : Host) (content : List (Script × Bool)) (i : Nat) (hi : i ≠ 0) :
    ∀ v : List (Option Script), i < v.length →
      (∃ sb ∈ content, H.GetScriptId sb.1.Name = i) →
      ∃ s, (registered H v content)[i]? = some (some s) := by
  induction content with
  | nil =>
    intro v _ h
    obtain ⟨sb, hsb, _⟩ := h
    cases hsb
  | cons sb0 rest ih =>
    intro v hlt h
    obtain ⟨s0, b0⟩ := sb0
    obtain ⟨sb, hsb, hid⟩ := h
    simp only [registered]
    rcases List.mem_cons.mp hsb with heq | hmem
    · subst heq
      apply registered_keeps
      simp only at hid
      simp [hid, hi, List.getElem?_set, hlt]
    · apply ih
      · split <;> simp [hlt]
      · exact ⟨sb, hmem, hid⟩


theorem records_getElem? (L : Lib) (i : Nat) :
    L.records[i]? = (L.m_scripts[i]?).map (fun p => p.bind L.script?) := by
  simp [Lib.records]

theorem records_of_entry {L : Lib} {i a : Nat} {s : Script}
    (h : L.m_scripts[i]? = some (some a)) (hs : L.script? a = some s) :
    L.records[i]? = some (some s) := by
  rw [records_getElem?, h]
  simp [hs]

theorem entry_of_records {L : Lib} {i : Nat} {s : Script}
    (h : L.records[i]? = some (some s)) :
    ∃ a, L.m_scripts[i]? = some (some a) ∧ L.script? a = some s := by
  rw [records_getElem?] at h
  cases hm : L.m_scripts[i]? with
  | none =>
    rw [hm] at h
    cases h
  | some p =>
    rw [hm] at h
    cases p with
    | none =>
      simp at h
    | some a =>
      exact ⟨a, rfl, by simpa using h⟩

/-- A `RegisterSelf` call of a live record keeps the registry invariant, provided the id its
name resolves to is 0 or inside the registry. -/
theorem RegisterSelf_keeps_resolved (H : Host) (L : Lib) (this : Nat) (b : Bool) (w : World)
    (self : Script) (hres : L.Resolved H) (hlive : L.script? this = some self)
    (hid : H.GetScriptId self.Name = 0 ∨ H.GetScriptId self.Name < H.GetScriptIdsCount) :
    ∃ L1 w1, RegisterSelf H this b L w = Except.ok (L1, w1) ∧ L1.Resolved H := by
  have hheap := script?_iff.mp hlive
  have hthis : this < L.heap.length := script?_lt hlive
  by_cases h0 : H.GetScriptId self.Name = 0
  · refine ⟨{ L with heap := L.heap.set this none },
      if b then
        w.emit (Event.script_error_log
          "Script registering but ScriptName %s is not assigned in database. Script will not be used."
          [LogArg.str self.Name])
      else w, ?_, ?_⟩
    · simp [RegisterSelf, hlive, h0, deleteScript, hheap]
    · refine ⟨hres.size, hres.zero, ?_⟩
      intro i a ha
      obtain ⟨s, hs, hsi⟩ := hres.named i a ha
      have hne : this ≠ a := by
        intro heq
        subst heq
        rw [hlive] at hs
        cases hs
        rw [h0] at hsi
        subst hsi
        exact hres.zero _ ha
      refine ⟨s, ?_, hsi⟩
      rw [script?_iff] at hs ⊢
      show (L.heap.set this none)[a]? = _
      simp [List.getElem?_set, hne, hs]
  · have hlt : H.GetScriptId self.Name < L.m_scripts.length := by
      rw [hres.size]
      rcases hid with h | h
      · exact absurd h h0
      · exact h
    refine ⟨{ L with
        m_scripts := L.m_scripts.set (H.GetScriptId self.Name) (some this)
        num_sc_scripts := wrapInt32 (L.num_sc_scripts + 1) }, w, ?_, ?_⟩
    · simp only [RegisterSelf, hlive, ne_eq, h0, not_false_eq_true, if_true, hlt]
    · refine ⟨by simp [hres.size], ?_, ?_⟩
      · intro a
        show (L.m_scripts.set (H.GetScriptId self.Name) (some this))[0]? ≠ _
        rw [List.getElem?_set]
        simp only [h0, if_false]
        exact hres.zero a
      · intro i a ha
        have ha2 : (L.m_scripts.set (H.GetScriptId self.Name) (some this))[i]? =
            some (some a) := ha
        rw [List.getElem?_set] at ha2
        split at ha2
        · rename_i heq
          simp only [hlt, if_true, Option.some.injEq] at ha2
          subst ha2
          exact ⟨self, hlive, heq⟩
        · exact hres.named i a ha2

/-- C12: a load started with an empty registry, on a host with `N` ids whose name resolution
stays inside its id table, returns normally with the registry invariant `Resolved`: the
registry has exactly `N` entries, entry 0 is null, and every non-null entry `i` points to a
live record whose name the host resolves to `i`; an entry `i` is non-null exactly when `i` is
the non-zero id of some registered record. Every later `RegisterSelf` of a live record
preserves the invariant. -/
theorem load_establishes_resolved_registry (H : Host) (content : List (Script × Bool))
    (L : Lib) (w : World) (hempty : L.m_scripts = [])
    (hids : ∀ sb ∈ content, H.GetScriptId sb.1.Name = 0 ∨
      H.GetScriptId sb.1.Name < H.GetScriptIdsCount) :
    (∃ L1 w1, InitScriptLibrary H content L w = Except.ok (L1, w1) ∧ L1.Resolved H ∧
      L1.m_scripts.length = H.GetScriptIdsCount ∧
      (0 < H.GetScriptIdsCount → L1.m_scripts[0]? = some none) ∧
      (∀ i, (∃ a, L1.m_scripts[i]? = some (some a)) ↔
        (i ≠ 0 ∧ ∃ sb ∈ content, H.GetScriptId sb.1.Name = i)) ∧
      ∀ (this : Nat) (bReportError : Bool) (w2 : World) (self : Script),
        L1.script? this = some self →
        (H.GetScriptId self.Name = 0 ∨ H.GetScriptId self.Name < H.GetScriptIdsCount) →
        ∃ L2 w3, RegisterSelf H this bReportError L1 w2 = Except.ok (L2, w3) ∧
          L2.Resolved H) ∧
    (∀ (M : Lib) (this : Nat) (bReportError : Bool) (w2 : World) (self : Script),
      M.Resolved H → M.script? this = some self →
      (H.GetScriptId self.Name = 0 ∨ H.GetScriptId self.Name < H.GetScriptIdsCount) →
      ∃ M1 w3, RegisterSelf H this bReportError M w2 = Except.ok (M1, w3) ∧ M1.Resolved H) := by
  obtain ⟨L1, w3, hinit, hown, hrec, _, hlen⟩ := InitScriptLibrary_run H content L w hempty hids
  have hnull : ∀ (i : Nat) (s : Script),
      (List.replicate H.GetScriptIdsCount (none : Option Script))[i]? ≠ some (some s) := by
    intro i s h
    rw [List.getElem?_replicate] at h
    split at h <;> cases h
  have hzero : ∀ a, L1.m_scripts[0]? ≠ some (some a) := by
    intro a ha
    obtain ⟨s, hs⟩ := hown.live a (List.getElem?_mem ha)
    have h := records_of_entry ha hs
    rw [hrec, registered_zero] at h
    exact hnull 0 s h
  have hres : L1.Resolved H := by
    refine ⟨hlen, hzero, ?_⟩
    intro i a ha
    obtain ⟨s, hs⟩ := hown.live a (List.getElem?_mem ha)
    have h := records_of_entry ha hs
    rw [hrec] at h
    rcases registered_source H content i s _ h with h1 | ⟨_, hid, _⟩
    · exact absurd h1 (hnull i s)
    · exact ⟨s, hs, hid⟩
  refine ⟨⟨L1, _, hinit, hres, hlen, ?_, ?_, ?_⟩, ?_⟩
  · intro hpos
    have hlt : 0 < L1.m_scripts.length := by rw [hlen]; exact hpos
    have hget : L1.m_scripts[0]? = some L1.m_scripts[0] := List.getElem?_eq_getElem hlt
    cases hp : L1.m_scripts[0] with
    | none => rw [hget, hp]
    | some a =>
      rw [hp] at hget
      exact absurd hget (hzero a)
  · intro i
    constructor
    · rintro ⟨a, ha⟩
      obtain ⟨s, hs⟩ := hown.live a (List.getElem?_mem ha)
      have h := records_of_entry ha hs
      rw [hrec] at h
      rcases registered_source H content i s _ h with h1 | ⟨hne, hid, b, hb⟩
      · exact absurd h1 (hnull i s)
      · exact ⟨hne, (s, b), hb, hid⟩
    · rintro ⟨hne, sb, hsb, hid⟩
      have hlt : i < H.GetScriptIdsCount := by
        rcases hids sb hsb with h | h
        · rw [hid] at h
          exact absurd h hne
        · rw [hid] at h
          exact h
      obtain ⟨s, hs⟩ := registered_hit H content i hne
        (List.replicate H.GetScriptIdsCount none) (by simpa using hlt) ⟨sb, hsb, hid⟩
      rw [← hrec] at hs
      obtain ⟨a, ha, _⟩ := entry_of_records hs
      exact ⟨a, ha⟩
  · intro this b w2 self hlive hid
    exact RegisterSelf_keeps_resolved H L1 this b w2 self hres hlive hid
  · intro M this b w2 self hres2 hlive hid
    exact RegisterSelf_keeps_resolved H M this b w2 self hres2 hlive hid


/-- C12 (instance): `hostTwo` with a known and an unknown record, from the state at process
start. -/
theorem load_establishes_resolved_registry_witness :
    Lib.initial.m_scripts = [] ∧
      ∃ L1 w1, InitScriptLibrary hostTwo contentTwo Lib.initial worldTwo = Except.ok (L1, w1) ∧
        L1.Resolved hostTwo ∧ L1.m_scripts.length = hostTwo.GetScriptIdsCount ∧
        (0 < hostTwo.GetScriptIdsCount → L1.m_scripts[0]? = some none) :=
  ⟨rfl,
    (load_establishes_resolved_registry hostTwo contentTwo Lib.initial worldTwo rfl (by
      intro sb hsb
      simp only [contentTwo, List.mem_cons, List.mem_singleton, List.not_mem_nil, or_false]
        at hsb
      rcases hsb with h | h
      · subst h
        exact Or.inr (by decide)
      · subst h
        exact Or.inl (by decide))).1.imp
      (fun _ h => h.imp (fun _ h2 => ⟨h2.1, h2.2.1, h2.2.2.1, h2.2.2.2.1⟩))⟩

/-! ### Count versus content -/

theorem nonNull_set (m : List (Option Nat)) (x : Nat) :
    ∀ i, i < m.length →
      ((m.set i (some x)).filter Option.isSome).length =
        (m.filter Option.isSome).length + (if m[i]? = some none then 1 else 0) := by
  induction m with
  | nil =>
    intro i hi
    cases hi
  | cons p rest ih =>
    intro i hi
    cases i with
    | zero =>
      cases p <;> simp [List.filter_cons]
    | succ k =>
      have hk : k < rest.length := by simpa using hi
      have h := ih k hk
      cases p with
      | none => simp [List.filter_cons, h]
      | some a =>
        simp [List.filter_cons, h]
        omega

/-- What a returning `RegisterSelf` call has done. -/
theorem RegisterSelf_ok_cases {H : Host} {this : Nat} {b : Bool} {L L1 : Lib} {w w1 : World}
    (h : RegisterSelf H this b L w = Except.ok (L1, w1)) :
    ∃ self, L.script? this = some self ∧
      ((H.GetScriptId self.Name ≠ 0 ∧ H.GetScriptId self.Name < L.m_scripts.length ∧
          L1 = { L with
            m_scripts := L.m_scripts.set (H.GetScriptId self.Name) (some this)
            num_sc_scripts := wrapInt32 (L.num_sc_scripts + 1) }) ∨
        (H.GetScriptId self.Name = 0 ∧ L1 = { L with heap := L.heap.set this none })) := by
  unfold RegisterSelf at h
  split at h
  · cases h
  · rename_i self hself
    refine ⟨self, hself, ?_⟩
    simp only at h
    split at h
    · rename_i hne
      split at h
      · rename_i hlt
        cases h
        exact Or.inl ⟨hne, hlt, rfl⟩
      · cases h
    · rename_i hne
      have h0 : H.GetScriptId self.Name = 0 := by
        by_contra hcon
        exact hne hcon
      simp only [deleteScript, script?_iff.mp hself] at h
      cases h
      exact Or.inr ⟨h0, rfl⟩


theorem resolvedIds_cons {H : Host} {L : Lib} {this : Nat} {b : Bool} {self : Script}
    (calls : List (Nat × Bool)) (hs : L.script? this = some self) :
    resolvedIds H L ((this, b) :: calls) =
      (if H.GetScriptId self.Name ≠ 0 then [H.GetScriptId self.Name] else []) ++
        resolvedIds H L calls := by
  by_cases h0 : H.GetScriptId self.Name = 0
  · simp [resolvedIds, List.filterMap_cons, hs, List.filter_cons, h0]
  · simp [resolvedIds, List.filterMap_cons, hs, List.filter_cons, h0]

/-- Along a returning sequence of `RegisterSelf` calls the non-null entries are exactly the
ids of the successful registrations so far, the count is their number as a 32-bit `int`, and
the number of non-null entries is the number of distinct ids among them. -/
theorem registerSeq_inv (H : Host) (L0 : Lib) (calls : List (Nat × Bool)) :
    ∀ (L : Lib) (w : World) (acc : List Nat) (L1 : Lib) (w1 : World),
      (∀ a s, L.script? a = some s → L0.script? a = some s) →
      (∀ i, (∃ a, L.m_scripts[i]? = some (some a)) ↔ i ∈ acc) →
      L.num_sc_scripts = wrapInt32 acc.length → L.nonNull = acc.toFinset.card →
      registerSeq H calls L w = Except.ok (L1, w1) →
      L1.num_sc_scripts = wrapInt32 (acc ++ resolvedIds H L0 calls).length ∧
      L1.nonNull = (acc ++ resolvedIds H L0 calls).toFinset.card := by
  induction calls with
  | nil =>
    intro L w acc L1 w1 _ _ hcnt hnn h
    cases h
    simp [resolvedIds, hcnt, hnn]
  | cons c rest ih =>
    intro L w acc L1 w1 hmono hiff hcnt hnn h
    obtain ⟨this, b⟩ := c
    simp only [registerSeq] at h
    split at h
    · cases h
    · rename_i L2 w2 hreg
      obtain ⟨self, hself, hcase⟩ := RegisterSelf_ok_cases hreg
      rw [resolvedIds_cons rest (hmono this self hself)]
      rcases hcase with ⟨hne, hlt, hL2⟩ | ⟨h0, hL2⟩
      · simp only [ne_eq, hne, not_false_eq_true, if_true]
        rw [← List.append_assoc]
        refine ih L2 w2 (acc ++ [H.GetScriptId self.Name]) L1 w1 ?_ ?_ ?_ ?_ h
        · subst hL2
          exact hmono
        · subst hL2
          intro i
          show (∃ a, (L.m_scripts.set (H.GetScriptId self.Name) (some this))[i]? =
            some (some a)) ↔ _
          rw [List.getElem?_set]
          by_cases heq : H.GetScriptId self.Name = i
          · subst heq
            simp [hlt]
          · simp only [heq, if_false, hiff i, List.mem_append, List.mem_singleton]
            constructor
            · intro hmem
              exact Or.inl hmem
            · rintro (hmem | hmem)
              · exact hmem
              · exact absurd hmem.symm heq
        · subst hL2
          show wrapInt32 (L.num_sc_scripts + 1) = _
          rw [hcnt, wrapInt32_add]
          simp
        · subst hL2
          show ((L.m_scripts.set (H.GetScriptId self.Name) (some this)).filter
            Option.isSome).length = _
          rw [nonNull_set _ _ _ hlt]
          have hnn2 : (L.m_scripts.filter Option.isSome).length = acc.toFinset.card := hnn
          rw [hnn2]
          have htf : (acc ++ [H.GetScriptId self.Name]).toFinset =
              insert (H.GetScriptId self.Name) acc.toFinset := by
            ext j
            simp [or_comm]
          rw [htf]
          have hget : L.m_scripts[H.GetScriptId self.Name]? =
              some L.m_scripts[H.GetScriptId self.Name] := List.getElem?_eq_getElem hlt
          by_cases hmem : H.GetScriptId self.Name ∈ acc
          · obtain ⟨a, ha⟩ := (hiff _).mpr hmem
            rw [Finset.card_insert_of_mem (List.mem_toFinset.mpr hmem)]
            simp [ha]
          · rw [Finset.card_insert_of_not_mem (fun hm => hmem (List.mem_toFinset.mp hm))]
            cases hp : L.m_scripts[H.GetScriptId self.Name] with
            | none =>
              rw [hp] at hget
              simp [hget]
            | some a =>
              rw [hp] at hget
              exact absurd ((hiff _).mp ⟨a, hget⟩) hmem
      · simp only [ne_eq, h0, not_true_eq_false, if_false, List.nil_append]
        refine ih L2 w2 acc L1 w1 ?_ ?_ ?_ ?_ h
        · subst hL2
          intro a s hs
          apply hmono
          rw [script?_iff] at hs ⊢
          have hs2 : (L.heap.set this none)[a]? = some (some (Obj.script s)) := hs
          rw [List.getElem?_set] at hs2
          split at hs2
          · split at hs2 <;> cases hs2
          · exact hs2
        · subst hL2
          exact hiff
        · subst hL2
          exact hcnt
        · subst hL2
          exact hnn

/-- A `RegisterSelf` call of a live record whose id is 0 or inside the registry returns; it
keeps the registry size and every other heap object. -/
theorem RegisterSelf_total (H : Host) (L : Lib) (this : Nat) (b : Bool) (w : World)
    (self : Script) (hlive : L.script? this = some self)
    (hid : H.GetScriptId self.Name = 0 ∨ H.GetScriptId self.Name < L.m_scripts.length) :
    ∃ L1 w1, RegisterSelf H this b L w = Except.ok (L1, w1) ∧
      L1.m_scripts.length = L.m_scripts.length ∧
      ∀ a, a ≠ this → L1.script? a = L.script? a := by
  have hheap := script?_iff.mp hlive
  by_cases h0 : H.GetScriptId self.Name = 0
  · refine ⟨{ L with heap := L.heap.set this none },
      if b then
        w.emit (Event.script_error_log
          "Script registering but ScriptName %s is not assigned in database. Script will not be used."
          [LogArg.str self.Name])
      else w, ?_, rfl, ?_⟩
    · simp [RegisterSelf, hlive, h0, deleteScript, hheap]
    · intro a ha
      apply script?_congr
      show (L.heap.set this none)[a]? = _
      simp [List.getElem?_set, Ne.symm ha]
  · have hlt : H.GetScriptId self.Name < L.m_scripts.length := by
      rcases hid with h | h
      · exact absurd h h0
      · exact h
    refine ⟨{ L with
        m_scripts := L.m_scripts.set (H.GetScriptId self.Name) (some this)
        num_sc_scripts := wrapInt32 (L.num_sc_scripts + 1) }, w, ?_, by simp, fun _ _ => rfl⟩
    simp only [RegisterSelf, hlive, ne_eq, h0, not_false_eq_true, if_true, hlt]

theorem registerSeq_total (H : Host) (calls : List (Nat × Bool)) :
    ∀ (L : Lib) (w : World),
      (∀ c ∈ calls, ∃ s, L.script? c.1 = some s ∧
        (H.GetScriptId s.Name = 0 ∨ H.GetScriptId s.Name < L.m_scripts.length)) →
      (calls.map Prod.fst).Nodup →
      ∃ L1 w1, registerSeq H calls L w = Except.ok (L1, w1) := by
  induction calls with
  | nil =>
    intro L w _ _
    exact ⟨L, w, rfl⟩
  | cons c rest ih =>
    intro L w hlive hnd
    obtain ⟨this, b⟩ := c
    obtain ⟨self, hself, hid⟩ := hlive (this, b) (List.mem_cons_self _ _)
    obtain ⟨L2, w2, hreg, hlen, hkeep⟩ := RegisterSelf_total H L this b w self hself hid
    simp only [List.map_cons, List.nodup_cons] at hnd
    obtain ⟨L1, w1, hrun⟩ := ih L2 w2 (by
      intro c hc
      obtain ⟨s, hs, hsid⟩ := hlive c (List.mem_cons_of_mem _ hc)
      have hne : c.1 ≠ this := by
        intro heq
        exact hnd.1 (by rw [← heq]; exact List.mem_map_of_mem _ hc)
      exact ⟨s, by rw [hkeep c.1 hne]; exact hs, by rw [hlen]; exact hsid⟩) hnd.2
    exact ⟨L1, w1, by simp only [registerSeq, hreg]; exact hrun⟩

/-- Registering the same live record `n` times in a row, `n ≠ 0`, under a non-zero id inside
the registry: the record is stored once and the count has been incremented `n` times. -/
theorem registerSeq_repeat (H : Host) (this : Nat) (b : Bool) (self : Script)
    (hne : H.GetScriptId self.Name ≠ 0) (w : World) :
    ∀ (n : Nat) (L : Lib), L.script? this = some self →
      H.GetScriptId self.Name < L.m_scripts.length →
      registerSeq H (List.replicate (n + 1) (this, b)) L w = Except.ok
        ({ L with
          m_scripts := L.m_scripts.set (H.GetScriptId self.Name) (some this)
          num_sc_scripts := wrapInt32 (L.num_sc_scripts + ((n + 1 : Nat) : Int)) }, w) := by
  intro n
  induction n with
  | zero =>
    intro L hlive hlt
    simp [List.replicate, registerSeq, RegisterSelf, hlive, hne, hlt]
  | succ k ih =>
    intro L hlive hlt
    have hstep : RegisterSelf H this b L w = Except.ok
        ({ L with
          m_scripts := L.m_scripts.set (H.GetScriptId self.Name) (some this)
          num_sc_scripts := wrapInt32 (L.num_sc_scripts + 1) }, w) := by
      simp only [RegisterSelf, hlive, ne_eq, hne, not_false_eq_true, if_true, hlt]
    rw [List.replicate_succ]
    have hunfold : registerSeq H ((this, b) :: List.replicate (k + 1) (this, b)) L w =
        registerSeq H (List.replicate (k + 1) (this, b))
          { L with
            m_scripts := L.m_scripts.set (H.GetScriptId self.Name) (some this)
            num_sc_scripts := wrapInt32 (L.num_sc_scripts + 1) } w := by
      rw [registerSeq, hstep]
    rw [hunfold, ih { L with
        m_scripts := L.m_scripts.set (H.GetScriptId self.Name) (some this)
        num_sc_scripts := wrapInt32 (L.num_sc_scripts + 1) } hlive (by simpa using hlt)]
    have harith : L.num_sc_scripts + 1 + ((k + 1 : Nat) : Int) =
        L.num_sc_scripts + ((k + 1 + 1 : Nat) : Int) := by
      push_cast
      omega
    simp only [List.set_set, wrapInt32_add, harith]

/-- C19 (counterexample): in `libFresh` (all-null registry of size 2, count 0) the single
record at address 0 registers twice. Only one record is registered, so no two registered
records resolve to the same id, yet the registry holds one record and the count is 2. And
when it registers `2147483648` times the count is `-2147483648`, below the one entry held. -/
theorem one_record_registered_repeatedly :
    (∀ p ∈ libFresh.m_scripts, p = none) ∧ libFresh.num_sc_scripts = 0 ∧
      (∀ c1 ∈ [((0 : Nat), true), (0, true)], ∀ c2 ∈ [((0 : Nat), true), (0, true)],
        c1.1 = c2.1) ∧
      (∃ L1 w1, registerSeq hostTwo [(0, true), (0, true)] libFresh worldTwo =
          Except.ok (L1, w1) ∧
        L1.nonNull = 1 ∧ L1.num_sc_scripts = 2 ∧ (L1.nonNull : Int) ≠ L1.num_sc_scripts) ∧
      (∃ L1 w1, registerSeq hostTwo (List.replicate 2147483648 (0, true)) libFresh worldTwo =
          Except.ok (L1, w1) ∧
        L1.nonNull = 1 ∧ L1.num_sc_scripts = -2147483648 ∧
        ¬ ((L1.nonNull : Int) ≤ L1.num_sc_scripts)) := by
  refine ⟨by decide, rfl, by decide, ⟨_, _, rfl, rfl, rfl, by decide⟩, ?_⟩
  have h := registerSeq_repeat hostTwo 0 true scriptGossip (by decide) worldTwo 2147483647
    libFresh rfl (by decide)
  refine ⟨_, _, h, rfl, by decide, by decide⟩

/-- C19 (amended): start from an all-null registry with count 0 and make any sequence of
`RegisterSelf` calls. Whenever the sequence returns, `num_sc_scripts` is the number of
successful registrations held in a 32-bit `int`; and as long as at most `2147483647` of the
calls succeeded, the number of non-null registry entries is at most `num_sc_scripts`, and the
two are equal exactly when no two successful registrations, of different records or of one
record twice, resolved to the same id (`resolvedIds` has no duplicate); with a duplicate the
count exceeds the number of records the registry holds. The sequence does return when the
calls are made on distinct live records whose ids are 0 or inside the registry. -/
theorem count_bounds_registry_content (H : Host) (calls : List (Nat × Bool)) (L : Lib)
    (w : World) (hnull : ∀ p ∈ L.m_scripts, p = none) (hzero : L.num_sc_scripts = 0) :
    (∀ L1 w1, registerSeq H calls L w = Except.ok (L1, w1) →
      L1.num_sc_scripts = wrapInt32 (resolvedIds H L calls).length ∧
      ((resolvedIds H L calls).length ≤ 2147483647 →
        (L1.nonNull : Int) ≤ L1.num_sc_scripts ∧
        ((L1.nonNull : Int) = L1.num_sc_scripts ↔ (resolvedIds H L calls).Nodup) ∧
        (¬ (resolvedIds H L calls).Nodup → (L1.nonNull : Int) < L1.num_sc_scripts))) ∧
    ((∀ c ∈ calls, ∃ s, L.script? c.1 = some s ∧
        (H.GetScriptId s.Name = 0 ∨ H.GetScriptId s.Name < L.m_scripts.length)) →
      (calls.map Prod.fst).Nodup →
      ∃ L1 w1, registerSeq H calls L w = Except.ok (L1, w1)) := by
  refine ⟨?_, registerSeq_total H calls L w⟩
  intro L1 w1 hrun
  have hnn0 : L.nonNull = ([] : List Nat).toFinset.card := by
    have : L.m_scripts.filter Option.isSome = [] := by
      rw [List.filter_eq_nil_iff]
      intro p hp
      rw [hnull p hp]
      simp
    simp [Lib.nonNull, this]
  have hiff0 : ∀ i, (∃ a, L.m_scripts[i]? = some (some a)) ↔ i ∈ ([] : List Nat) := by
    intro i
    constructor
    · rintro ⟨a, ha⟩
      have := hnull _ (List.getElem?_mem ha)
      cases this
    · intro h
      cases h
  obtain ⟨hcnt, hnn⟩ := registerSeq_inv H L calls L w [] L1 w1 (fun _ _ h => h) hiff0
    (by rw [hzero]; decide) hnn0 hrun
  simp only [List.nil_append] at hcnt hnn
  refine ⟨hcnt, ?_⟩
  intro hbound
  have hw : wrapInt32 ((resolvedIds H L calls).length : Int) =
      ((resolvedIds H L calls).length : Int) :=
    wrapInt32_of_range (by omega) (by omega)
  have hle : L1.nonNull ≤ (resolvedIds H L calls).length := by
    rw [hnn]
    exact List.toFinset_card_le _
  have heq : L1.nonNull = (resolvedIds H L calls).length ↔ (resolvedIds H L calls).Nodup := by
    rw [hnn, List.card_toFinset]
    rw [(List.dedup_sublist _).length_eq]
    exact List.dedup_eq_self
  rw [hcnt, hw]
  refine ⟨by exact_mod_cast hle, ?_, ?_⟩
  · rw [← heq]
    exact_mod_cast Iff.rfl
  · intro hnd
    have hne : L1.nonNull ≠ (resolvedIds H L calls).length := fun h => hnd (heq.mp h)
    have hlt : L1.nonNull < (resolvedIds H L calls).length := Nat.lt_of_le_of_ne hle hne
    exact_mod_cast hlt

/-- C19 (instance): the two records of `libDup` both resolve to id 1; after both calls the
registry holds one record and the count is 2. -/
theorem count_bounds_registry_content_witness :
    (∀ p ∈ libDup.m_scripts, p = none) ∧ libDup.num_sc_scripts = 0 ∧
      registerSeq hostTwo [(0, true), (1, true)] libDup worldTwo =
        Except.ok (libDupRegistered, worldTwo) ∧
      resolvedIds hostTwo libDup [(0, true), (1, true)] = [1, 1] ∧
      libDupRegistered.nonNull = 1 ∧ libDupRegistered.num_sc_scripts = 2 ∧
      libDupRegistered.num_sc_scripts =
        wrapInt32 (resolvedIds hostTwo libDup [(0, true), (1, true)]).length ∧
      ((resolvedIds hostTwo libDup [(0, true), (1, true)]).length ≤ 2147483647 →
        (libDupRegistered.nonNull : Int) ≤ libDupRegistered.num_sc_scripts ∧
        ((libDupRegistered.nonNull : Int) = libDupRegistered.num_sc_scripts ↔
          (resolvedIds hostTwo libDup [(0, true), (1, true)]).Nodup) ∧
        (¬ (resolvedIds hostTwo libDup [(0, true), (1, true)]).Nodup →
          (libDupRegistered.nonNull : Int) < libDupRegistered.num_sc_scripts)) :=
  ⟨by decide, rfl, rfl, by decide, rfl, rfl,
    (count_bounds_registry_content hostTwo [(0, true), (1, true)] libDup worldTwo (by decide)
      rfl).1 libDupRegistered worldTwo rfl⟩

end SD3
